import Mathlib

/-!
# Yocto/RayTrace (Homework 02): progressive accumulation, snapshot, shader dispatch

A shallow embedding of `libs/yocto_raytrace/yocto_raytrace.cpp`.

* Scalars (`float`) are exact rationals extended with one absorbing non-finite value that
  stands for `±inf` and `NaN`; rounding is not modelled.
* C++ references that are mutated in place (`raytrace_state&`, `color_image&`, `rng_state&`)
  become explicit state passing: a function returns the new value next to its outcome.
* Exceptions are values of `Exn`; a recursion that may not terminate carries a fuel argument
  and answers `none` when the fuel is used up.
* Everything that lives in the Yocto/GL library rather than in this file of the repository
  (intersection, attribute lookup, sampling, random numbers, vector geometry) is a field of
  `externals`, so every theorem holds for every implementation of them.
-/

namespace yocto

/-! ## Scalars and vectors -/

/-- Modelled from the spec: the C++ `float`/`double` scalar. A finite value is an exact
rational; `nonfinite` stands for every value `std::isfinite` rejects. -/
inductive float where
  | fin (q : ℚ)
  | nonfinite
deriving DecidableEq

namespace float

/-- Scalar literal from an integer, as in `(float)state.samples`. -/
def ofInt (n : Int) : float := .fin n

/-- Scalar `+`; a non-finite operand gives a non-finite result. -/
def add : float → float → float
  | .fin a, .fin b => .fin (a + b)
  | _, _ => .nonfinite

/-- Scalar `-`. -/
def sub : float → float → float
  | .fin a, .fin b => .fin (a - b)
  | _, _ => .nonfinite

/-- Scalar `*`; a non-finite operand gives a non-finite result (`0 * inf` is `NaN`). -/
def mul : float → float → float
  | .fin a, .fin b => .fin (a * b)
  | _, _ => .nonfinite

/-- Scalar `/`; division by zero is non-finite (`x / 0` is `±inf` or `NaN`). -/
def div : float → float → float
  | .fin a, .fin b => if b = 0 then .nonfinite else .fin (a / b)
  | _, _ => .nonfinite

/-- Unary minus. -/
def neg : float → float
  | .fin a => .fin (-a)
  | .nonfinite => .nonfinite

/-- The test `a < b`; a comparison with a non-finite operand is false, as for `NaN`. -/
def lt : float → float → Bool
  | .fin a, .fin b => decide (a < b)
  | _, _ => false

/-- The test `a <= b`. -/
def le : float → float → Bool
  | .fin a, .fin b => decide (a ≤ b)
  | _, _ => false

/-- The test `a >= b`. -/
def ge (a b : float) : Bool := le b a

/-- The test `a == b`; false on a non-finite operand, as for `NaN`. -/
def eq : float → float → Bool
  | .fin a, .fin b => decide (a = b)
  | _, _ => false

/-- The function `std::isfinite` on a scalar. -/
def isfinite : float → Bool
  | .fin _ => true
  | .nonfinite => false

/-- The function `abs` on a scalar. -/
def abs : float → float
  | .fin a => .fin |a|
  | .nonfinite => .nonfinite

/-- The function `fmin`, which returns the other operand when one is `NaN`. -/
def fmin : float → float → float
  | .fin a, .fin b => .fin (min a b)
  | .fin a, .nonfinite => .fin a
  | .nonfinite, b => b

/-- The call `pow(x, n)` for a literal natural exponent `n`, by repeated multiplication. -/
def pow (x : float) : Nat → float
  | 0 => .fin 1
  | n + 1 => mul (pow x n) x

/-- The function `fmod(x, y)`: the remainder of the division truncated toward zero, with the
sign of `x`. -/
def fmod : float → float → float
  | .fin a, .fin b =>
    if b = 0 then .nonfinite
    else .fin (a - b * (if 0 ≤ a / b then (⌊a / b⌋ : ℚ) else (⌈a / b⌉ : ℚ)))
  | _, _ => .nonfinite

/-- C++ cast `(int)round(x)`: the nearest integer, halves away from zero. -/
def round_to_int : float → Int
  | .fin a => if 0 ≤ a then ⌊a + 1 / 2⌋ else ⌈a - 1 / 2⌉
  | .nonfinite => 0

end float

/-- Modelled from the spec: `vec2f` of yocto_math. -/
structure vec2f where
  x : float
  y : float
deriving DecidableEq

/-- Modelled from the spec: `vec3f` of yocto_math. -/
structure vec3f where
  x : float
  y : float
  z : float
deriving DecidableEq

/-- Modelled from the spec: `vec4f` of yocto_math. -/
structure vec4f where
  x : float
  y : float
  z : float
  w : float
deriving DecidableEq

namespace vec2f

/-- Componentwise `a / b`. -/
def div (a b : vec2f) : vec2f := ⟨a.x.div b.x, a.y.div b.y⟩

/-- Vector times scalar. -/
def scale (a : vec2f) (k : float) : vec2f := ⟨a.x.mul k, a.y.mul k⟩

/-- Vector minus scalar. -/
def subs (a : vec2f) (k : float) : vec2f := ⟨a.x.sub k, a.y.sub k⟩

end vec2f

namespace vec3f

/-- The aggregate `vec3f{0, 0, 0}`. -/
def zero : vec3f := ⟨.fin 0, .fin 0, .fin 0⟩

/-- Componentwise `a + b`. -/
def add (a b : vec3f) : vec3f := ⟨a.x.add b.x, a.y.add b.y, a.z.add b.z⟩

/-- Componentwise `a - b`. -/
def sub (a b : vec3f) : vec3f := ⟨a.x.sub b.x, a.y.sub b.y, a.z.sub b.z⟩

/-- Unary minus. -/
def neg (a : vec3f) : vec3f := ⟨a.x.neg, a.y.neg, a.z.neg⟩

/-- Vector times scalar. -/
def scale (a : vec3f) (k : float) : vec3f := ⟨a.x.mul k, a.y.mul k, a.z.mul k⟩

/-- Vector plus scalar. -/
def adds (a : vec3f) (k : float) : vec3f := ⟨a.x.add k, a.y.add k, a.z.add k⟩

/-- The function `dot`. -/
def dot (a b : vec3f) : float := ((a.x.mul b.x).add (a.y.mul b.y)).add (a.z.mul b.z)

end vec3f

namespace vec4f

/-- The aggregate `vec4f{0, 0, 0, 0}`; `{0, 0, 0}` and `{0.0f}` give the same value because
the members left out take their default initialiser `0`. -/
def zero : vec4f := ⟨.fin 0, .fin 0, .fin 0, .fin 0⟩

/-- Componentwise `a + b`. -/
def add (a b : vec4f) : vec4f := ⟨a.x.add b.x, a.y.add b.y, a.z.add b.z, a.w.add b.w⟩

/-- Componentwise `a * b`. -/
def mul (a b : vec4f) : vec4f := ⟨a.x.mul b.x, a.y.mul b.y, a.z.mul b.z, a.w.mul b.w⟩

/-- Vector times scalar. -/
def scale (a : vec4f) (k : float) : vec4f := ⟨a.x.mul k, a.y.mul k, a.z.mul k, a.w.mul k⟩

/-- Scalar times vector. -/
def lscale (k : float) (a : vec4f) : vec4f := ⟨k.mul a.x, k.mul a.y, k.mul a.z, k.mul a.w⟩

/-- Vector divided by scalar. -/
def divs (a : vec4f) (k : float) : vec4f := ⟨a.x.div k, a.y.div k, a.z.div k, a.w.div k⟩

/-- The function `isfinite` on a vector: every component is finite. -/
def isfinite (a : vec4f) : Bool :=
  a.x.isfinite && a.y.isfinite && a.z.isfinite && a.w.isfinite

end vec4f

/-- Modelled from the spec: `rgb_to_rgba` of yocto_color, which appends alpha `1`. -/
def rgb_to_rgba (rgb : vec3f) : vec4f := ⟨rgb.x, rgb.y, rgb.z, .fin 1⟩

/-! ## Scene, parameters and render state -/

/-- Modelled from the spec: the exceptions the renderer throws, with their messages. -/
inductive Exn where
  | runtime_error (what : String)
  | invalid_argument (what : String)
deriving DecidableEq

/-- How a call of a function that mutates its argument in place ends: it returns, it throws,
or (when the fuel given to the recursive shader is used up) it does not return. -/
inductive Outcome where
  | returned
  | threw (e : Exn)
  | diverged
deriving DecidableEq

/-- Modelled from the spec: `frame3f` of yocto_math, three axes and an origin. -/
structure frame3f where
  x : vec3f
  y : vec3f
  z : vec3f
  o : vec3f
deriving DecidableEq

/-- Modelled from the spec: `ray3f` of yocto_geometry, origin and direction. -/
structure ray3f where
  o : vec3f
  d : vec3f
deriving DecidableEq

/-- Modelled from the spec: the per-pixel random stream `rng_state` of yocto_sampling; how it is
seeded and advanced is external. -/
structure rng_state where
  state : Nat
  inc : Nat
deriving DecidableEq

/-- Modelled from the spec: the fields of `camera_data` that `eval_camera` and `make_state` read. -/
structure camera_data where
  frame : frame3f
  lens : float
  film : float
  aspect : float
deriving DecidableEq

/-- Modelled from the spec: `material_type` of yocto_scene. The five tags the shader names,
and every other value the enumeration can hold. -/
inductive material_type where
  | matte
  | glossy
  | reflective
  | transparent
  | refractive
  | other (tag : Nat)
deriving DecidableEq

/-- Modelled from the spec: the material resolved at a hit (`eval_material`). -/
structure material_point where
  type : material_type
  emission : vec3f
  color : vec3f
  opacity : float
  roughness : float
  ior : float
deriving DecidableEq

/-- Modelled from the spec: the fields of a scene material that `shade_eyelight` reads. -/
structure material_data where
  color : vec3f
deriving DecidableEq

/-- Modelled from the spec: a scene instance, a frame and the indices of its shape and material. -/
structure instance_data where
  frame : frame3f
  shape : Int
  material : Int
deriving DecidableEq

/-- Modelled from the spec: a shape; the shader itself only tests which element list is empty. -/
structure shape_data where
  points : List Int
  lines : List (Int × Int)
  triangles : List (Int × Int × Int)
  quads : List (Int × Int × Int × Int)
  positions : List vec3f
  normals : List vec3f
  texcoords : List vec2f
deriving DecidableEq

/-- Modelled from the spec: the parts of `scene_data` the renderer indexes. -/
structure scene_data where
  cameras : List camera_data
  instances : List instance_data
  shapes : List shape_data
  materials : List material_data
  environments : List vec3f
deriving DecidableEq

/-- Modelled from the spec: the acceleration structure, a handle only the intersection
oracle looks into. -/
structure bvh_scene where
  handle : Nat
deriving DecidableEq

/-- Modelled from the spec: the answer of `intersect_bvh`. -/
structure bvh_intersection where
  instance_id : Int
  element : Int
  uv : vec2f
  distance : float
  hit : Bool
deriving DecidableEq

/-- Modelled from the spec: `raytrace_shader_type`. The six modes `get_shader` names, and every
other value the enumeration can hold. -/
inductive raytrace_shader_type where
  | raytrace
  | matte
  | eyelight
  | normal
  | texcoord
  | color
  | other (tag : Nat)
deriving DecidableEq

/-- Modelled from the spec: `raytrace_params`, the configuration surface. -/
structure raytrace_params where
  camera : Int
  resolution : Int
  shader : raytrace_shader_type
  samples : Int
  bounces : Int
  noparallel : Bool
  wet : Bool
  seed : Nat
deriving DecidableEq

/-- Modelled from the spec: `raytrace_state`, the progressive render state. -/
structure raytrace_state where
  width : Int
  height : Int
  samples : Int
  image : List vec4f
  hits : List Int
  rngs : List rng_state
deriving DecidableEq

/-- Modelled from the spec: `color_image` of yocto_image. -/
structure color_image where
  width : Int
  height : Int
  linear : Bool
  pixels : List vec4f
deriving DecidableEq

instance : Inhabited vec2f := ⟨⟨.fin 0, .fin 0⟩⟩
instance : Inhabited vec3f := ⟨vec3f.zero⟩
instance : Inhabited vec4f := ⟨vec4f.zero⟩
instance : Inhabited frame3f := ⟨⟨default, default, default, default⟩⟩
instance : Inhabited rng_state := ⟨⟨0, 0⟩⟩
instance : Inhabited camera_data := ⟨⟨default, .fin 0, .fin 0, .fin 0⟩⟩
instance : Inhabited material_data := ⟨⟨default⟩⟩
instance : Inhabited instance_data := ⟨⟨default, 0, 0⟩⟩
instance : Inhabited shape_data := ⟨⟨[], [], [], [], [], [], []⟩⟩

/-- The element `v[i]` of a `std::vector` for a C++ `int` index. Reading outside the vector is
undefined in C++; the model answers the default value there. -/
def at_index {α : Type} [Inhabited α] (v : List α) (i : Int) : α :=
  if 0 ≤ i then v.getD i.toNat default else default

/-- The signature `raytrace_shader_func`: the random stream is passed in and handed back, and
`none` means that the fuel given to the recursion was used up. -/
abbrev raytrace_shader_func : Type :=
  scene_data → bvh_scene → ray3f → Int → rng_state → raytrace_params →
    Option (vec4f × rng_state)

/-- Everything the renderer consumes from the Yocto/GL library: the intersection and attribute
oracle, sampling, the random-number primitive, vector geometry and the parallel-for schedule. -/
structure externals where
  intersect_bvh : bvh_scene → scene_data → ray3f → bvh_intersection
  eval_material : scene_data → instance_data → Int → vec2f → material_point
  eval_position : shape_data → Int → vec2f → vec3f
  eval_normal : shape_data → Int → vec2f → vec3f
  eval_texcoord : scene_data → instance_data → Int → vec2f → vec2f
  eval_environment : scene_data → vec3f → vec3f
  transform_point : frame3f → vec3f → vec3f
  transform_direction : frame3f → vec3f → vec3f
  normalize : vec3f → vec3f
  orthonormalize : vec3f → vec3f → vec3f
  reflect : vec3f → vec3f → vec3f
  refract : vec3f → vec3f → float → vec3f
  fresnel_schlick : vec3f → vec3f → vec3f → vec3f
  sample_hemisphere : vec3f → vec2f → vec3f
  sample_hemisphere_cos : vec3f → vec2f → vec3f
  sample_hemisphere_cospower : float → vec3f → vec2f → vec3f
  rand1f : rng_state → float × rng_state
  rand2f : rng_state → vec2f × rng_state
  rand1i : rng_state → Int → Int × rng_state
  make_rng : Nat → Nat → rng_state
  sqrt : float → float
  smoothstep : float → float → float → float
  pi : float
  make_image : Int → Int → Bool → color_image
  parallel_order : Nat → List Nat

/-! ## Scene evaluation -/

/-- Source `eval_camera`: the ray from the camera through image-plane coordinate `uv`. -/
def eval_camera (ext : externals) (camera : camera_data) (uv : vec2f) : ray3f :=
  let film : vec2f :=
    if camera.aspect.ge (.fin 1) then ⟨camera.film, camera.film.div camera.aspect⟩
    else ⟨camera.film.mul camera.aspect, camera.film⟩
  let q := ext.transform_point camera.frame
    ⟨film.x.mul ((float.fin (1 / 2)).sub uv.x), film.y.mul (uv.y.sub (.fin (1 / 2))), camera.lens⟩
  let e := ext.transform_point camera.frame ⟨.fin 0, .fin 0, .fin 0⟩
  ⟨e, ext.normalize (e.sub q)⟩

/-! ## Path tracing -/

/-- Source `mixImpl`: `x * (1 - a) + y * a`. -/
def mixImpl (x y : vec3f) (a : float) : vec3f :=
  (x.scale ((float.fin 1).sub a)).add (y.scale a)

/-- Source `saturation`. The aggregate `{dot(...)}` sets only the first member; the other two
keep their default `0`. -/
def saturation (vec : vec3f) (t : float) : vec3f :=
  let x_value : vec3f :=
    ⟨vec.dot ⟨.fin (2126 / 10000), .fin (7152 / 10000), .fin (722 / 10000)⟩, .fin 0, .fin 0⟩
  mixImpl x_value vec t

/-- Source `shade_wet`: the saturation and vignette tint of the wet overlay. -/
def shade_wet (ext : externals) (color : vec3f) (uv : vec2f) (params : raytrace_params) : vec4f :=
  let color : vec3f := ⟨ext.sqrt color.x, ext.sqrt color.y, ext.sqrt color.z⟩
  let color := saturation color (.fin (17 / 10))
  let new_uv :=
    ((uv.div ⟨float.ofInt params.resolution,
        ((float.ofInt params.resolution).mul (.fin 300)).div (.fin 720)⟩).scale (.fin 2)).subs
      (.fin 1)
  let vgn :=
    (ext.smoothstep (.fin (12 / 10)) (.fin (7 / 10)) new_uv.y.abs).mul
      (ext.smoothstep (.fin (11 / 10)) (.fin (8 / 10)) new_uv.x.abs)
  let color := color.scale
    ((float.fin 1).sub (((float.fin 1).sub vgn).mul (.fin (15 / 100))))
  rgb_to_rgba color

/-- Source `reflectance`: the Schlick reflectance used by the refractive material. -/
def reflectance (cosine : float) (ior : float) : float :=
  let r_zero := ((((float.fin 1).sub ior).div ((float.fin 1).add ior))).pow 2
  r_zero.add (((float.fin 1).sub r_zero).mul (((float.fin 1).sub cosine).pow 5))

/-- The recursive call as the body of `shade_raytrace` sees it: a ray, a depth and a random
stream give a radiance and the advanced stream, or nothing when the fuel is used up. -/
abbrev shade_rec : Type := ray3f → Int → rng_state → Option (vec4f × rng_state)

/-- Source `shade_raytrace`, lines 126-136: the normal used for shading, by kind of shape. -/
def hard_facing_normal (ext : externals) (shape : shape_data) (ray : ray3f) (normal : vec3f) :
    vec3f :=
  if !shape.points.isEmpty then ray.d.neg
  else if !shape.lines.isEmpty then ext.orthonormalize ray.d.neg normal
  else if !shape.triangles.isEmpty then
    if (ray.d.neg.dot normal).lt (.fin 0) then normal.neg else normal
  else normal

/-- Source `shade_raytrace`, lines 145-159: the wet overlay on a material that is not
transparent; `rng` is the stream after the draw for `wet_normal`. -/
def shade_raytrace_wet (ext : externals) (self : shade_rec) (ray : ray3f) (bounce : Int)
    (params : raytrace_params) (inst : instance_data) (intersection : bvh_intersection)
    (material : material_point) (position wet_normal : vec3f) (exponent : float)
    (radiance : vec4f) (rng : rng_state) : Option (vec4f × rng_state) :=
  let weight : float := if inst.material = 0 then .fin (75 / 100) else .fin (30 / 100)
  if material.roughness.eq (.fin 0) then
    let incoming := ext.reflect ray.d.neg wet_normal
    match self ⟨position, incoming⟩ (bounce + 1) rng with
    | none => none
    | some (l, rng) =>
      some (radiance.add ((((rgb_to_rgba material.color).mul
        (shade_wet ext material.color intersection.uv params)).mul l).scale weight), rng)
  else
    let (ruv, rng) := ext.rand2f rng
    let halfway := ext.sample_hemisphere_cospower exponent wet_normal ruv
    let incoming := ext.reflect ray.d.neg halfway
    match self ⟨position, incoming⟩ (bounce + 1) rng with
    | none => none
    | some (l, rng) =>
      some (radiance.add ((((rgb_to_rgba material.color).mul
        (shade_wet ext material.color intersection.uv params)).mul l).scale weight), rng)

/-- Source `shade_raytrace`, lines 162-250: the switch over the material tag. A tag with no
case leaves the switch and reaches the final `return` of the function. -/
def shade_raytrace_material (ext : externals) (self : shade_rec) (scene : scene_data)
    (ray : ray3f) (bounce : Int) (material : material_point) (position normal : vec3f)
    (radiance : vec4f) (rng : rng_state) : Option (vec4f × rng_state) :=
  match material.type with
  | .matte =>
    let (ruv, rng) := ext.rand2f rng
    let indirect_incoming := ext.sample_hemisphere normal ruv
    match self ⟨position, indirect_incoming⟩ (bounce + 1) rng with
    | none => none
    | some (l1, rng) =>
      let radiance := radiance.add
        (((((rgb_to_rgba material.color).lscale ((float.fin 2).mul ext.pi)).divs ext.pi).mul
          l1).scale (normal.dot indirect_incoming))
      let (ruv, rng) := ext.rand2f rng
      let incoming := ext.sample_hemisphere_cos normal ruv
      match self ⟨position, incoming⟩ (bounce + 1) rng with
      | none => none
      | some (l2, rng) =>
        some (radiance.add
          ((((rgb_to_rgba material.color).divs ext.pi).mul l2).scale (normal.dot incoming)), rng)
  | .reflective =>
    let exponent := (float.fin 2).div (material.roughness.pow 2)
    let (ruv, rng) := ext.rand2f rng
    let metal_normal := ext.sample_hemisphere_cospower exponent normal ruv
    if material.roughness.eq (.fin 0) then
      let incoming := ext.reflect ray.d.neg metal_normal
      match self ⟨position, incoming⟩ (bounce + 1) rng with
      | none => none
      | some (l, rng) => some (radiance.add ((rgb_to_rgba material.color).mul l), rng)
    else
      let (ruv, rng) := ext.rand2f rng
      let halfway := ext.sample_hemisphere_cospower exponent metal_normal ruv
      let incoming := ext.reflect ray.d.neg halfway
      match self ⟨position, incoming⟩ (bounce + 1) rng with
      | none => none
      | some (l, rng) => some (radiance.add ((rgb_to_rgba material.color).mul l), rng)
  | .glossy =>
    let exponent := (float.fin 2).div (material.roughness.pow 2)
    let (ruv, rng) := ext.rand2f rng
    let halfway := ext.sample_hemisphere_cospower exponent normal ruv
    let (u, rng) := ext.rand1f rng
    if u.lt (ext.fresnel_schlick ⟨.fin (4 / 100), .fin 0, .fin 0⟩ halfway ray.d.neg).x then
      let incoming := ext.reflect ray.d.neg halfway
      match self ⟨position, incoming⟩ (bounce + 1) rng with
      | none => none
      | some (l, rng) => some (radiance.add l, rng)
    else
      let (ruv, rng) := ext.rand2f rng
      let incoming := ext.sample_hemisphere_cos normal ruv
      match self ⟨position, incoming⟩ (bounce + 1) rng with
      | none => none
      | some (l, rng) => some (radiance.add ((rgb_to_rgba material.color).mul l), rng)
  | .transparent =>
    let (u, rng) := ext.rand1f rng
    if u.lt (ext.fresnel_schlick ⟨.fin (4 / 100), .fin 0, .fin 0⟩ normal ray.d.neg).x then
      let incoming := ext.reflect ray.d.neg normal
      match self ⟨position, incoming⟩ (bounce + 1) rng with
      | none => none
      | some (l, rng) => some (radiance.add l, rng)
    else
      let incoming := ray.d
      match self ⟨position, incoming⟩ (bounce + 1) rng with
      | none => none
      | some (l, rng) => some (radiance.add ((rgb_to_rgba material.color).mul l), rng)
  | .refractive =>
    let (u, rng) := ext.rand1f rng
    if u.lt (ext.fresnel_schlick ⟨.fin (4 / 100), .fin 0, .fin 0⟩ normal ray.d.neg).x then
      let incoming := ext.reflect ray.d.neg normal
      match self ⟨position, incoming⟩ (bounce + 1) rng with
      | none => none
      | some (l, rng) => some (radiance.add l, rng)
    else
      let cos_theta := (ray.d.neg.dot normal).fmin (.fin 1)
      let sin_theta := ext.sqrt ((float.fin 1).sub (cos_theta.pow 2))
      let flip := (normal.dot ray.d.neg).lt (.fin 0)
      let ior := if flip then (float.fin 1).div material.ior else material.ior
      let normal := if flip then normal.neg else normal
      let refracted (rng : rng_state) : Option (vec4f × rng_state) :=
        let incoming := ext.refract ray.d.neg normal ior
        match self ⟨position, incoming⟩ (bounce + 1) rng with
        | none => none
        | some (l, rng) => some (radiance.add ((rgb_to_rgba material.color).mul l), rng)
      if (ior.mul sin_theta).le (.fin 1) then refracted rng
      else
        let (u2, rng) := ext.rand1f rng
        if (reflectance cos_theta ior).lt u2 then refracted rng
        else
          let incoming := ext.reflect ray.d.neg normal
          match self ⟨position, incoming⟩ (bounce + 1) rng with
          | none => none
          | some (l, rng) => some (radiance.add l, rng)
  | .other _ => some (rgb_to_rgba (ext.eval_environment scene ray.d), rng)

/-- Source `shade_raytrace`: the full-transport shader. The first argument is the fuel of the
recursion; `none` means it was used up. -/
def shade_raytrace (ext : externals) : Nat → raytrace_shader_func
  | 0, _, _, _, _, _, _ => none
  | fuel + 1, scene, bvh, ray, bounce, rng, params =>
    let intersection := ext.intersect_bvh bvh scene ray
    if intersection.hit then
      let inst := at_index scene.instances intersection.instance_id
      let shape := at_index scene.shapes inst.shape
      let material := ext.eval_material scene inst intersection.element intersection.uv
      let position := ext.transform_point inst.frame
        (ext.eval_position shape intersection.element intersection.uv)
      let normal := ext.transform_direction inst.frame
        (ext.eval_normal shape intersection.element intersection.uv)
      let radiance := rgb_to_rgba material.emission
      let self : shade_rec := fun r b g => shade_raytrace ext fuel scene bvh r b g params
      let (u, rng) := ext.rand1f rng
      let passed : Option (vec4f × rng_state) :=
        if u.lt ((float.fin 1).sub material.opacity) then
          match self ⟨position, ray.d⟩ (bounce + 1) rng with
          | none => none
          | some (l, rng) => some (radiance.add l, rng)
        else some (radiance, rng)
      match passed with
      | none => none
      | some (radiance, rng) =>
        if bounce ≥ params.bounces then some (radiance, rng)
        else
          let normal := hard_facing_normal ext shape ray normal
          if params.wet then
            let exponent := (float.fin 2).div (material.roughness.pow 2)
            let (ruv, rng) := ext.rand2f rng
            let wet_normal := ext.sample_hemisphere_cospower exponent normal ruv
            if material.type ≠ .transparent then
              shade_raytrace_wet ext self ray bounce params inst intersection material position
                wet_normal exponent radiance rng
            else
              shade_raytrace_material ext self scene ray bounce material position normal
                radiance rng
          else
            shade_raytrace_material ext self scene ray bounce material position normal
              radiance rng
    else some (rgb_to_rgba (ext.eval_environment scene ray.d), rng)

/-- Source `shade_matte`: one cosine-weighted diffuse bounce per level; fuel as in
`shade_raytrace`. -/
def shade_matte (ext : externals) : Nat → raytrace_shader_func
  | 0, _, _, _, _, _, _ => none
  | fuel + 1, scene, bvh, ray, bounce, rng, params =>
    let intersection := ext.intersect_bvh bvh scene ray
    if intersection.hit then
      let inst := at_index scene.instances intersection.instance_id
      let shape := at_index scene.shapes inst.shape
      let material := ext.eval_material scene inst intersection.element intersection.uv
      let position := ext.transform_point inst.frame
        (ext.eval_position shape intersection.element intersection.uv)
      let normal := ext.transform_direction inst.frame
        (ext.eval_normal shape intersection.element intersection.uv)
      let radiance := rgb_to_rgba material.emission
      if bounce ≥ params.bounces then some (radiance, rng)
      else
        let (ruv, rng) := ext.rand2f rng
        let incoming := ext.sample_hemisphere_cos normal ruv
        match shade_matte ext fuel scene bvh ⟨position, incoming⟩ (bounce + 1) rng params with
        | none => none
        | some (l, rng) =>
          some (radiance.add
            ((((rgb_to_rgba material.color).divs ext.pi).mul l).scale (normal.dot incoming)), rng)
    else some (rgb_to_rgba (ext.eval_environment scene ray.d), rng)

/-- Source `shade_eyelight`. -/
def shade_eyelight (ext : externals) : raytrace_shader_func :=
  fun scene bvh ray _bounce rng _params =>
    let intersection := ext.intersect_bvh bvh scene ray
    if intersection.hit then
      let inst := at_index scene.instances intersection.instance_id
      let shape := at_index scene.shapes inst.shape
      let material_color := rgb_to_rgba (at_index scene.materials inst.material).color
      let normal := ext.transform_direction inst.frame
        (ext.eval_normal shape intersection.element intersection.uv)
      some (material_color.scale (normal.dot ray.d.neg), rng)
    else some (vec4f.zero, rng)

/-- Source `shade_normal`. -/
def shade_normal (ext : externals) : raytrace_shader_func :=
  fun scene bvh ray _bounce rng _params =>
    let intersection := ext.intersect_bvh bvh scene ray
    if intersection.hit then
      let inst := at_index scene.instances intersection.instance_id
      let shape := at_index scene.shapes inst.shape
      some (rgb_to_rgba (ext.transform_direction inst.frame
        (((ext.eval_normal shape intersection.element intersection.uv).scale
          (.fin (1 / 2))).adds (.fin (1 / 2)))), rng)
    else some (vec4f.zero, rng)

/-- Source `shade_texcoord`. -/
def shade_texcoord (ext : externals) : raytrace_shader_func :=
  fun scene bvh ray _bounce rng _params =>
    let intersection := ext.intersect_bvh bvh scene ray
    if intersection.hit then
      let inst := at_index scene.instances intersection.instance_id
      let texcoord := ext.eval_texcoord scene inst intersection.element intersection.uv
      some (rgb_to_rgba ⟨texcoord.x.fmod (.fin 1), texcoord.y.fmod (.fin 1), .fin 0⟩, rng)
    else some (vec4f.zero, rng)

/-- Source `shade_color`. -/
def shade_color (ext : externals) : raytrace_shader_func :=
  fun scene bvh ray _bounce rng _params =>
    let intersection := ext.intersect_bvh bvh scene ray
    if intersection.hit then
      let inst := at_index scene.instances intersection.instance_id
      some (rgb_to_rgba
        (ext.eval_material scene inst intersection.element intersection.uv).color, rng)
    else some (vec4f.zero, rng)

/-- Source `get_shader`: the shader for `params.shader`, or the exception of the `default`
case. The fuel is handed to the two recursive shaders. -/
def get_shader (ext : externals) (fuel : Nat) (params : raytrace_params) :
    Except Exn raytrace_shader_func :=
  match params.shader with
  | .raytrace => .ok (shade_raytrace ext fuel)
  | .matte => .ok (shade_matte ext fuel)
  | .eyelight => .ok (shade_eyelight ext)
  | .normal => .ok (shade_normal ext)
  | .texcoord => .ok (shade_texcoord ext)
  | .color => .ok (shade_color ext)
  | .other _ => .error (.runtime_error "sampler unknown")

/-! ## Progressive state -/

/-- The loop of `make_state` over `state.rngs`: each stream is made from the next draw of the
one generator `rng_`. -/
def make_rngs (ext : externals) : Nat → rng_state → List rng_state
  | 0, _ => []
  | n + 1, rng_ =>
    let (r, rng_) := ext.rand1i rng_ (-2147483648)
    ext.make_rng 961748941 ((r.tdiv 2 + 1) % 2 ^ 64).toNat :: make_rngs ext n rng_

/-- Source `make_state`. The literal `1 << 31` is the `int` value `-2147483648`, and
`make_rng(1301081)` takes the default stream `1` for its second argument. -/
def make_state (ext : externals) (scene : scene_data) (params : raytrace_params) :
    raytrace_state :=
  let camera := at_index scene.cameras params.camera
  let width : Int :=
    if camera.aspect.ge (.fin 1) then params.resolution
    else ((float.ofInt params.resolution).mul camera.aspect).round_to_int
  let height : Int :=
    if camera.aspect.ge (.fin 1) then
      ((float.ofInt params.resolution).div camera.aspect).round_to_int
    else params.resolution
  { width := width
    height := height
    samples := 0
    image := List.replicate (width * height).toNat vec4f.zero
    hits := List.replicate (width * height).toNat 0
    rngs := make_rngs ext (width * height).toNat (ext.make_rng 1301081 1) }

/-- The statement `if (!isfinite(radiance)) radiance = {0, 0, 0};` of the pixel loops. -/
def sanitize (radiance : vec4f) : vec4f :=
  if !radiance.isfinite then vec4f.zero else radiance

/-- The last three statements of every pixel loop of `raytrace_samples`: the stream the shader
advanced stays in `rngs[idx]`, the sanitised radiance is added to `image[idx]`, and
`hits[idx]` grows by one. -/
def accumulate (state : raytrace_state) (idx : Nat) (radiance : vec4f) (rng : rng_state) :
    raytrace_state :=
  { state with
    rngs := state.rngs.set idx rng
    image := state.image.set idx ((state.image.getD idx default).add (sanitize radiance))
    hits := state.hits.set idx (state.hits.getD idx 0 + 1) }

/-- Source `raytrace_samples`, lines 387-389: the primary ray of pixel `idx` when
`params.samples == 1`, through the centre of the pixel. -/
def center_ray (ext : externals) (camera : camera_data) (width height : Int) (idx : Nat) : ray3f :=
  let i := (idx : Int).tmod width
  let j := (idx : Int).tdiv width
  let u := ((float.ofInt i).add (.fin (1 / 2))).div (float.ofInt width)
  let v := ((float.ofInt j).add (.fin (1 / 2))).div (float.ofInt height)
  eval_camera ext camera ⟨u, v⟩

/-- Source `raytrace_samples`, lines 397-400 and 408-411: the primary ray of pixel `idx` in the
two other loops. Two values are drawn from the pixel's stream, first for `u`, then for `v`;
the advanced stream is handed on. -/
def jitter_ray (ext : externals) (camera : camera_data) (width height : Int) (idx : Nat)
    (rng : rng_state) : ray3f × rng_state :=
  let i := (idx : Int).tmod width
  let j := (idx : Int).tdiv width
  let (ru, rng) := ext.rand1f rng
  let u := ((float.ofInt i).add ru).div (float.ofInt width)
  let (rv, rng) := ext.rand1f rng
  let v := ((float.ofInt j).add rv).div (float.ofInt height)
  (eval_camera ext camera ⟨u, v⟩, rng)

/-- Source `raytrace_samples`, lines 386-394: the body of the loop taken when
`params.samples == 1`, for pixel `idx`. -/
def sample_center (ext : externals) (shader : raytrace_shader_func) (scene : scene_data)
    (bvh : bvh_scene) (camera : camera_data) (params : raytrace_params) (idx : Nat)
    (state : raytrace_state) : Option raytrace_state :=
  let ray := center_ray ext camera state.width state.height idx
  match shader scene bvh ray 0 (state.rngs.getD idx default) params with
  | none => none
  | some (radiance, rng) => some (accumulate state idx radiance rng)

/-- Source `raytrace_samples`, lines 396-404 and 407-415: the body of the two other loops, for
pixel `idx`. -/
def sample_jitter (ext : externals) (shader : raytrace_shader_func) (scene : scene_data)
    (bvh : bvh_scene) (camera : camera_data) (params : raytrace_params) (idx : Nat)
    (state : raytrace_state) : Option raytrace_state :=
  let (ray, rng) := jitter_ray ext camera state.width state.height idx
    (state.rngs.getD idx default)
  match shader scene bvh ray 0 rng params with
  | none => none
  | some (radiance, rng) => some (accumulate state idx radiance rng)

/-- A loop that runs `task` for the given indices in order and stops as soon as one of them
does not return. -/
def for_each (task : Nat → raytrace_state → Option raytrace_state) :
    List Nat → raytrace_state → Option raytrace_state
  | [], state => some state
  | idx :: rest, state =>
    match task idx state with
    | none => none
    | some state => for_each task rest state

/-- Source `raytrace_samples`: one progressive pass. The result is how the call ended and the
state it left behind. The sequential loops visit `0 .. width*height-1` in order; `parallel_for`
visits the indices in the order the external schedule gives. -/
def raytrace_samples (ext : externals) (fuel : Nat) (state : raytrace_state)
    (scene : scene_data) (bvh : bvh_scene) (params : raytrace_params) :
    Outcome × raytrace_state :=
  if state.samples ≥ params.samples then (.returned, state)
  else
    let camera := at_index scene.cameras params.camera
    match get_shader ext fuel params with
    | .error e => (.threw e, state)
    | .ok shader =>
      let state := { state with samples := state.samples + 1 }
      let n := (state.width * state.height).toNat
      let pass : Option raytrace_state :=
        if params.samples = 1 then
          for_each (sample_center ext shader scene bvh camera params) (List.range n) state
        else if params.noparallel then
          for_each (sample_jitter ext shader scene bvh camera params) (List.range n) state
        else
          for_each (sample_jitter ext shader scene bvh camera params) (ext.parallel_order n) state
      match pass with
      | none => (.diverged, state)
      | some state => (.returned, state)

/-- Source `check_image`. -/
def check_image (image : color_image) (width height : Int) (linear : Bool) : Except Exn Unit :=
  if image.width ≠ width ∨ image.height ≠ height then
    .error (.invalid_argument "image should have the same size")
  else if image.linear ≠ linear then
    .error (.invalid_argument (if linear then "expected linear image" else "expected srgb image"))
  else .ok ()

/-- The loop of `get_render`: pixel `idx` becomes `state.image[idx] * scale`, for the indices
`0 .. n-1` in order. -/
def get_render_loop (state : raytrace_state) (scale : float) : Nat → color_image → color_image
  | 0, image => image
  | n + 1, image =>
    let image := get_render_loop state scale n image
    { image with pixels := image.pixels.set n ((state.image.getD n default).scale scale) }

/-- Source `get_render(color_image&, const raytrace_state&)`: how the call ended and the image
it left behind. -/
def get_render (image : color_image) (state : raytrace_state) : Outcome × color_image :=
  match check_image image state.width state.height true with
  | .error e => (.threw e, image)
  | .ok _ =>
    let scale := (float.fin 1).div (float.ofInt state.samples)
    (.returned, get_render_loop state scale (state.width * state.height).toNat image)

/-- Source `get_render(const raytrace_state&)`: the image is made by `make_image` and filled by
the other overload. -/
def get_render_new (ext : externals) (state : raytrace_state) : Outcome × color_image :=
  get_render (ext.make_image state.width state.height true) state

/-- The driver: `k` calls of `raytrace_samples` one after the other, stopping at the first call
that does not return. -/
def raytrace_passes (ext : externals) (fuel : Nat) (scene : scene_data) (bvh : bvh_scene)
    (params : raytrace_params) : Nat → raytrace_state → Outcome × raytrace_state
  | 0, state => (.returned, state)
  | k + 1, state =>
    match raytrace_passes ext fuel scene bvh params k state with
    | (.returned, state) => raytrace_samples ext fuel state scene bvh params
    | r => r

/-- What one pass computes for pixel `idx` from the pixel's own stream `rng`: the shader's
radiance on the primary ray and the stream it leaves behind. With `jitter` the ray is the
one of the jittering loops, without it the one through the pixel centre. -/
def pixel_shade (ext : externals) (shader : raytrace_shader_func) (scene : scene_data)
    (bvh : bvh_scene) (camera : camera_data) (params : raytrace_params) (width height : Int)
    (jitter : Bool) (idx : Nat) (rng : rng_state) : Option (vec4f × rng_state) :=
  if jitter then
    shader scene bvh (jitter_ray ext camera width height idx rng).1 0
      (jitter_ray ext camera width height idx rng).2 params
  else shader scene bvh (center_ray ext camera width height idx) 0 rng params

/-- The number of pixels of a state, `width * height`, as the loops count it. -/
def raytrace_state.pixel_count (state : raytrace_state) : Nat :=
  (state.width * state.height).toNat

/-- A state whose three per-pixel vectors have `width * height` entries, as `make_state`
builds it. -/
def raytrace_state.well_formed (state : raytrace_state) : Prop :=
  state.image.length = state.pixel_count ∧ state.hits.length = state.pixel_count ∧
    state.rngs.length = state.pixel_count

instance (state : raytrace_state) : Decidable state.well_formed := by
  unfold raytrace_state.well_formed; infer_instance

/-- A small implementation of the external interface, to run the renderer on concrete inputs.
Every ray hits or misses as `hit` says, every hit resolves to `material`, the environment
radiance of a direction is `env` of it, frames translate by their origin, every random draw
is `1/4` and is counted in the `state` field of the stream, and `parallel_for` visits the
indices in decreasing order. -/
def toy_externals (hit : Bool) (material : material_point) (env : vec3f → vec3f) : externals where
  intersect_bvh := fun _ _ _ => ⟨0, 0, ⟨.fin 0, .fin 0⟩, .fin 1, hit⟩
  eval_material := fun _ _ _ _ => material
  eval_position := fun _ _ _ => vec3f.zero
  eval_normal := fun _ _ _ => ⟨.fin 0, .fin 0, .fin 1⟩
  eval_texcoord := fun _ _ _ uv => uv
  eval_environment := fun _ d => env d
  transform_point := fun frame p => frame.o.add p
  transform_direction := fun _ d => d
  normalize := fun a => a
  orthonormalize := fun a _ => a
  reflect := fun w n => (n.scale ((float.fin 2).mul (n.dot w))).sub w
  refract := fun w _ _ => w.neg
  fresnel_schlick := fun specular _ _ => specular
  sample_hemisphere := fun n _ => n
  sample_hemisphere_cos := fun n _ => n
  sample_hemisphere_cospower := fun _ n _ => n
  rand1f := fun rng => (.fin (1 / 4), { rng with state := rng.state + 1 })
  rand2f := fun rng => (⟨.fin (1 / 4), .fin (1 / 4)⟩, { rng with state := rng.state + 2 })
  rand1i := fun rng _ => (rng.state, { rng with state := rng.state + 1 })
  make_rng := fun seed seq => ⟨seed, seq⟩
  sqrt := fun a => a
  smoothstep := fun _ _ u => u
  pi := .fin (355 / 113)
  make_image := fun width height linear =>
    ⟨width, height, linear, List.replicate (width * height).toNat vec4f.zero⟩
  parallel_order := fun n => (List.range n).reverse

/-- A camera at the origin with a unit square film. -/
def toy_camera : camera_data :=
  ⟨⟨⟨.fin 1, .fin 0, .fin 0⟩, ⟨.fin 0, .fin 1, .fin 0⟩, ⟨.fin 0, .fin 0, .fin 1⟩,
    ⟨.fin 0, .fin 0, .fin 0⟩⟩, .fin 1, .fin 1, .fin 1⟩

/-- A scene with the one camera `toy_camera`, one instance of one triangle shape, and one
material. -/
def toy_scene : scene_data :=
  { cameras := [toy_camera]
    instances := [⟨default, 0, 0⟩]
    shapes := [⟨[], [], [(0, 1, 2)], [], [], [], []⟩]
    materials := [⟨⟨.fin 1, .fin 1, .fin 1⟩⟩]
    environments := [] }

/-- Parameters for `toy_scene`: the given shader and target sample count, resolution 2,
one bounce, the sequential policy unless `parallel`, no wet overlay. -/
def toy_params (shader : raytrace_shader_type) (samples : Int) (parallel : Bool) :
    raytrace_params :=
  { camera := 0
    resolution := 2
    shader := shader
    samples := samples
    bounces := 1
    noparallel := !parallel
    wet := false
    seed := 0 }

/-- A material with the given tag: black emission, white colour, opaque, smooth. -/
def toy_material (type : material_type) : material_point :=
  ⟨type, ⟨.fin 0, .fin 0, .fin 0⟩, ⟨.fin 1, .fin 1, .fin 1⟩, .fin 1, .fin 0, .fin (3 / 2)⟩

/-- The environment whose radiance along a direction is the direction itself. -/
def direction_env : vec3f → vec3f := fun d => d

/-- An environment whose radiance has a non-finite red channel in every direction. -/
def nonfinite_env : vec3f → vec3f := fun _ => ⟨.nonfinite, .fin 0, .fin 0⟩

/-- The state `make_state` builds for one pixel: no sample, a zero accumulator, a zero hit
counter. -/
def fresh_state : raytrace_state := ⟨1, 1, 0, [vec4f.zero], [0], [⟨0, 0⟩]⟩

/-- A one-pixel state after two passes, with accumulated radiance `(2, 4, 6, 2)`. -/
def two_pass_state : raytrace_state :=
  ⟨1, 1, 2, [⟨.fin 2, .fin 4, .fin 6, .fin 2⟩], [2], [⟨4, 0⟩]⟩

/-- A one-pixel image, linear or not. -/
def one_pixel_image (linear : Bool) : color_image := ⟨1, 1, linear, [vec4f.zero]⟩

/-- A ray from the origin along `-z`. -/
def toy_ray : ray3f := ⟨⟨.fin 0, .fin 0, .fin 0⟩, ⟨.fin 0, .fin 0, .fin (-1)⟩⟩

/-! ## Contracts of the library helpers, and further concrete inputs -/

/-- Modelled from the spec: the random-number primitive of yocto_sampling produces uniform
scalars in `[0, 1)`; every draw of `rand1f` is a finite value in that interval. -/
def rand1f_in_unit_interval (ext : externals) : Prop :=
  ∀ rng, ∃ q : ℚ, (ext.rand1f rng).1 = .fin q ∧ 0 ≤ q ∧ q < 1

/-- Modelled from the spec: `reflect` of yocto_math, the geometric mirror reflection of the
direction `w` about the normal `n`, `-w + 2 * dot(n, w) * n`. -/
def mirror_reflect (w n : vec3f) : vec3f :=
  w.neg.add (n.scale ((float.fin 2).mul (n.dot w)))

/-- Modelled from the spec: `sample_hemisphere_cospower` of yocto_sampling at roughness `0`.
The lobe exponent is `2 / roughness^2`, which is not finite there, and the spec requires the
sampled microfacet normal of a mirror to be the surface normal whatever the random pair is:
at a non-finite exponent the lobe collapses onto its axis. -/
def mirror_lobe (ext : externals) : Prop :=
  ∀ normal ruv, ext.sample_hemisphere_cospower .nonfinite normal ruv = normal

/-- Modelled from the spec: `fresnel_schlick` of yocto_shading, the Schlick approximation of the
Fresnel reflectance with base (normal-incidence) reflectance `specular`:
`specular + (1 - specular) * (1 - |cos|)^5` per channel, `cos = dot(normal, outgoing)`, the
base of the power clamped to `[0, 1]`, and zero for a zero `specular`. -/
def fresnel_schlick_model (specular normal outgoing : vec3f) : vec3f :=
  if specular = vec3f.zero then vec3f.zero
  else
    let cosine := normal.dot outgoing
    let base := (float.fin 1).sub cosine.abs
    let clamped := if base.lt (.fin 0) then .fin 0 else if (float.fin 1).lt base then .fin 1 else base
    let weight := clamped.pow 5
    ⟨specular.x.add (((float.fin 1).sub specular.x).mul weight),
      specular.y.add (((float.fin 1).sub specular.y).mul weight),
      specular.z.add (((float.fin 1).sub specular.z).mul weight)⟩

/-- The generator `rng_` of `make_state` after `k` draws, started from `rng_`. -/
def advance_generator (ext : externals) : Nat → rng_state → rng_state
  | 0, rng_ => rng_
  | k + 1, rng_ => advance_generator ext k (ext.rand1i rng_ (-2147483648)).2

/-- The frame that turns by a half turn about the `z` axis. -/
def half_turn_frame : frame3f :=
  ⟨⟨.fin (-1), .fin 0, .fin 0⟩, ⟨.fin 0, .fin (-1), .fin 0⟩, ⟨.fin 0, .fin 0, .fin 1⟩,
    ⟨.fin 0, .fin 0, .fin 0⟩⟩

/-- The scene `toy_scene` with its instance turned by `half_turn_frame`. -/
def turned_scene : scene_data :=
  { toy_scene with instances := [⟨half_turn_frame, 0, 0⟩] }

/-- The toy interface with every ray hitting, in which `transform_direction` applies the three
axes of the frame to the vector (without the final normalisation). -/
def frame_externals : externals :=
  { toy_externals true (toy_material .matte) direction_env with
    transform_direction := fun frame v =>
      ((frame.x.scale v.x).add (frame.y.scale v.y)).add (frame.z.scale v.z) }

/-- The toy interface with every ray hitting, in which every hit has the texture coordinate
`(-1/4, 5/4)`. -/
def texcoord_externals : externals :=
  { toy_externals true (toy_material .matte) direction_env with
    eval_texcoord := fun _ _ _ _ => ⟨.fin (-1 / 4), .fin (5 / 4)⟩ }

/-- A matte material with black emission and opacity `0`. -/
def clear_material : material_point :=
  ⟨.matte, ⟨.fin 0, .fin 0, .fin 0⟩, ⟨.fin 1, .fin 1, .fin 1⟩, .fin 0, .fin 0, .fin (3 / 2)⟩

/-- One clear sheet through the origin: a ray hits it exactly when it starts at the origin, and
the hit point is `(0, 0, -1)`, from where the continued ray misses. -/
def sheet_externals : externals :=
  { toy_externals true clear_material direction_env with
    intersect_bvh := fun _ _ ray =>
      ⟨0, 0, ⟨.fin 0, .fin 0⟩, .fin 1, decide (ray.o = vec3f.zero)⟩
    eval_position := fun _ _ _ => ⟨.fin 0, .fin 0, .fin (-1)⟩ }

/-- The toy interface with every ray hitting, in which `reflect` is `mirror_reflect` and
`fresnel_schlick` is `fresnel_schlick_model`. -/
def model_externals (material : material_point) : externals :=
  { toy_externals true material direction_env with
    reflect := mirror_reflect
    fresnel_schlick := fresnel_schlick_model }

/-- A shader stand-in that answers with the direction of the ray it is given, as a colour. -/
def echo_direction : shade_rec := fun ray _ rng => some (rgb_to_rgba ray.d, rng)

/-- An opaque material with the given tag, emission `(3, 2, 1)` and white colour. -/
def emissive_material (type : material_type) : material_point :=
  ⟨type, ⟨.fin 3, .fin 2, .fin 1⟩, ⟨.fin 1, .fin 1, .fin 1⟩, .fin 1, .fin 0, .fin (3 / 2)⟩

/-- The parameters `toy_params` with the bounce limit set to `0`. -/
def zero_bounce_params (shader : raytrace_shader_type) (samples : Int) : raytrace_params :=
  { toy_params shader samples false with bounces := 0 }

/-! ## Camera film, refraction probes and the mosaic effect of Homework 01 -/

/-- The function `std::max` on scalars, `(a < b) ? b : a`. -/
def float.max (a b : float) : float := if a.lt b then b else a

/-- Source `eval_camera`, lines 46-48: the sensor rectangle `film` fitted to the aspect. -/
def camera_film (camera : camera_data) : vec2f :=
  if camera.aspect.ge (.fin 1) then ⟨camera.film, camera.film.div camera.aspect⟩
  else ⟨camera.film.mul camera.aspect, camera.film⟩

/-- The toy camera with a film of size `0`. -/
def flat_camera : camera_data := { toy_camera with film := .fin 0 }

/-- A refractive material: black emission, grey colour `(1/2, 1/2, 1/2)`, opaque, smooth,
index of refraction `3/2`. -/
def glass_material : material_point :=
  ⟨.refractive, ⟨.fin 0, .fin 0, .fin 0⟩, ⟨.fin (1 / 2), .fin (1 / 2), .fin (1 / 2)⟩, .fin 1,
    .fin 0, .fin (3 / 2)⟩

/-- One sheet of `glass_material` through the origin: a ray hits it exactly when it starts at
the origin, and the hit point is `(0, 0, -1)`, from where the continued ray misses and the
environment answers with its direction. In this interface `sqrt` is exact at `16/25`, and
`refract` answers with the index of refraction and the `y`, `z` of the normal it is given, so
that the radiance of a refracted ray shows which ones were used. -/
def probe_externals : externals :=
  { toy_externals true glass_material direction_env with
    intersect_bvh := fun _ _ ray =>
      ⟨0, 0, ⟨.fin 0, .fin 0⟩, .fin 1, decide (ray.o = vec3f.zero)⟩
    eval_position := fun _ _ _ => ⟨.fin 0, .fin 0, .fin (-1)⟩
    sqrt := fun a => if a = .fin (16 / 25) then .fin (4 / 5) else a
    refract := fun _ n ior => ⟨ior, n.y, n.z⟩ }

/-- A ray from the origin along `+z`: it meets the toy normal `(0, 0, 1)` from behind. -/
def back_ray : ray3f := ⟨⟨.fin 0, .fin 0, .fin 0⟩, ⟨.fin 0, .fin 0, .fin 1⟩⟩

/-- A ray from the origin that meets the toy normal `(0, 0, 1)` with cosine `3/5`. -/
def slanted_ray : ray3f := ⟨⟨.fin 0, .fin 0, .fin 0⟩, ⟨.fin (-4 / 5), .fin 0, .fin (-3 / 5)⟩⟩

/-- A shape made of one triangle. -/
def triangle_shape : shape_data := ⟨[], [], [(0, 1, 2)], [], [], [], []⟩

/-- A shape made of one quad. -/
def quad_shape : shape_data := ⟨[], [], [], [(0, 1, 2, 3)], [], [], []⟩

/-- The scene `toy_scene` with its one shape made of a quad instead of a triangle. -/
def quad_scene : scene_data := { toy_scene with shapes := [quad_shape] }

/-- A shader stand-in for two successive recursive calls: it answers with the direction of the
ray as a colour and counts the call in the `inc` field of the stream. -/
def counting_echo : shade_rec :=
  fun ray _ rng => some (rgb_to_rgba ray.d, { rng with inc := rng.inc + 1 })

/-- Source `grade_params` of yocto_colorgrade.h. -/
structure grade_params where
  exposure : float
  filmic : Bool
  srgb : Bool
  tint : vec3f
  saturation : float
  contrast : float
  vignette : float
  grain : float
  mosaic : Int
  grid : Int
  predthermal : Bool
  sigma : float
  crosshatching : Bool
  hatch_1 : float
  hatch_2 : float
  hatch_3 : float
  hatch_4 : float
  density : float
  width : float
  color_hatches : Bool
  k_offset : float

/-- Modelled from the spec: `xyz` of yocto_math, the first three components of a `vec4f`. -/
def xyz (a : vec4f) : vec3f := ⟨a.x, a.y, a.z⟩

/-- Modelled from the spec: `color_image::operator[](vec2i)` of yocto_image, read access; the
pixels are stored row by row, pixel `(i, j)` at `j * width + i`. -/
def color_image.get (image : color_image) (i j : Int) : vec4f :=
  at_index image.pixels (j * image.width + i)

/-- Modelled from the spec: `color_image::operator[](vec2i)` of yocto_image, write access.
Writing outside the buffer is undefined in C++; the model leaves the image as it is there. -/
def color_image.put (image : color_image) (i j : Int) (v : vec4f) : color_image :=
  if 0 ≤ j * image.width + i then
    { image with pixels := image.pixels.set (j * image.width + i).toNat v }
  else image

/-- Source `applyMosaicEffect`, lines 126-129: the body of the loops for pixel `(i, j)`. The
braces `{rgb.x, rgb.y, rgb.z}` leave the fourth member at its default `0`. -/
def mosaic_pixel (params : grade_params) (to_grade : color_image) (i j : Int) : color_image :=
  let new_i := i - i.tmod params.mosaic
  let new_j := j - j.tmod params.mosaic
  let rgb := xyz (to_grade.get new_i new_j)
  to_grade.put i j ⟨rgb.x, rgb.y, rgb.z, .fin 0⟩

/-- Source `applyMosaicEffect`: for `i` from `0` to `width - 1` and, inside, `j` from `0` to
`height - 1`, the image is updated in place by `mosaic_pixel`. The bounds are those of the
image on entry, which the body never changes. -/
def applyMosaicEffect (params : grade_params) (to_grade : color_image) : color_image :=
  (List.range to_grade.width.toNat).foldl
    (fun (image : color_image) (i : Nat) =>
      (List.range to_grade.height.toNat).foldl
        (fun (image : color_image) (j : Nat) => mosaic_pixel params image (i : Int) (j : Int))
        image)
    to_grade

/-- Source `grade_image`, line 400: the mosaic effect runs when `params.mosaic != 0`. -/
def grade_image_mosaic (params : grade_params) (to_grade : color_image) : color_image :=
  if params.mosaic ≠ 0 then applyMosaicEffect params to_grade else to_grade

/-- The image `cur` part-way through `applyMosaicEffect` on `orig`: same size and buffer
length; a pixel already visited (`done`) has the rgb that the top-left pixel of its block had
in `orig`, and a pixel not yet visited is as it was in `orig`. -/
def mosaic_invariant (params : grade_params) (orig cur : color_image)
    (done : Int → Int → Prop) : Prop :=
  cur.width = orig.width ∧ cur.height = orig.height ∧
  cur.pixels.length = orig.pixels.length ∧
  ∀ i j : Int, 0 ≤ i → i < orig.width → 0 ≤ j → j < orig.height →
    (done i j → xyz (cur.get i j) =
      xyz (orig.get (i - i.tmod params.mosaic) (j - j.tmod params.mosaic))) ∧
    (¬ done i j → cur.get i j = orig.get i j)

/-- Grading parameters with the defaults of the header and the given block size. -/
def mosaic_params (mosaic : Int) : grade_params :=
  { exposure := .fin 0, filmic := false, srgb := true, tint := ⟨.fin 1, .fin 1, .fin 1⟩
    saturation := .fin (1 / 2), contrast := .fin (1 / 2), vignette := .fin 0, grain := .fin 0
    mosaic := mosaic, grid := 0, predthermal := false, sigma := .fin 0, crosshatching := false
    hatch_1 := .fin (8 / 10), hatch_2 := .fin (6 / 10), hatch_3 := .fin (3 / 10)
    hatch_4 := .fin (15 / 100), density := .fin 10, width := .fin 1, color_hatches := false
    k_offset := .fin 1 }

/-- A `2 x 2` image whose four pixels differ, with alpha `1`. -/
def checker_image : color_image :=
  ⟨2, 2, true,
    [⟨.fin 1, .fin 0, .fin 0, .fin 1⟩, ⟨.fin 0, .fin 1, .fin 0, .fin 1⟩,
      ⟨.fin 0, .fin 0, .fin 1, .fin 1⟩, ⟨.fin 1, .fin 1, .fin 1, .fin 1⟩]⟩

/-! ## Lemmas on the pixel loops -/


theorem getD_set {α : Type} (l : List α) (a idx : Nat) (v d : α) :
    (l.set a v).getD idx d = if a = idx ∧ a < l.length then v else l.getD idx d := by
  simp only [List.getD_eq_getElem?_getD, List.getElem?_set]
  by_cases h : a = idx
  · subst h
    by_cases h2 : a < l.length
    · simp [h2]
    · have h3 : l[a]? = none := List.getElem?_eq_none (by omega)
      simp [h2, h3]
  · simp [h]

/-- A loop over distinct indices whose task for `idx` reads only `rngs[idx]` and stores through
`accumulate`: the slots of the indices not visited are unchanged, and the slot of a visited
index holds what the task computes from the slot's old content. -/
theorem for_each_slots (task : Nat → raytrace_state → Option raytrace_state)
    (g : Nat → rng_state → Option (vec4f × rng_state)) (w h : Int)
    (htask : ∀ idx state, state.width = w → state.height = h →
      task idx state = match g idx (state.rngs.getD idx default) with
        | none => none
        | some (radiance, rng) => some (accumulate state idx radiance rng))
    (hg : ∀ idx rng, ∃ r, g idx rng = some r) :
    ∀ (l : List Nat) (state : raytrace_state), l.Nodup → state.width = w → state.height = h →
      ∃ final, for_each task l state = some final ∧ final.width = w ∧ final.height = h ∧
        final.samples = state.samples ∧ final.image.length = state.image.length ∧
        final.hits.length = state.hits.length ∧ final.rngs.length = state.rngs.length ∧
        (∀ idx, idx ∉ l → final.image.getD idx default = state.image.getD idx default ∧
          final.hits.getD idx 0 = state.hits.getD idx 0 ∧
          final.rngs.getD idx default = state.rngs.getD idx default) ∧
        (∀ idx, idx ∈ l → ∃ radiance rng, g idx (state.rngs.getD idx default) = some (radiance, rng) ∧
          (idx < state.image.length →
            final.image.getD idx default = (state.image.getD idx default).add (sanitize radiance)) ∧
          (idx < state.hits.length → final.hits.getD idx 0 = state.hits.getD idx 0 + 1) ∧
          (idx < state.rngs.length → final.rngs.getD idx default = rng)) := by
  intro l
  induction l with
  | nil =>
    intro state _ hw hh
    exact ⟨state, rfl, hw, hh, rfl, rfl, rfl, rfl, fun _ _ => ⟨rfl, rfl, rfl⟩, fun _ hm => by simp at hm⟩
  | cons a rest ih =>
    intro state hnd hw hh
    obtain ⟨hna, hrest⟩ := List.nodup_cons.mp hnd
    obtain ⟨⟨radiance, rng⟩, hga⟩ := hg a (state.rngs.getD a default)
    have hta : task a state = some (accumulate state a radiance rng) := by
      rw [htask a state hw hh, hga]
    obtain ⟨final, hfe, hfw, hfh, hfs, hfi, hfhits, hfr, hout, hin⟩ :=
      ih (accumulate state a radiance rng) hrest hw hh
    refine ⟨final, ?_, hfw, hfh, ?_, ?_, ?_, ?_, ?_, ?_⟩
    · simp only [for_each, hta]; exact hfe
    · rw [hfs]; rfl
    · rw [hfi]; simp [accumulate]
    · rw [hfhits]; simp [accumulate]
    · rw [hfr]; simp [accumulate]
    · intro idx hidx
      have hne : a ≠ idx := fun e => hidx (by simp [e])
      have hnr : idx ∉ rest := fun e => hidx (by simp [e])
      obtain ⟨h1, h2, h3⟩ := hout idx hnr
      rw [h1, h2, h3]
      simp [accumulate, getD_set, hne]
    · intro idx hidx
      rcases List.mem_cons.mp hidx with he | hr
      · subst he
        obtain ⟨h1, h2, h3⟩ := hout idx hna
        refine ⟨radiance, rng, hga, ?_, ?_, ?_⟩
        · intro hlt; rw [h1]; simp [accumulate, getD_set, hlt]
        · intro hlt; rw [h2]; simp [accumulate, getD_set, hlt]
        · intro hlt; rw [h3]; simp [accumulate, getD_set, hlt]
      · have hne : a ≠ idx := fun e => hna (e ▸ hr)
        obtain ⟨radiance2, rng2, hg2, h1, h2, h3⟩ := hin idx hr
        have hsame : (accumulate state a radiance rng).rngs.getD idx default
            = state.rngs.getD idx default := by simp [accumulate, getD_set, hne]
        refine ⟨radiance2, rng2, by rw [← hsame]; exact hg2, ?_, ?_, ?_⟩
        · intro hlt
          rw [h1 (by simpa [accumulate] using hlt)]
          simp [accumulate, getD_set, hne]
        · intro hlt
          rw [h2 (by simpa [accumulate] using hlt)]
          simp [accumulate, getD_set, hne]
        · intro hlt
          rw [h3 (by simpa [accumulate] using hlt)]

theorem sample_center_task (ext : externals) (sh : raytrace_shader_func) (scene : scene_data)
    (bvh : bvh_scene) (camera : camera_data) (params : raytrace_params) (w h : Int) :
    ∀ idx state, state.width = w → state.height = h →
      sample_center ext sh scene bvh camera params idx state =
        match pixel_shade ext sh scene bvh camera params w h false idx
            (state.rngs.getD idx default) with
        | none => none
        | some (radiance, rng) => some (accumulate state idx radiance rng) := by
  intro idx state hw hh
  subst hw hh
  rfl

theorem sample_jitter_task (ext : externals) (sh : raytrace_shader_func) (scene : scene_data)
    (bvh : bvh_scene) (camera : camera_data) (params : raytrace_params) (w h : Int) :
    ∀ idx state, state.width = w → state.height = h →
      sample_jitter ext sh scene bvh camera params idx state =
        match pixel_shade ext sh scene bvh camera params w h true idx
            (state.rngs.getD idx default) with
        | none => none
        | some (radiance, rng) => some (accumulate state idx radiance rng) := by
  intro idx state hw hh
  subst hw hh
  rfl

theorem pixel_shade_total (ext : externals) (sh : raytrace_shader_func) (scene : scene_data)
    (bvh : bvh_scene) (camera : camera_data) (params : raytrace_params) (w h : Int) (jitter : Bool)
    (htot : ∀ ray rng, ∃ r, sh scene bvh ray 0 rng params = some r) :
    ∀ idx rng, ∃ r, pixel_shade ext sh scene bvh camera params w h jitter idx rng = some r := by
  intro idx rng
  cases jitter
  · simpa [pixel_shade] using htot _ _
  · simpa [pixel_shade] using htot _ _

/-- One pass that runs: the call returns, the sample count grows by one, and every pixel slot
holds what `pixel_shade` computes from the slot's old content. -/
theorem raytrace_samples_pass (ext : externals) (fuel : Nat) (state : raytrace_state)
    (scene : scene_data) (bvh : bvh_scene) (params : raytrace_params) (sh : raytrace_shader_func)
    (hlt : state.samples < params.samples)
    (hsh : get_shader ext fuel params = .ok sh)
    (htot : ∀ ray rng, ∃ r, sh scene bvh ray 0 rng params = some r)
    (hpar : params.samples ≠ 1 → params.noparallel ≠ true →
      ∀ n, (ext.parallel_order n).Perm (List.range n)) :
    ∃ final, raytrace_samples ext fuel state scene bvh params = (.returned, final) ∧
      final.width = state.width ∧ final.height = state.height ∧
      final.samples = state.samples + 1 ∧ final.image.length = state.image.length ∧
      final.hits.length = state.hits.length ∧ final.rngs.length = state.rngs.length ∧
      ∀ idx, idx < state.pixel_count →
        ∃ radiance rng,
          pixel_shade ext sh scene bvh (at_index scene.cameras params.camera) params state.width
            state.height (decide (params.samples ≠ 1)) idx (state.rngs.getD idx default)
            = some (radiance, rng) ∧
          (idx < state.image.length →
            final.image.getD idx default = (state.image.getD idx default).add (sanitize radiance)) ∧
          (idx < state.hits.length → final.hits.getD idx 0 = state.hits.getD idx 0 + 1) ∧
          (idx < state.rngs.length → final.rngs.getD idx default = rng) := by
  have hnot : ¬ state.samples ≥ params.samples := not_le.mpr hlt
  by_cases h1 : params.samples = 1
  · obtain ⟨final, hfe, hw, hh, hs, hi, hhits, hr, _, hin⟩ :=
      for_each_slots (sample_center ext sh scene bvh (at_index scene.cameras params.camera) params)
        (pixel_shade ext sh scene bvh (at_index scene.cameras params.camera) params state.width
          state.height false) state.width state.height
        (sample_center_task ext sh scene bvh _ params _ _)
        (pixel_shade_total ext sh scene bvh _ params _ _ false htot)
        (List.range state.pixel_count) { state with samples := state.samples + 1 }
        (List.nodup_range _) rfl rfl
    refine ⟨final, ?_, hw, hh, hs, hi, hhits, hr, ?_⟩
    · have hnot1 : ¬ state.samples ≥ 1 := by rw [← h1]; exact hnot
      simp only [raytrace_state.pixel_count] at hfe
      simp [raytrace_samples, hnot1, hsh, h1, hfe]
    · intro idx hidx
      have := hin idx (List.mem_range.mpr hidx)
      simpa [h1] using this
  · by_cases hnp : params.noparallel = true
    · obtain ⟨final, hfe, hw, hh, hs, hi, hhits, hr, _, hin⟩ :=
        for_each_slots (sample_jitter ext sh scene bvh (at_index scene.cameras params.camera) params)
          (pixel_shade ext sh scene bvh (at_index scene.cameras params.camera) params state.width
            state.height true) state.width state.height
          (sample_jitter_task ext sh scene bvh _ params _ _)
          (pixel_shade_total ext sh scene bvh _ params _ _ true htot)
          (List.range state.pixel_count) { state with samples := state.samples + 1 }
          (List.nodup_range _) rfl rfl
      refine ⟨final, ?_, hw, hh, hs, hi, hhits, hr, ?_⟩
      · simp only [raytrace_state.pixel_count] at hfe
        simp [raytrace_samples, hnot, hsh, h1, hnp, hfe]
      · intro idx hidx
        have := hin idx (List.mem_range.mpr hidx)
        simpa [h1] using this
    · obtain ⟨final, hfe, hw, hh, hs, hi, hhits, hr, _, hin⟩ :=
        for_each_slots (sample_jitter ext sh scene bvh (at_index scene.cameras params.camera) params)
          (pixel_shade ext sh scene bvh (at_index scene.cameras params.camera) params state.width
            state.height true) state.width state.height
          (sample_jitter_task ext sh scene bvh _ params _ _)
          (pixel_shade_total ext sh scene bvh _ params _ _ true htot)
          (ext.parallel_order state.pixel_count) { state with samples := state.samples + 1 }
          ((hpar h1 hnp _).nodup_iff.mpr (List.nodup_range _)) rfl rfl
      refine ⟨final, ?_, hw, hh, hs, hi, hhits, hr, ?_⟩
      · simp only [raytrace_state.pixel_count] at hfe
        simp [raytrace_samples, hnot, hsh, h1, hnp, hfe]
      · intro idx hidx
        have := hin idx ((hpar h1 hnp _).mem_iff.mpr (List.mem_range.mpr hidx))
        simpa [h1] using this

theorem for_each_samples (task : Nat → raytrace_state → Option raytrace_state)
    (htask : ∀ idx s t, task idx s = some t → t.samples = s.samples) :
    ∀ (l : List Nat) (s t : raytrace_state), for_each task l s = some t → t.samples = s.samples := by
  intro l
  induction l with
  | nil => intro s t h; simp [for_each] at h; rw [h]
  | cons a rest ih =>
    intro s t h
    simp only [for_each] at h
    cases hta : task a s with
    | none => rw [hta] at h; simp at h
    | some u =>
      rw [hta] at h
      rw [ih u t h, htask a s u hta]

theorem sample_center_samples (ext : externals) (sh : raytrace_shader_func) (scene : scene_data)
    (bvh : bvh_scene) (camera : camera_data) (params : raytrace_params) :
    ∀ idx s t, sample_center ext sh scene bvh camera params idx s = some t →
      t.samples = s.samples := by
  intro idx s t h
  simp only [sample_center] at h
  split at h
  · simp at h
  · simp only [Option.some.injEq] at h
    rw [← h]; rfl

theorem sample_jitter_samples (ext : externals) (sh : raytrace_shader_func) (scene : scene_data)
    (bvh : bvh_scene) (camera : camera_data) (params : raytrace_params) :
    ∀ idx s t, sample_jitter ext sh scene bvh camera params idx s = some t →
      t.samples = s.samples := by
  intro idx s t h
  simp only [sample_jitter] at h
  split at h
  · simp at h
  · simp only [Option.some.injEq] at h
    rw [← h]; rfl

/-- No call of `raytrace_samples`, however it ends, lowers the sample count. -/
theorem raytrace_samples_monotone (ext : externals) (fuel : Nat) (state : raytrace_state)
    (scene : scene_data) (bvh : bvh_scene) (params : raytrace_params) :
    state.samples ≤ (raytrace_samples ext fuel state scene bvh params).2.samples := by
  unfold raytrace_samples
  split
  · exact le_refl _
  · split
    · exact le_refl _
    · rename_i shader _
      simp only
      split
      · simp
      · rename_i final hfinal
        have : final.samples = state.samples + 1 := by
          split at hfinal
          · exact for_each_samples _ (sample_center_samples ext shader scene bvh _ params) _ _ _ hfinal
          · split at hfinal
            · exact for_each_samples _ (sample_jitter_samples ext shader scene bvh _ params) _ _ _ hfinal
            · exact for_each_samples _ (sample_jitter_samples ext shader scene bvh _ params) _ _ _ hfinal
        simp [this]

theorem make_rngs_length (ext : externals) : ∀ (n : Nat) (rng : rng_state),
    (make_rngs ext n rng).length = n := by
  intro n
  induction n with
  | zero => intro rng; rfl
  | succ n ih => intro rng; simp [make_rngs, ih]

theorem make_state_well_formed (ext : externals) (scene : scene_data) (params : raytrace_params) :
    (make_state ext scene params).well_formed := by
  simp [raytrace_state.well_formed, raytrace_state.pixel_count, make_state, make_rngs_length]

theorem getD_replicate_self {α : Type} (n idx : Nat) (v : α) :
    (List.replicate n v).getD idx v = v := by
  simp only [List.getD_eq_getElem?_getD, List.getElem?_replicate]
  split <;> rfl

theorem make_state_fresh (ext : externals) (scene : scene_data) (params : raytrace_params) :
    (make_state ext scene params).samples = 0 ∧
      (∀ idx, (make_state ext scene params).hits.getD idx 0 = 0) ∧
      (∀ idx, (make_state ext scene params).image.getD idx default = vec4f.zero) := by
  refine ⟨rfl, ?_, ?_⟩
  · intro idx
    exact getD_replicate_self _ idx 0
  · intro idx
    exact getD_replicate_self _ idx vec4f.zero

/-- After `k` passes from a state with zero samples and zero hit counters, both count `k`. -/
theorem raytrace_passes_count (ext : externals) (fuel : Nat) (scene : scene_data)
    (bvh : bvh_scene) (params : raytrace_params) (sh : raytrace_shader_func)
    (hsh : get_shader ext fuel params = .ok sh)
    (htot : ∀ ray rng, ∃ r, sh scene bvh ray 0 rng params = some r)
    (hpar : ∀ n, (ext.parallel_order n).Perm (List.range n))
    (state : raytrace_state) (hs : state.samples = 0) (hlen : state.hits.length = state.pixel_count)
    (hz : ∀ idx, idx < state.pixel_count → state.hits.getD idx 0 = 0) :
    ∀ k : Nat, (k : Int) ≤ params.samples →
      ∃ final, raytrace_passes ext fuel scene bvh params k state = (.returned, final) ∧
        final.width = state.width ∧ final.height = state.height ∧
        final.hits.length = state.hits.length ∧ final.samples = k ∧
        ∀ idx, idx < state.pixel_count → final.hits.getD idx 0 = k := by
  intro k
  induction k with
  | zero =>
    intro _
    exact ⟨state, rfl, rfl, rfl, rfl, by simpa using hs, by simpa using hz⟩
  | succ k ih =>
    intro hk
    obtain ⟨mid, hmid, hw, hh, hl, hsamp, hhits⟩ := ih (by push_cast at hk; omega)
    have hpc : mid.pixel_count = state.pixel_count := by
      simp [raytrace_state.pixel_count, hw, hh]
    obtain ⟨final, hfin, hfw, hfh, hfs, _, hfl, _, hpix⟩ :=
      raytrace_samples_pass ext fuel mid scene bvh params sh
        (by rw [hsamp]; push_cast at hk; omega) hsh htot (fun _ _ => hpar)
    refine ⟨final, ?_, by rw [hfw, hw], by rw [hfh, hh], by rw [hfl, hl], ?_, ?_⟩
    · simp only [raytrace_passes, hmid]; exact hfin
    · rw [hfs, hsamp]; push_cast; rfl
    · intro idx hidx
      obtain ⟨_, _, _, _, h2, _⟩ := hpix idx (by rw [hpc]; exact hidx)
      rw [h2 (by rw [hl, hlen]; exact hidx), hhits idx hidx]
      push_cast; rfl

theorem float_mul_one_div (x : float) (k : Int) (hk : k ≠ 0) :
    x.mul ((float.fin 1).div (float.ofInt k)) = x.div (float.ofInt k) := by
  have hq : (k : ℚ) ≠ 0 := by exact_mod_cast hk
  cases x with
  | fin a => simp [float.mul, float.div, float.ofInt, hq, div_eq_mul_inv]
  | nonfinite => simp [float.mul, float.div, float.ofInt, hq]

theorem float_mul_one_div_zero (x : float) :
    x.mul ((float.fin 1).div (float.ofInt 0)) = .nonfinite := by
  cases x <;> simp [float.mul, float.div, float.ofInt]

theorem get_render_loop_spec (state : raytrace_state) (scale : float) :
    ∀ (n : Nat) (image : color_image),
      (get_render_loop state scale n image).width = image.width ∧
      (get_render_loop state scale n image).height = image.height ∧
      (get_render_loop state scale n image).linear = image.linear ∧
      (get_render_loop state scale n image).pixels.length = image.pixels.length ∧
      ∀ idx, (get_render_loop state scale n image).pixels.getD idx default =
        if idx < n ∧ idx < image.pixels.length then (state.image.getD idx default).scale scale
        else image.pixels.getD idx default := by
  intro n
  induction n with
  | zero => intro image; simp [get_render_loop]
  | succ n ih =>
    intro image
    obtain ⟨h1, h2, h3, h4, h5⟩ := ih image
    refine ⟨h1, h2, h3, by simp [get_render_loop, h4], ?_⟩
    intro idx
    simp only [get_render_loop, getD_set, h4, h5]
    by_cases he : n = idx
    · subst he
      by_cases hl : n < image.pixels.length
      · simp [hl]
      · simp [hl]
    · have : idx < n + 1 ↔ idx < n := by omega
      simp [he, this]


theorem shade_raytrace_miss (ext : externals) (fuel : Nat) (scene : scene_data) (bvh : bvh_scene)
    (ray : ray3f) (bounce : Int) (rng : rng_state) (params : raytrace_params)
    (hmiss : (ext.intersect_bvh bvh scene ray).hit = false) :
    shade_raytrace ext (fuel + 1) scene bvh ray bounce rng params =
      some (rgb_to_rgba (ext.eval_environment scene ray.d), rng) := by
  simp [shade_raytrace, hmiss]

theorem shade_matte_miss (ext : externals) (fuel : Nat) (scene : scene_data) (bvh : bvh_scene)
    (ray : ray3f) (bounce : Int) (rng : rng_state) (params : raytrace_params)
    (hmiss : (ext.intersect_bvh bvh scene ray).hit = false) :
    shade_matte ext (fuel + 1) scene bvh ray bounce rng params =
      some (rgb_to_rgba (ext.eval_environment scene ray.d), rng) := by
  simp [shade_matte, hmiss]

theorem toy_parallel_order (hit : Bool) (material : material_point) (env : vec3f → vec3f) :
    ∀ n, ((toy_externals hit material env).parallel_order n).Perm (List.range n) :=
  fun n => List.reverse_perm (List.range n)

theorem toy_raytrace_total (material : material_point) (env : vec3f → vec3f)
    (scene : scene_data) (bvh : bvh_scene) (params : raytrace_params) :
    ∀ ray rng, ∃ r, shade_raytrace (toy_externals false material env) 1 scene bvh ray 0 rng params
      = some r :=
  fun ray rng => ⟨_, shade_raytrace_miss (toy_externals false material env) 0 scene bvh ray 0 rng
    params rfl⟩

theorem sanitize_isfinite (r : vec4f) : (sanitize r).isfinite = true := by
  unfold sanitize
  cases h : r.isfinite
  · simp [vec4f.isfinite, vec4f.zero, float.isfinite]
  · simp [h]

theorem float_zero_add (x : float) (h : x.isfinite = true) : (float.fin 0).add x = x := by
  cases x with
  | fin a => simp [float.add]
  | nonfinite => simp [float.isfinite] at h

theorem vec4f_zero_add (r : vec4f) (h : r.isfinite = true) : vec4f.zero.add r = r := by
  obtain ⟨x, y, z, w⟩ := r
  simp only [vec4f.isfinite, Bool.and_eq_true] at h
  obtain ⟨⟨⟨hx, hy⟩, hz⟩, hw⟩ := h
  simp [vec4f.add, vec4f.zero, float_zero_add, hx, hy, hz, hw]

/-! ## The claims -/

/-- C1: starting from the state `make_state` returns, `k` calls of `raytrace_samples` with
`k <= params.samples` (a recognised shader that returns on every primary ray, and a
`parallel_for` that visits every index once) all return and leave `samples = k` and
`hits[idx] = k` for every pixel `idx < width*height`; and no call of `raytrace_samples`,
whatever its arguments and however it ends, lowers `state.samples`. -/
theorem raytrace_samples_count (ext : externals) (fuel : Nat) (scene : scene_data)
    (bvh : bvh_scene) (params : raytrace_params) (sh : raytrace_shader_func) (k : Nat)
    (hsh : get_shader ext fuel params = .ok sh)
    (htot : ∀ ray rng, ∃ r, sh scene bvh ray 0 rng params = some r)
    (hpar : ∀ n, (ext.parallel_order n).Perm (List.range n))
    (hk : (k : Int) ≤ params.samples) :
    (∃ final, raytrace_passes ext fuel scene bvh params k (make_state ext scene params)
        = (.returned, final) ∧
      final.width = (make_state ext scene params).width ∧
      final.height = (make_state ext scene params).height ∧
      final.samples = k ∧
      ∀ idx, idx < (final.width * final.height).toNat → final.hits.getD idx 0 = k) ∧
    (∀ (ext2 : externals) (fuel2 : Nat) (state : raytrace_state) (scene2 : scene_data)
        (bvh2 : bvh_scene) (params2 : raytrace_params),
      state.samples ≤ (raytrace_samples ext2 fuel2 state scene2 bvh2 params2).2.samples) := by
  refine ⟨?_, fun ext2 fuel2 state scene2 bvh2 params2 =>
    raytrace_samples_monotone ext2 fuel2 state scene2 bvh2 params2⟩
  obtain ⟨h0, hz, _⟩ := make_state_fresh ext scene params
  obtain ⟨final, hfin, hw, hh, _, hs, hhits⟩ :=
    raytrace_passes_count ext fuel scene bvh params sh hsh htot hpar
      (make_state ext scene params) h0 (make_state_well_formed ext scene params).2.1
      (fun idx _ => hz idx) k hk
  refine ⟨final, hfin, hw, hh, hs, ?_⟩
  intro idx hidx
  rw [hw, hh] at hidx
  exact hhits idx hidx

/-- C1, at a concrete input: two passes of the full-transport shader over a scene every ray
misses, target sample count 2, parallel policy. -/
theorem raytrace_samples_count_witness :
    ((2 : Nat) : Int) ≤ (toy_params .raytrace 2 true).samples ∧
    ((∃ final, raytrace_passes (toy_externals false (toy_material .matte) direction_env) 1
          toy_scene ⟨0⟩ (toy_params .raytrace 2 true) 2
          (make_state (toy_externals false (toy_material .matte) direction_env) toy_scene
            (toy_params .raytrace 2 true)) = (.returned, final) ∧
        final.width = (make_state (toy_externals false (toy_material .matte) direction_env)
          toy_scene (toy_params .raytrace 2 true)).width ∧
        final.height = (make_state (toy_externals false (toy_material .matte) direction_env)
          toy_scene (toy_params .raytrace 2 true)).height ∧
        final.samples = (2 : Nat) ∧
        ∀ idx, idx < (final.width * final.height).toNat → final.hits.getD idx 0 = (2 : Nat)) ∧
      (∀ (ext2 : externals) (fuel2 : Nat) (state : raytrace_state) (scene2 : scene_data)
          (bvh2 : bvh_scene) (params2 : raytrace_params),
        state.samples ≤ (raytrace_samples ext2 fuel2 state scene2 bvh2 params2).2.samples)) :=
  ⟨by simp [toy_params],
    raytrace_samples_count (toy_externals false (toy_material .matte) direction_env) 1 toy_scene
      ⟨0⟩ (toy_params .raytrace 2 true) _ 2 rfl
      (toy_raytrace_total _ _ _ _ _) (toy_parallel_order _ _ _) (by simp [toy_params])⟩

/-- C2, as stated, fails: the one-pixel state `two_pass_state` has `samples = 2` and the
one-pixel image has the same dimensions, but the image is not linear, so `get_render` throws
`invalid_argument("expected linear image")` and pixel 0 keeps its old value instead of
`image[0] / samples`. -/
theorem get_render_srgb_counterexample :
    1 ≤ two_pass_state.samples ∧
    (one_pixel_image false).width = two_pass_state.width ∧
    (one_pixel_image false).height = two_pass_state.height ∧
    get_render (one_pixel_image false) two_pass_state =
      (.threw (.invalid_argument "expected linear image"), one_pixel_image false) ∧
    (get_render (one_pixel_image false) two_pass_state).2.pixels.getD 0 default ≠
      (two_pass_state.image.getD 0 default).divs (float.ofInt two_pass_state.samples) := by
  refine ⟨by decide, rfl, rfl, by decide, ?_⟩
  have h : get_render (one_pixel_image false) two_pass_state =
      (.threw (.invalid_argument "expected linear image"), one_pixel_image false) := by decide
  rw [h]
  simp [one_pixel_image, two_pass_state, vec4f.zero, vec4f.divs, float.div, float.ofInt]

/-- C2, amended: for every state with `samples >= 1` and every linear output image whose
dimensions match the state (its pixel buffer having `width*height` entries), `get_render`
returns and writes `image.pixels[idx] = state.image[idx] * (1 / samples)`, which is
`state.image[idx] / samples`, for every pixel `idx`; width, height and the linear flag of the
image are kept. The state is a read-only argument. -/
theorem get_render_average (image : color_image) (state : raytrace_state)
    (hs : 1 ≤ state.samples) (hw : image.width = state.width) (hh : image.height = state.height)
    (hl : image.linear = true) (hp : image.pixels.length = (state.width * state.height).toNat) :
    (get_render image state).1 = .returned ∧
    (get_render image state).2.width = image.width ∧
    (get_render image state).2.height = image.height ∧
    (get_render image state).2.linear = image.linear ∧
    (get_render image state).2.pixels.length = image.pixels.length ∧
    ∀ idx, idx < (state.width * state.height).toNat →
      (get_render image state).2.pixels.getD idx default =
        (state.image.getD idx default).scale ((float.fin 1).div (float.ofInt state.samples)) ∧
      (get_render image state).2.pixels.getD idx default =
        (state.image.getD idx default).divs (float.ofInt state.samples) := by
  have hc : check_image image state.width state.height true = .ok () := by
    simp [check_image, hw, hh, hl]
  have hg : get_render image state = (.returned, get_render_loop state
      ((float.fin 1).div (float.ofInt state.samples)) (state.width * state.height).toNat image) := by
    simp [get_render, hc]
  obtain ⟨h1, h2, h3, h4, h5⟩ := get_render_loop_spec state
    ((float.fin 1).div (float.ofInt state.samples)) (state.width * state.height).toNat image
  rw [hg]
  refine ⟨rfl, h1, h2, h3, h4, ?_⟩
  intro idx hidx
  have hv : (get_render_loop state ((float.fin 1).div (float.ofInt state.samples))
      (state.width * state.height).toNat image).pixels.getD idx default =
      (state.image.getD idx default).scale ((float.fin 1).div (float.ofInt state.samples)) := by
    rw [h5 idx]; simp [hidx, hp]
  refine ⟨hv, ?_⟩
  simp only [hv]
  have hne : state.samples ≠ 0 := by omega
  simp [vec4f.scale, vec4f.divs, float_mul_one_div _ _ hne]

/-- C2 amended, at a concrete input: the snapshot of `two_pass_state` into a linear one-pixel
image. -/
theorem get_render_average_witness :
    1 ≤ two_pass_state.samples ∧ (one_pixel_image true).linear = true ∧
    ((get_render (one_pixel_image true) two_pass_state).1 = .returned ∧
    (get_render (one_pixel_image true) two_pass_state).2.width = (one_pixel_image true).width ∧
    (get_render (one_pixel_image true) two_pass_state).2.height = (one_pixel_image true).height ∧
    (get_render (one_pixel_image true) two_pass_state).2.linear = (one_pixel_image true).linear ∧
    (get_render (one_pixel_image true) two_pass_state).2.pixels.length =
      (one_pixel_image true).pixels.length ∧
    ∀ idx, idx < (two_pass_state.width * two_pass_state.height).toNat →
      (get_render (one_pixel_image true) two_pass_state).2.pixels.getD idx default =
        (two_pass_state.image.getD idx default).scale
          ((float.fin 1).div (float.ofInt two_pass_state.samples)) ∧
      (get_render (one_pixel_image true) two_pass_state).2.pixels.getD idx default =
        (two_pass_state.image.getD idx default).divs (float.ofInt two_pass_state.samples)) :=
  ⟨by decide, rfl,
    get_render_average (one_pixel_image true) two_pass_state (by decide) rfl rfl rfl rfl⟩

/-- C3, as stated, fails: with target `params.samples = 2` the first pass over the fresh
one-pixel state does not shade the pixel centre. The centre ray would give radiance
`(0, 0, -1, 1)` and leave the stream untouched; the pass accumulates `(-1/4, 1/4, -1, 1)`,
the radiance through `(u, v) = (1/4, 1/4)`, and the stream has been advanced by two draws. -/
theorem first_pass_jitter_counterexample :
    1 ≤ (toy_params .raytrace 2 false).samples ∧ fresh_state.samples = 0 ∧
    pixel_shade (toy_externals false (toy_material .matte) direction_env)
      (shade_raytrace (toy_externals false (toy_material .matte) direction_env) 1) toy_scene ⟨0⟩
      toy_camera (toy_params .raytrace 2 false) 1 1 false 0 (fresh_state.rngs.getD 0 default)
      = some (⟨.fin 0, .fin 0, .fin (-1), .fin 1⟩, ⟨0, 0⟩) ∧
    raytrace_samples (toy_externals false (toy_material .matte) direction_env) 1
      fresh_state toy_scene ⟨0⟩ (toy_params .raytrace 2 false)
      = (.returned,
          ⟨1, 1, 1, [⟨.fin (-1 / 4), .fin (1 / 4), .fin (-1), .fin 1⟩], [1], [⟨2, 0⟩]⟩) ∧
    (raytrace_samples (toy_externals false (toy_material .matte) direction_env) 1
      fresh_state toy_scene ⟨0⟩ (toy_params .raytrace 2 false)).2.image.getD 0 default ≠
      (fresh_state.image.getD 0 default).add (sanitize ⟨.fin 0, .fin 0, .fin (-1), .fin 1⟩) ∧
    (raytrace_samples (toy_externals false (toy_material .matte) direction_env) 1
      fresh_state toy_scene ⟨0⟩ (toy_params .raytrace 2 false)).2.rngs.getD 0 default ≠
      ⟨0, 0⟩ := by
  have hpass : raytrace_samples (toy_externals false (toy_material .matte) direction_env) 1
      fresh_state toy_scene ⟨0⟩ (toy_params .raytrace 2 false)
      = (.returned,
          ⟨1, 1, 1, [⟨.fin (-1 / 4), .fin (1 / 4), .fin (-1), .fin 1⟩], [1], [⟨2, 0⟩]⟩) := by
    simp [raytrace_samples, fresh_state, toy_params, get_shader, for_each, sample_jitter,
      jitter_ray, at_index, toy_scene, accumulate, sanitize, List.range, List.range.loop,
      shade_raytrace, toy_externals, eval_camera, toy_camera,
      rgb_to_rgba, direction_env, float.ge, float.le, float.ofInt, float.add, float.div,
      float.sub, float.mul, vec3f.sub, vec3f.add, vec4f.add, vec4f.isfinite, float.isfinite,
      vec4f.zero, Int.tmod, Int.tdiv]
    norm_num [float.add, float.sub, float.div, float.mul]
  refine ⟨by simp [toy_params], rfl, ?_, hpass, ?_, ?_⟩
  · simp [pixel_shade, shade_raytrace, toy_externals, center_ray, eval_camera, toy_camera,
      rgb_to_rgba, direction_env, float.ge, float.le, float.ofInt, float.add, float.div,
      float.sub, float.mul, vec3f.sub, vec3f.add, Int.tmod, Int.tdiv, fresh_state]
  · rw [hpass]
    simp [fresh_state, sanitize, vec4f.isfinite, float.isfinite, vec4f.add, vec4f.zero,
      float.add]
  · rw [hpass]
    simp

/-- C3, amended: in a pass that runs (`state.samples < params.samples`, a recognised shader that
returns on every primary ray, a `parallel_for` that visits every index once), when
`params.samples = 1` every pixel `idx` is shaded on the ray through its exact centre,
`u = (i + 0.5)/width`, `v = (j + 0.5)/height` with `i = idx mod width`, `j = idx div width`,
and the shader receives the stream `rngs[idx]` untouched; when `params.samples` is not `1`
every pass, the first included, shades the ray through `u = (i + r1)/width`,
`v = (j + r2)/height`, with `r1`, `r2` the first two draws from `rngs[idx]`. In both cases the
stream the shader hands back is stored in `rngs[idx]` and the sanitised radiance is added to
`image[idx]`. -/
theorem single_sample_pass_center (ext : externals) (fuel : Nat) (state : raytrace_state)
    (scene : scene_data) (bvh : bvh_scene) (params : raytrace_params) (sh : raytrace_shader_func)
    (hlt : state.samples < params.samples)
    (hwf : state.well_formed)
    (hsh : get_shader ext fuel params = .ok sh)
    (htot : ∀ ray rng, ∃ r, sh scene bvh ray 0 rng params = some r)
    (hpar : ∀ n, (ext.parallel_order n).Perm (List.range n)) :
    ∃ final, raytrace_samples ext fuel state scene bvh params = (.returned, final) ∧
      ∀ idx, idx < (state.width * state.height).toNat →
        (params.samples = 1 →
          ∃ radiance rng,
            sh scene bvh
              (eval_camera ext (at_index scene.cameras params.camera)
                ⟨((float.ofInt ((idx : Int).tmod state.width)).add (.fin (1 / 2))).div
                    (float.ofInt state.width),
                  ((float.ofInt ((idx : Int).tdiv state.width)).add (.fin (1 / 2))).div
                    (float.ofInt state.height)⟩)
              0 (state.rngs.getD idx default) params = some (radiance, rng) ∧
            final.image.getD idx default =
              (state.image.getD idx default).add (sanitize radiance) ∧
            final.rngs.getD idx default = rng) ∧
        (params.samples ≠ 1 →
          ∃ radiance rng,
            sh scene bvh
              (eval_camera ext (at_index scene.cameras params.camera)
                ⟨((float.ofInt ((idx : Int).tmod state.width)).add
                      (ext.rand1f (state.rngs.getD idx default)).1).div
                    (float.ofInt state.width),
                  ((float.ofInt ((idx : Int).tdiv state.width)).add
                      (ext.rand1f (ext.rand1f (state.rngs.getD idx default)).2).1).div
                    (float.ofInt state.height)⟩)
              0 (ext.rand1f (ext.rand1f (state.rngs.getD idx default)).2).2 params
              = some (radiance, rng) ∧
            final.image.getD idx default =
              (state.image.getD idx default).add (sanitize radiance) ∧
            final.rngs.getD idx default = rng) := by
  obtain ⟨final, hfin, _, _, _, _, _, _, hpix⟩ :=
    raytrace_samples_pass ext fuel state scene bvh params sh hlt hsh htot (fun _ _ => hpar)
  obtain ⟨hi, _, hr⟩ := hwf
  refine ⟨final, hfin, ?_⟩
  intro idx hidx
  obtain ⟨radiance, rng, hshade, himg, _, hrng⟩ := hpix idx hidx
  constructor
  · intro h1
    refine ⟨radiance, rng, ?_, himg (by rw [hi]; exact hidx), hrng (by rw [hr]; exact hidx)⟩
    simpa [pixel_shade, h1, center_ray] using hshade
  · intro h1
    refine ⟨radiance, rng, ?_, himg (by rw [hi]; exact hidx), hrng (by rw [hr]; exact hidx)⟩
    simpa [pixel_shade, h1, jitter_ray] using hshade

/-- C3 amended, at a concrete input: the only pass of a single-sample render of the fresh
one-pixel state. -/
theorem single_sample_pass_center_witness :
    fresh_state.samples < (toy_params .raytrace 1 false).samples ∧ fresh_state.well_formed ∧
    ∃ final, raytrace_samples (toy_externals false (toy_material .matte) direction_env) 1
        fresh_state toy_scene ⟨0⟩ (toy_params .raytrace 1 false) = (.returned, final) ∧
      ∀ idx, idx < (fresh_state.width * fresh_state.height).toNat →
        ((toy_params .raytrace 1 false).samples = 1 →
          ∃ radiance rng,
            shade_raytrace (toy_externals false (toy_material .matte) direction_env) 1
              toy_scene ⟨0⟩
              (eval_camera (toy_externals false (toy_material .matte) direction_env)
                (at_index toy_scene.cameras (toy_params .raytrace 1 false).camera)
                ⟨((float.ofInt ((idx : Int).tmod fresh_state.width)).add (.fin (1 / 2))).div
                    (float.ofInt fresh_state.width),
                  ((float.ofInt ((idx : Int).tdiv fresh_state.width)).add (.fin (1 / 2))).div
                    (float.ofInt fresh_state.height)⟩)
              0 (fresh_state.rngs.getD idx default) (toy_params .raytrace 1 false)
              = some (radiance, rng) ∧
            final.image.getD idx default =
              (fresh_state.image.getD idx default).add (sanitize radiance) ∧
            final.rngs.getD idx default = rng) ∧
        ((toy_params .raytrace 1 false).samples ≠ 1 →
          ∃ radiance rng,
            shade_raytrace (toy_externals false (toy_material .matte) direction_env) 1
              toy_scene ⟨0⟩
              (eval_camera (toy_externals false (toy_material .matte) direction_env)
                (at_index toy_scene.cameras (toy_params .raytrace 1 false).camera)
                ⟨((float.ofInt ((idx : Int).tmod fresh_state.width)).add
                      ((toy_externals false (toy_material .matte) direction_env).rand1f
                        (fresh_state.rngs.getD idx default)).1).div
                    (float.ofInt fresh_state.width),
                  ((float.ofInt ((idx : Int).tdiv fresh_state.width)).add
                      ((toy_externals false (toy_material .matte) direction_env).rand1f
                        ((toy_externals false (toy_material .matte) direction_env).rand1f
                          (fresh_state.rngs.getD idx default)).2).1).div
                    (float.ofInt fresh_state.height)⟩)
              0 ((toy_externals false (toy_material .matte) direction_env).rand1f
                  ((toy_externals false (toy_material .matte) direction_env).rand1f
                    (fresh_state.rngs.getD idx default)).2).2 (toy_params .raytrace 1 false)
              = some (radiance, rng) ∧
            final.image.getD idx default =
              (fresh_state.image.getD idx default).add (sanitize radiance) ∧
            final.rngs.getD idx default = rng) :=
  ⟨by decide, by decide,
    single_sample_pass_center (toy_externals false (toy_material .matte) direction_env) 1
      fresh_state toy_scene ⟨0⟩ (toy_params .raytrace 1 false) _ (by decide) (by decide) rfl
      (toy_raytrace_total _ _ _ _ _) (toy_parallel_order _ _ _)⟩

/-- C4: if `state.samples >= params.samples` on entry, `raytrace_samples` returns at once and
the state is unchanged: samples, image, hits and every per-pixel stream. -/
theorem raytrace_samples_noop (ext : externals) (fuel : Nat) (state : raytrace_state)
    (scene : scene_data) (bvh : bvh_scene) (params : raytrace_params)
    (h : state.samples ≥ params.samples) :
    raytrace_samples ext fuel state scene bvh params = (.returned, state) := by
  simp [raytrace_samples, h]

/-- C4, at a concrete input: a third call on `two_pass_state` with target sample count 2. -/
theorem raytrace_samples_noop_witness :
    two_pass_state.samples ≥ (toy_params .raytrace 2 false).samples ∧
    raytrace_samples (toy_externals true (toy_material .matte) direction_env) 5 two_pass_state
      toy_scene ⟨0⟩ (toy_params .raytrace 2 false) = (.returned, two_pass_state) :=
  ⟨by decide, raytrace_samples_noop _ 5 two_pass_state toy_scene ⟨0⟩
    (toy_params .raytrace 2 false) (by decide)⟩

/-- C5: in every pass that runs (a recognised shader that returns on every primary ray, a
`parallel_for` that visits every index once) and for every pixel `idx`, with `r` the radiance
the shader returns for the pixel's primary ray: `image'[idx] = image[idx] + r` if every
component of `r` is finite and `image'[idx] = image[idx] + 0` otherwise, and in both cases
`hits'[idx] = hits[idx] + 1`. -/
theorem raytrace_samples_accumulate (ext : externals) (fuel : Nat) (state : raytrace_state)
    (scene : scene_data) (bvh : bvh_scene) (params : raytrace_params) (sh : raytrace_shader_func)
    (hlt : state.samples < params.samples)
    (hwf : state.well_formed)
    (hsh : get_shader ext fuel params = .ok sh)
    (htot : ∀ ray rng, ∃ r, sh scene bvh ray 0 rng params = some r)
    (hpar : ∀ n, (ext.parallel_order n).Perm (List.range n)) :
    ∃ final, raytrace_samples ext fuel state scene bvh params = (.returned, final) ∧
      ∀ idx, idx < (state.width * state.height).toNat →
        ∃ r rng,
          pixel_shade ext sh scene bvh (at_index scene.cameras params.camera) params state.width
            state.height (decide (params.samples ≠ 1)) idx (state.rngs.getD idx default)
            = some (r, rng) ∧
          (r.isfinite = true →
            final.image.getD idx default = (state.image.getD idx default).add r) ∧
          (r.isfinite = false →
            final.image.getD idx default = (state.image.getD idx default).add vec4f.zero) ∧
          final.hits.getD idx 0 = state.hits.getD idx 0 + 1 := by
  obtain ⟨final, hfin, _, _, _, _, _, _, hpix⟩ :=
    raytrace_samples_pass ext fuel state scene bvh params sh hlt hsh htot (fun _ _ => hpar)
  obtain ⟨hi, hh, _⟩ := hwf
  refine ⟨final, hfin, ?_⟩
  intro idx hidx
  obtain ⟨radiance, rng, hshade, himg, hhits, _⟩ := hpix idx hidx
  have himg2 := himg (by rw [hi]; exact hidx)
  refine ⟨radiance, rng, hshade, ?_, ?_, hhits (by rw [hh]; exact hidx)⟩
  · intro hf
    rw [himg2]; simp [sanitize, hf]
  · intro hf
    rw [himg2]; simp [sanitize, hf]

/-- C5, at a concrete input: one pass over the fresh one-pixel state, with an environment of
non-finite radiance. -/
theorem raytrace_samples_accumulate_witness :
    fresh_state.samples < (toy_params .raytrace 1 false).samples ∧ fresh_state.well_formed ∧
    ∃ final, raytrace_samples (toy_externals false (toy_material .matte) nonfinite_env) 1
        fresh_state toy_scene ⟨0⟩ (toy_params .raytrace 1 false) = (.returned, final) ∧
      ∀ idx, idx < (fresh_state.width * fresh_state.height).toNat →
        ∃ r rng,
          pixel_shade (toy_externals false (toy_material .matte) nonfinite_env)
            (shade_raytrace (toy_externals false (toy_material .matte) nonfinite_env) 1)
            toy_scene ⟨0⟩ (at_index toy_scene.cameras (toy_params .raytrace 1 false).camera)
            (toy_params .raytrace 1 false) fresh_state.width fresh_state.height
            (decide ((toy_params .raytrace 1 false).samples ≠ 1)) idx
            (fresh_state.rngs.getD idx default) = some (r, rng) ∧
          (r.isfinite = true →
            final.image.getD idx default = (fresh_state.image.getD idx default).add r) ∧
          (r.isfinite = false →
            final.image.getD idx default = (fresh_state.image.getD idx default).add vec4f.zero) ∧
          final.hits.getD idx 0 = fresh_state.hits.getD idx 0 + 1 :=
  ⟨by decide, by decide,
    raytrace_samples_accumulate (toy_externals false (toy_material .matte) nonfinite_env) 1
      fresh_state toy_scene ⟨0⟩ (toy_params .raytrace 1 false) _ (by decide) (by decide) rfl
      (toy_raytrace_total _ _ _ _ _) (toy_parallel_order _ _ _)⟩

/-- C6, as stated, fails: `fresh_state` has `samples = 0`, and `get_render` into a matching
linear image does not throw: it returns, having filled the pixel with non-finite values. -/
theorem get_render_zero_samples_counterexample :
    fresh_state.samples = 0 ∧
    get_render (one_pixel_image true) fresh_state =
      (.returned, ⟨1, 1, true, [⟨.nonfinite, .nonfinite, .nonfinite, .nonfinite⟩]⟩) ∧
    (∀ e, (get_render (one_pixel_image true) fresh_state).1 ≠ .threw e) := by
  have h : get_render (one_pixel_image true) fresh_state =
      (.returned, ⟨1, 1, true, [⟨.nonfinite, .nonfinite, .nonfinite, .nonfinite⟩]⟩) := by
    simp [get_render, check_image, one_pixel_image, fresh_state, get_render_loop, vec4f.scale,
      vec4f.zero, float.div, float.ofInt, float.mul]
  refine ⟨rfl, h, ?_⟩
  intro e
  rw [h]
  simp

/-- C6, amended: `get_render` has no check of the sample count. For every state with
`samples = 0` and every linear image whose dimensions match (its pixel buffer having
`width*height` entries), it returns without an exception and fills every pixel with
`state.image[idx] * (1 / 0)`, all four components of which are non-finite. -/
theorem get_render_zero_samples (image : color_image) (state : raytrace_state)
    (hs : state.samples = 0) (hw : image.width = state.width) (hh : image.height = state.height)
    (hl : image.linear = true) (hp : image.pixels.length = (state.width * state.height).toNat) :
    (get_render image state).1 = .returned ∧
    ∀ idx, idx < (state.width * state.height).toNat →
      (get_render image state).2.pixels.getD idx default =
        ⟨.nonfinite, .nonfinite, .nonfinite, .nonfinite⟩ := by
  have hc : check_image image state.width state.height true = .ok () := by
    simp [check_image, hw, hh, hl]
  have hg : get_render image state = (.returned, get_render_loop state
      ((float.fin 1).div (float.ofInt state.samples)) (state.width * state.height).toNat image) := by
    simp [get_render, hc]
  obtain ⟨_, _, _, _, h5⟩ := get_render_loop_spec state
    ((float.fin 1).div (float.ofInt state.samples)) (state.width * state.height).toNat image
  rw [hg]
  refine ⟨rfl, ?_⟩
  intro idx hidx
  simp only
  rw [h5 idx, hs]
  simp [hidx, hp, vec4f.scale, float_mul_one_div_zero]

/-- C6 amended, at a concrete input: the snapshot of `fresh_state`. -/
theorem get_render_zero_samples_witness :
    fresh_state.samples = 0 ∧ (one_pixel_image true).linear = true ∧
    ((get_render (one_pixel_image true) fresh_state).1 = .returned ∧
    ∀ idx, idx < (fresh_state.width * fresh_state.height).toNat →
      (get_render (one_pixel_image true) fresh_state).2.pixels.getD idx default =
        ⟨.nonfinite, .nonfinite, .nonfinite, .nonfinite⟩) :=
  ⟨rfl, rfl, get_render_zero_samples (one_pixel_image true) fresh_state rfl rfl rfl rfl rfl⟩

/-- C7: `get_render(image, state)` throws `invalid_argument` whenever
`image.width != state.width` or `image.height != state.height`, and the image is then left
exactly as it was; with matching dimensions on a linear image it returns. -/
theorem get_render_size_check (image : color_image) (state : raytrace_state) :
    (image.width ≠ state.width ∨ image.height ≠ state.height →
      get_render image state =
        (.threw (.invalid_argument "image should have the same size"), image)) ∧
    (image.width = state.width → image.height = state.height → image.linear = true →
      (get_render image state).1 = .returned) := by
  constructor
  · intro h
    simp [get_render, check_image, h]
  · intro hw hh hl
    simp [get_render, check_image, hw, hh, hl]

/-- C7, at a concrete input: a 2x1 image against the 1x1 state `two_pass_state`, and a
matching linear image. -/
theorem get_render_size_check_witness :
    ((⟨2, 1, true, [vec4f.zero, vec4f.zero]⟩ : color_image).width ≠ two_pass_state.width ∨
      (⟨2, 1, true, [vec4f.zero, vec4f.zero]⟩ : color_image).height ≠ two_pass_state.height) ∧
    get_render ⟨2, 1, true, [vec4f.zero, vec4f.zero]⟩ two_pass_state =
      (.threw (.invalid_argument "image should have the same size"),
        ⟨2, 1, true, [vec4f.zero, vec4f.zero]⟩) ∧
    (get_render (one_pixel_image true) two_pass_state).1 = .returned :=
  ⟨by decide,
    (get_render_size_check ⟨2, 1, true, [vec4f.zero, vec4f.zero]⟩ two_pass_state).1 (by decide),
    (get_render_size_check (one_pixel_image true) two_pass_state).2 rfl rfl rfl⟩

/-- C8: `get_shader` returns `shade_raytrace`, `shade_matte`, `shade_eyelight`,
`shade_normal`, `shade_texcoord`, `shade_color` for the six modes of that name and throws
`runtime_error("sampler unknown")` for every other value of `params.shader`; a shader it
returns is always one of these six. -/
theorem get_shader_dispatch (ext : externals) (fuel : Nat) (params : raytrace_params) :
    get_shader ext fuel { params with shader := .raytrace } = .ok (shade_raytrace ext fuel) ∧
    get_shader ext fuel { params with shader := .matte } = .ok (shade_matte ext fuel) ∧
    get_shader ext fuel { params with shader := .eyelight } = .ok (shade_eyelight ext) ∧
    get_shader ext fuel { params with shader := .normal } = .ok (shade_normal ext) ∧
    get_shader ext fuel { params with shader := .texcoord } = .ok (shade_texcoord ext) ∧
    get_shader ext fuel { params with shader := .color } = .ok (shade_color ext) ∧
    (∀ tag, get_shader ext fuel { params with shader := .other tag } =
      .error (.runtime_error "sampler unknown")) ∧
    (get_shader ext fuel params = .error (.runtime_error "sampler unknown") ↔
      ∃ tag, params.shader = .other tag) ∧
    (get_shader ext fuel params = .error (.runtime_error "sampler unknown") ∨
      get_shader ext fuel params = .ok (shade_raytrace ext fuel) ∨
      get_shader ext fuel params = .ok (shade_matte ext fuel) ∨
      get_shader ext fuel params = .ok (shade_eyelight ext) ∨
      get_shader ext fuel params = .ok (shade_normal ext) ∨
      get_shader ext fuel params = .ok (shade_texcoord ext) ∨
      get_shader ext fuel params = .ok (shade_color ext)) := by
  refine ⟨rfl, rfl, rfl, rfl, rfl, rfl, fun _ => rfl, ?_, ?_⟩
  · cases hs : params.shader <;> simp [get_shader, hs]
  · cases hs : params.shader <;> simp [get_shader, hs]

/-- C9, on the code: a hit at depth 0, below the bounce limit 1, on an opaque material whose
tag is none of matte, reflective, glossy, transparent, refractive, with the wet overlay off.
`shade_raytrace` raises nothing: it leaves the switch and returns the environment radiance
of the ray direction, `(0, 0, -1, 1)` here, after the one draw of the opacity test. -/
theorem shade_raytrace_unknown_material :
    ((toy_externals true (toy_material (.other 5)) direction_env).intersect_bvh ⟨0⟩ toy_scene
      toy_ray).hit = true ∧
    (0 : Int) < (toy_params .raytrace 1 false).bounces ∧
    shade_raytrace (toy_externals true (toy_material (.other 5)) direction_env) 1 toy_scene ⟨0⟩
      toy_ray 0 ⟨0, 0⟩ (toy_params .raytrace 1 false)
      = some (rgb_to_rgba
          ((toy_externals true (toy_material (.other 5)) direction_env).eval_environment
            toy_scene toy_ray.d), ⟨1, 0⟩) ∧
    rgb_to_rgba ((toy_externals true (toy_material (.other 5)) direction_env).eval_environment
      toy_scene toy_ray.d) = ⟨.fin 0, .fin 0, .fin (-1), .fin 1⟩ := by
  refine ⟨rfl, by simp [toy_params], ?_, rfl⟩
  simp [shade_raytrace, shade_raytrace_material, toy_externals, toy_material, toy_params,
    float.lt, float.sub]
  norm_num

/-- C10, as stated, fails in its last part: every ray misses and `params.samples = 1`, but the
environment radiance has a non-finite channel, so the pass folds zero into the accumulator of
the pixel instead of the environment radiance of its primary ray. -/
theorem empty_scene_nonfinite_counterexample :
    (∀ ray, ((toy_externals false (toy_material .matte) nonfinite_env).intersect_bvh ⟨0⟩
      toy_scene ray).hit = false) ∧
    (toy_params .raytrace 1 false).samples = 1 ∧
    raytrace_samples (toy_externals false (toy_material .matte) nonfinite_env) 1 fresh_state
      toy_scene ⟨0⟩ (toy_params .raytrace 1 false)
      = (.returned, ⟨1, 1, 1, [vec4f.zero], [1], [⟨0, 0⟩]⟩) ∧
    (raytrace_samples (toy_externals false (toy_material .matte) nonfinite_env) 1 fresh_state
      toy_scene ⟨0⟩ (toy_params .raytrace 1 false)).2.image.getD 0 default ≠
      rgb_to_rgba ((toy_externals false (toy_material .matte) nonfinite_env).eval_environment
        toy_scene (center_ray (toy_externals false (toy_material .matte) nonfinite_env)
          toy_camera 1 1 0).d) := by
  have hpass : raytrace_samples (toy_externals false (toy_material .matte) nonfinite_env) 1
      fresh_state toy_scene ⟨0⟩ (toy_params .raytrace 1 false)
      = (.returned, ⟨1, 1, 1, [vec4f.zero], [1], [⟨0, 0⟩]⟩) := by
    simp [raytrace_samples, fresh_state, toy_params, get_shader, for_each, sample_center,
      at_index, toy_scene, accumulate, sanitize, List.range, List.range.loop,
      shade_raytrace, toy_externals, rgb_to_rgba, nonfinite_env, vec4f.add, vec4f.isfinite,
      float.isfinite, vec4f.zero, float.add]
  refine ⟨fun _ => rfl, rfl, hpass, ?_⟩
  rw [hpass]
  simp [toy_externals, nonfinite_env, rgb_to_rgba, vec4f.zero]

/-- C10, amended: for every ray, depth, bounce limit and random stream, if the intersection
oracle reports a miss for the ray then `shade_raytrace` and `shade_matte` (given any fuel but
none) return exactly `rgb_to_rgba(eval_environment(scene, ray.d))` and hand the stream back
untouched. Hence, on a scene where every ray misses, one pass with `params.samples = 1` over
a state with zero accumulators leaves each pixel's accumulator equal to the environment
radiance of the pixel's centre ray when that radiance is finite, and equal to zero when it is
not. -/
theorem empty_scene_closure (ext : externals) (fuel : Nat) (scene : scene_data)
    (bvh : bvh_scene) :
    (∀ (ray : ray3f) (bounce : Int) (rng : rng_state) (params : raytrace_params),
      (ext.intersect_bvh bvh scene ray).hit = false →
      shade_raytrace ext (fuel + 1) scene bvh ray bounce rng params
        = some (rgb_to_rgba (ext.eval_environment scene ray.d), rng) ∧
      shade_matte ext (fuel + 1) scene bvh ray bounce rng params
        = some (rgb_to_rgba (ext.eval_environment scene ray.d), rng)) ∧
    (∀ (params : raytrace_params) (state : raytrace_state),
      (∀ ray, (ext.intersect_bvh bvh scene ray).hit = false) →
      (params.shader = .raytrace ∨ params.shader = .matte) →
      params.samples = 1 → state.samples = 0 → state.well_formed →
      (∀ idx, state.image.getD idx default = vec4f.zero) →
      ∃ final, raytrace_samples ext (fuel + 1) state scene bvh params = (.returned, final) ∧
        ∀ idx, idx < (state.width * state.height).toNat →
          ((rgb_to_rgba (ext.eval_environment scene
              (center_ray ext (at_index scene.cameras params.camera) state.width state.height
                idx).d)).isfinite = true →
            final.image.getD idx default =
              rgb_to_rgba (ext.eval_environment scene
                (center_ray ext (at_index scene.cameras params.camera) state.width state.height
                  idx).d)) ∧
          ((rgb_to_rgba (ext.eval_environment scene
              (center_ray ext (at_index scene.cameras params.camera) state.width state.height
                idx).d)).isfinite = false →
            final.image.getD idx default = vec4f.zero)) := by
  refine ⟨fun ray bounce rng params hm =>
    ⟨shade_raytrace_miss ext fuel scene bvh ray bounce rng params hm,
      shade_matte_miss ext fuel scene bvh ray bounce rng params hm⟩, ?_⟩
  intro params state hmiss hshader h1 hs hwf hz
  obtain ⟨sh, hsh, hval⟩ : ∃ sh, get_shader ext (fuel + 1) params = .ok sh ∧
      ∀ ray rng, sh scene bvh ray 0 rng params =
        some (rgb_to_rgba (ext.eval_environment scene ray.d), rng) := by
    rcases hshader with h | h
    · exact ⟨shade_raytrace ext (fuel + 1), by simp [get_shader, h],
        fun ray rng => shade_raytrace_miss ext fuel scene bvh ray 0 rng params (hmiss ray)⟩
    · exact ⟨shade_matte ext (fuel + 1), by simp [get_shader, h],
        fun ray rng => shade_matte_miss ext fuel scene bvh ray 0 rng params (hmiss ray)⟩
  obtain ⟨final, hfin, _, _, _, _, _, _, hpix⟩ :=
    raytrace_samples_pass ext (fuel + 1) state scene bvh params sh (by rw [hs, h1]; decide) hsh
      (fun ray rng => ⟨_, hval ray rng⟩) (fun hne => absurd h1 hne)
  obtain ⟨hi, _, _⟩ := hwf
  refine ⟨final, hfin, ?_⟩
  intro idx hidx
  obtain ⟨radiance, rng, hshade, himg, _, _⟩ := hpix idx hidx
  have himg2 := himg (by rw [hi]; exact hidx)
  have hrad : radiance = rgb_to_rgba (ext.eval_environment scene
      (center_ray ext (at_index scene.cameras params.camera) state.width state.height idx).d) := by
    simp only [pixel_shade, h1, ne_eq, not_true_eq_false, decide_False, Bool.false_eq_true,
      if_false, hval, Option.some.injEq, Prod.mk.injEq] at hshade
    exact hshade.1.symm
  rw [himg2, hz idx, vec4f_zero_add _ (sanitize_isfinite radiance), ← hrad]
  constructor
  · intro hf; simp [sanitize, hf]
  · intro hf; simp [sanitize, hf]

/-- C10 amended, at a concrete input: the miss of `toy_ray`, and a single-sample render of the
fresh one-pixel state over a scene every ray misses. -/
theorem empty_scene_closure_witness :
    ((toy_externals false (toy_material .matte) direction_env).intersect_bvh ⟨0⟩ toy_scene
      toy_ray).hit = false ∧
    (shade_raytrace (toy_externals false (toy_material .matte) direction_env) (0 + 1) toy_scene
        ⟨0⟩ toy_ray 3 ⟨7, 0⟩ (toy_params .raytrace 1 false)
      = some (rgb_to_rgba ((toy_externals false (toy_material .matte) direction_env).eval_environment
          toy_scene toy_ray.d), ⟨7, 0⟩) ∧
    shade_matte (toy_externals false (toy_material .matte) direction_env) (0 + 1) toy_scene
        ⟨0⟩ toy_ray 3 ⟨7, 0⟩ (toy_params .raytrace 1 false)
      = some (rgb_to_rgba ((toy_externals false (toy_material .matte) direction_env).eval_environment
          toy_scene toy_ray.d), ⟨7, 0⟩)) ∧
    (toy_params .raytrace 1 false).samples = 1 ∧ fresh_state.samples = 0 ∧
    fresh_state.well_formed ∧
    ∃ final, raytrace_samples (toy_externals false (toy_material .matte) direction_env) (0 + 1)
        fresh_state toy_scene ⟨0⟩ (toy_params .raytrace 1 false) = (.returned, final) ∧
      ∀ idx, idx < (fresh_state.width * fresh_state.height).toNat →
        ((rgb_to_rgba ((toy_externals false (toy_material .matte) direction_env).eval_environment
            toy_scene
            (center_ray (toy_externals false (toy_material .matte) direction_env)
              (at_index toy_scene.cameras (toy_params .raytrace 1 false).camera)
              fresh_state.width fresh_state.height idx).d)).isfinite = true →
          final.image.getD idx default =
            rgb_to_rgba ((toy_externals false (toy_material .matte) direction_env).eval_environment
              toy_scene
              (center_ray (toy_externals false (toy_material .matte) direction_env)
                (at_index toy_scene.cameras (toy_params .raytrace 1 false).camera)
                fresh_state.width fresh_state.height idx).d)) ∧
        ((rgb_to_rgba ((toy_externals false (toy_material .matte) direction_env).eval_environment
            toy_scene
            (center_ray (toy_externals false (toy_material .matte) direction_env)
              (at_index toy_scene.cameras (toy_params .raytrace 1 false).camera)
              fresh_state.width fresh_state.height idx).d)).isfinite = false →
          final.image.getD idx default = vec4f.zero) :=
  ⟨rfl,
    (empty_scene_closure (toy_externals false (toy_material .matte) direction_env) 0 toy_scene
      ⟨0⟩).1 toy_ray 3 ⟨7, 0⟩ (toy_params .raytrace 1 false) rfl,
    rfl, rfl, by decide,
    (empty_scene_closure (toy_externals false (toy_material .matte) direction_env) 0 toy_scene
      ⟨0⟩).2 (toy_params .raytrace 1 false) fresh_state (fun _ => rfl) (Or.inl rfl) rfl rfl
      (by decide) (by
        intro idx
        cases idx with
        | zero => rfl
        | succ n => rfl)⟩

/-! ## Depth cutoff and termination -/

theorem rand1f_not_negative (ext : externals) (hrand : rand1f_in_unit_interval ext)
    (rng : rng_state) : (ext.rand1f rng).1.lt (.fin 0) = false := by
  obtain ⟨q, hq, h0, _⟩ := hrand rng
  rw [hq]
  simp [float.lt, h0]

theorem opaque_not_passed (ext : externals) (hrand : rand1f_in_unit_interval ext)
    (rng : rng_state) (opacity : float) (hop : opacity = .fin 1) :
    (ext.rand1f rng).1.lt ((float.fin 1).sub opacity) = false := by
  rw [hop]
  have : (float.fin 1).sub (.fin 1) = .fin 0 := by simp [float.sub]
  rw [this]
  exact rand1f_not_negative ext hrand rng

/-- A hit at or beyond the bounce limit whose pass-through draw fails: the emission with
alpha one, after the one draw, with any fuel but none. -/
theorem shade_raytrace_cutoff (ext : externals) (fuel : Nat) (scene : scene_data)
    (bvh : bvh_scene) (ray : ray3f) (bounce : Int) (rng : rng_state) (params : raytrace_params)
    (hhit : (ext.intersect_bvh bvh scene ray).hit = true)
    (hpass : (ext.rand1f rng).1.lt ((float.fin 1).sub
      (ext.eval_material scene
        (at_index scene.instances (ext.intersect_bvh bvh scene ray).instance_id)
        (ext.intersect_bvh bvh scene ray).element (ext.intersect_bvh bvh scene ray).uv).opacity)
      = false)
    (hb : params.bounces ≤ bounce) :
    shade_raytrace ext (fuel + 1) scene bvh ray bounce rng params =
      some (rgb_to_rgba (ext.eval_material scene
        (at_index scene.instances (ext.intersect_bvh bvh scene ray).instance_id)
        (ext.intersect_bvh bvh scene ray).element (ext.intersect_bvh bvh scene ray).uv).emission,
        (ext.rand1f rng).2) := by
  simp [shade_raytrace, hhit, hpass, hb]

/-- The material switch returns as soon as its recursive calls do. -/
theorem shade_raytrace_material_total (ext : externals) (self : shade_rec) (scene : scene_data)
    (ray : ray3f) (bounce : Int) (material : material_point) (position normal : vec3f)
    (radiance : vec4f) (rng : rng_state)
    (hself : ∀ r g, self r (bounce + 1) g ≠ none) :
    ∃ x, shade_raytrace_material ext self scene ray bounce material position normal radiance rng
      = some x := by
  unfold shade_raytrace_material
  dsimp only
  repeat' split
  all_goals first
    | exact ⟨_, rfl⟩
    | exact absurd (by assumption) (hself _ _)

/-- The wet overlay returns as soon as its recursive call does. -/
theorem shade_raytrace_wet_total (ext : externals) (self : shade_rec) (ray : ray3f) (bounce : Int)
    (params : raytrace_params) (inst : instance_data) (intersection : bvh_intersection)
    (material : material_point) (position wet_normal : vec3f) (exponent : float)
    (radiance : vec4f) (rng : rng_state)
    (hself : ∀ r g, self r (bounce + 1) g ≠ none) :
    ∃ x, shade_raytrace_wet ext self ray bounce params inst intersection material position
      wet_normal exponent radiance rng = some x := by
  unfold shade_raytrace_wet
  dsimp only
  repeat' split
  all_goals first
    | exact ⟨_, rfl⟩
    | exact absurd (by assumption) (hself _ _)

/-- With opaque materials only, fuel beyond the number of bounces left is enough. -/
theorem shade_raytrace_opaque_total (ext : externals) (scene : scene_data) (bvh : bvh_scene)
    (params : raytrace_params) (hrand : rand1f_in_unit_interval ext)
    (hop : ∀ inst element uv, (ext.eval_material scene inst element uv).opacity = .fin 1) :
    ∀ (fuel : Nat) (ray : ray3f) (bounce : Int) (rng : rng_state),
      (params.bounces - bounce).toNat < fuel →
      ∃ x, shade_raytrace ext fuel scene bvh ray bounce rng params = some x := by
  intro fuel
  induction fuel with
  | zero => intro ray bounce rng h; omega
  | succ fuel ih =>
    intro ray bounce rng h
    cases hhit : (ext.intersect_bvh bvh scene ray).hit with
    | false => exact ⟨_, shade_raytrace_miss ext fuel scene bvh ray bounce rng params hhit⟩
    | true =>
      have hpass := opaque_not_passed ext hrand rng _
        (hop (at_index scene.instances (ext.intersect_bvh bvh scene ray).instance_id)
          (ext.intersect_bvh bvh scene ray).element (ext.intersect_bvh bvh scene ray).uv)
      by_cases hb : params.bounces ≤ bounce
      · exact ⟨_, shade_raytrace_cutoff ext fuel scene bvh ray bounce rng params hhit hpass hb⟩
      · have hself : ∀ r g, (fun r b g => shade_raytrace ext fuel scene bvh r b g params) r
            (bounce + 1) g ≠ none := by
          intro r g hnone
          obtain ⟨x, hx⟩ := ih r (bounce + 1) g (by omega)
          simp only [hx] at hnone
          exact Option.some_ne_none _ hnone
        simp only [shade_raytrace, hhit, if_true, hpass, Bool.false_eq_true, if_false, ge_iff_le, hb]
        split
        · split
          · exact shade_raytrace_wet_total ext _ ray bounce params _ _ _ _ _ _ _ _ hself
          · exact shade_raytrace_material_total ext _ scene ray bounce _ _ _ _ _ hself
        · exact shade_raytrace_material_total ext _ scene ray bounce _ _ _ _ _ hself

theorem default_frame_o : (default : frame3f).o = ⟨.fin 0, .fin 0, .fin 0⟩ := rfl

theorem toy_rand1f_in_unit_interval (hit : Bool) (material : material_point)
    (env : vec3f → vec3f) : rand1f_in_unit_interval (toy_externals hit material env) :=
  fun _ => ⟨1 / 4, rfl, by norm_num, by norm_num⟩

/-- C11: for a ray that hits an opaque material (opacity = 1), with draws of `rand1f` in
`[0, 1)`, `shade_raytrace` at any depth `d >= params.bounces` (in particular at depth 0 with
`params.bounces = 0`) returns exactly `(emission.x, emission.y, emission.z, 1)`, with no
indirect term, for every random stream and any fuel but none. So when every ray hits an
opaque material of emission `E` and `params.bounces = 0`, the radiance computed for every
pixel, centred or jittered, is `(E.x, E.y, E.z, 1)`: a flat image. -/
theorem zero_bounce_truncation (ext : externals) (hrand : rand1f_in_unit_interval ext)
    (fuel : Nat) (scene : scene_data) (bvh : bvh_scene) :
    (∀ (ray : ray3f) (bounce : Int) (rng : rng_state) (params : raytrace_params),
      (ext.intersect_bvh bvh scene ray).hit = true →
      (ext.eval_material scene
        (at_index scene.instances (ext.intersect_bvh bvh scene ray).instance_id)
        (ext.intersect_bvh bvh scene ray).element
        (ext.intersect_bvh bvh scene ray).uv).opacity = .fin 1 →
      params.bounces ≤ bounce →
      shade_raytrace ext (fuel + 1) scene bvh ray bounce rng params =
        some (⟨(ext.eval_material scene
            (at_index scene.instances (ext.intersect_bvh bvh scene ray).instance_id)
            (ext.intersect_bvh bvh scene ray).element
            (ext.intersect_bvh bvh scene ray).uv).emission.x,
          (ext.eval_material scene
            (at_index scene.instances (ext.intersect_bvh bvh scene ray).instance_id)
            (ext.intersect_bvh bvh scene ray).element
            (ext.intersect_bvh bvh scene ray).uv).emission.y,
          (ext.eval_material scene
            (at_index scene.instances (ext.intersect_bvh bvh scene ray).instance_id)
            (ext.intersect_bvh bvh scene ray).element
            (ext.intersect_bvh bvh scene ray).uv).emission.z, .fin 1⟩, (ext.rand1f rng).2)) ∧
    (∀ (params : raytrace_params) (camera : camera_data) (emission : vec3f),
      params.bounces = 0 →
      (∀ ray, (ext.intersect_bvh bvh scene ray).hit = true) →
      (∀ inst element uv, (ext.eval_material scene inst element uv).opacity = .fin 1 ∧
        (ext.eval_material scene inst element uv).emission = emission) →
      ∀ (width height : Int) (jitter : Bool) (idx : Nat) (rng : rng_state),
        ∃ rng_out, pixel_shade ext (shade_raytrace ext (fuel + 1)) scene bvh camera params width
          height jitter idx rng = some (⟨emission.x, emission.y, emission.z, .fin 1⟩, rng_out)) := by
  constructor
  · intro ray bounce rng params hhit hop hb
    rw [shade_raytrace_cutoff ext fuel scene bvh ray bounce rng params hhit
      (opaque_not_passed ext hrand rng _ hop) hb]
    rfl
  · intro params camera emission hb hhit hmat width height jitter idx rng
    have key : ∀ ray g, shade_raytrace ext (fuel + 1) scene bvh ray 0 g params =
        some (⟨emission.x, emission.y, emission.z, .fin 1⟩, (ext.rand1f g).2) := by
      intro ray g
      rw [shade_raytrace_cutoff ext fuel scene bvh ray 0 g params (hhit ray)
        (opaque_not_passed ext hrand g _ (hmat _ _ _).1) (by rw [hb]), (hmat _ _ _).2]
      rfl
    cases jitter
    · exact ⟨_, by simp only [pixel_shade, Bool.false_eq_true, if_false]; exact key _ _⟩
    · exact ⟨_, by simp only [pixel_shade, if_true]; exact key _ _⟩

/-- C11, at a concrete input: the ray `toy_ray` and a scene where every ray hits an opaque
material of emission `(3, 2, 1)`, bounce limit 0. -/
theorem zero_bounce_truncation_witness :
    rand1f_in_unit_interval (toy_externals true (emissive_material .matte) direction_env) ∧
    (zero_bounce_params .raytrace 1).bounces ≤ 0 ∧
    shade_raytrace (toy_externals true (emissive_material .matte) direction_env) (0 + 1)
      toy_scene ⟨0⟩ toy_ray 0 ⟨0, 0⟩ (zero_bounce_params .raytrace 1)
      = some (⟨.fin 3, .fin 2, .fin 1, .fin 1⟩, ⟨1, 0⟩) ∧
    (∀ (width height : Int) (jitter : Bool) (idx : Nat) (rng : rng_state),
      ∃ rng_out, pixel_shade (toy_externals true (emissive_material .matte) direction_env)
        (shade_raytrace (toy_externals true (emissive_material .matte) direction_env) (0 + 1))
        toy_scene ⟨0⟩ toy_camera (zero_bounce_params .raytrace 1) width height jitter idx rng
        = some (⟨.fin 3, .fin 2, .fin 1, .fin 1⟩, rng_out)) :=
  ⟨toy_rand1f_in_unit_interval _ _ _, by decide,
    (zero_bounce_truncation (toy_externals true (emissive_material .matte) direction_env)
      (toy_rand1f_in_unit_interval _ _ _) 0 toy_scene ⟨0⟩).1 toy_ray 0 ⟨0, 0⟩
      (zero_bounce_params .raytrace 1) rfl rfl (by decide),
    (zero_bounce_truncation (toy_externals true (emissive_material .matte) direction_env)
      (toy_rand1f_in_unit_interval _ _ _) 0 toy_scene ⟨0⟩).2 (zero_bounce_params .raytrace 1)
      toy_camera ⟨.fin 3, .fin 2, .fin 1⟩ rfl (fun _ => rfl) (fun _ _ _ => ⟨rfl, rfl⟩)⟩

/-- C13, as stated, fails: with `params.bounces = 0` the ray `toy_ray` hits a clear sheet
(opacity 0) at depth 0, which is at the bounce limit, and the opacity pass-through makes a
recursive call all the same. Fuel 1, that is nesting depth `params.bounces + 1`, is used up;
with fuel 2 the call returns the emission plus the environment radiance `(0, 0, -1, 1)` that
the recursive call at depth 1 found behind the sheet. -/
theorem pass_through_depth_counterexample :
    (sheet_externals.intersect_bvh ⟨0⟩ toy_scene toy_ray).hit = true ∧
    (zero_bounce_params .raytrace 1).bounces ≤ 0 ∧
    rand1f_in_unit_interval sheet_externals ∧
    shade_raytrace sheet_externals ((zero_bounce_params .raytrace 1).bounces.toNat + 1)
      toy_scene ⟨0⟩ toy_ray 0 ⟨0, 0⟩ (zero_bounce_params .raytrace 1) = none ∧
    shade_raytrace sheet_externals 2 toy_scene ⟨0⟩ toy_ray 0 ⟨0, 0⟩
      (zero_bounce_params .raytrace 1) = some (⟨.fin 0, .fin 0, .fin (-1), .fin 2⟩, ⟨1, 0⟩) := by
  refine ⟨by decide, by decide, fun _ => ⟨1 / 4, rfl, by norm_num, by norm_num⟩, ?_, ?_⟩
  · simp [shade_raytrace, sheet_externals, toy_externals, zero_bounce_params, toy_params,
      clear_material, toy_ray, float.lt, float.sub, vec3f.zero]
    norm_num
  · simp [shade_raytrace, sheet_externals, toy_externals, zero_bounce_params, toy_params,
      clear_material, toy_ray, float.lt, float.sub, vec3f.zero, at_index, toy_scene,
      vec3f.add, float.add, rgb_to_rgba, vec4f.add, direction_env, default_frame_o]
    norm_num [float.add]

/-- C13, amended: the bounce limit bounds the shading work when the opacity pass-through is
not taken. A call of `shade_raytrace` at depth `d >= params.bounces` whose pass-through draw
fails makes no recursive call (fuel 1 is enough). If every material is opaque (opacity = 1)
and the draws of `rand1f` are in `[0, 1)`, then fuel beyond the number of bounces left is
always enough: started at depth 0 the nesting depth never exceeds `params.bounces + 1`, and the
evaluation returns. The pass-through call of lines 116-117 itself is made before the depth
test, at every depth. -/
theorem shade_raytrace_depth_bound (ext : externals) (hrand : rand1f_in_unit_interval ext)
    (scene : scene_data) (bvh : bvh_scene) (params : raytrace_params) :
    (∀ (ray : ray3f) (bounce : Int) (rng : rng_state),
      (ext.intersect_bvh bvh scene ray).hit = true →
      (ext.rand1f rng).1.lt ((float.fin 1).sub
        (ext.eval_material scene
          (at_index scene.instances (ext.intersect_bvh bvh scene ray).instance_id)
          (ext.intersect_bvh bvh scene ray).element
          (ext.intersect_bvh bvh scene ray).uv).opacity) = false →
      params.bounces ≤ bounce →
      ∃ x, shade_raytrace ext 1 scene bvh ray bounce rng params = some x) ∧
    ((∀ inst element uv, (ext.eval_material scene inst element uv).opacity = .fin 1) →
      (∀ (ray : ray3f) (rng : rng_state),
        ∃ x, shade_raytrace ext (params.bounces.toNat + 1) scene bvh ray 0 rng params = some x) ∧
      (∀ (fuel : Nat) (ray : ray3f) (bounce : Int) (rng : rng_state),
        (params.bounces - bounce).toNat < fuel →
        ∃ x, shade_raytrace ext fuel scene bvh ray bounce rng params = some x)) := by
  refine ⟨fun ray bounce rng hhit hpass hb =>
    ⟨_, shade_raytrace_cutoff ext 0 scene bvh ray bounce rng params hhit hpass hb⟩, ?_⟩
  intro hop
  refine ⟨fun ray rng => ?_, shade_raytrace_opaque_total ext scene bvh params hrand hop⟩
  exact shade_raytrace_opaque_total ext scene bvh params hrand hop _ ray 0 rng (by simp)

/-- C13 amended, at a concrete input: an opaque matte scene with bounce limit 1. -/
theorem shade_raytrace_depth_bound_witness :
    rand1f_in_unit_interval (toy_externals true (toy_material .matte) direction_env) ∧
    (∀ inst element uv,
      ((toy_externals true (toy_material .matte) direction_env).eval_material toy_scene inst
        element uv).opacity = .fin 1) ∧
    (∃ x, shade_raytrace (toy_externals true (toy_material .matte) direction_env) 1 toy_scene
      ⟨0⟩ toy_ray 1 ⟨0, 0⟩ (toy_params .raytrace 1 false) = some x) ∧
    (∃ x, shade_raytrace (toy_externals true (toy_material .matte) direction_env)
      ((toy_params .raytrace 1 false).bounces.toNat + 1) toy_scene ⟨0⟩ toy_ray 0 ⟨0, 0⟩
      (toy_params .raytrace 1 false) = some x) :=
  ⟨toy_rand1f_in_unit_interval _ _ _, fun _ _ _ => rfl,
    (shade_raytrace_depth_bound (toy_externals true (toy_material .matte) direction_env)
      (toy_rand1f_in_unit_interval _ _ _) toy_scene ⟨0⟩ (toy_params .raytrace 1 false)).1
      toy_ray 1 ⟨0, 0⟩ rfl
      (opaque_not_passed _ (toy_rand1f_in_unit_interval _ _ _) _ _ rfl) (by decide),
    ((shade_raytrace_depth_bound (toy_externals true (toy_material .matte) direction_env)
      (toy_rand1f_in_unit_interval _ _ _) toy_scene ⟨0⟩ (toy_params .raytrace 1 false)).2
      (fun _ _ _ => rfl)).1 toy_ray ⟨0, 0⟩⟩

/-! ## Sequential and parallel passes -/

theorem for_each_cons (task : Nat → raytrace_state → Option raytrace_state) (a : Nat)
    (l : List Nat) (s : raytrace_state) :
    for_each task (a :: l) s = (task a s).bind (for_each task l) := by
  cases h : task a s <;> simp [for_each, h]

/-- A loop whose tasks commute gives the same result in every order of the indices. -/
theorem for_each_perm (task : Nat → raytrace_state → Option raytrace_state)
    (hcomm : ∀ a b s, (task a s).bind (task b) = (task b s).bind (task a))
    {l₁ l₂ : List Nat} (hp : l₁.Perm l₂) :
    ∀ s, for_each task l₁ s = for_each task l₂ s := by
  induction hp with
  | nil => intro s; rfl
  | cons a _ ih =>
    intro s
    rw [for_each_cons, for_each_cons]
    congr 1
    funext t
    exact ih t
  | swap a b l =>
    intro s
    rw [for_each_cons, for_each_cons]
    have h1 : (fun t => for_each task (a :: l) t) = fun t => (task a t).bind (for_each task l) :=
      funext fun t => for_each_cons task a l t
    have h2 : (fun t => for_each task (b :: l) t) = fun t => (task b t).bind (for_each task l) :=
      funext fun t => for_each_cons task b l t
    show (task b s).bind (fun t => for_each task (a :: l) t)
      = (task a s).bind (fun t => for_each task (b :: l) t)
    rw [h1, h2, ← Option.bind_assoc, ← Option.bind_assoc, hcomm b a s]
  | trans _ _ ih₁ ih₂ => intro s; rw [ih₁ s, ih₂ s]

/-- The pixel task commutes with itself at another index: it reads and writes slot `idx` only. -/
theorem pixel_task_comm (task : Nat → raytrace_state → Option raytrace_state)
    (g : Int → Int → Nat → rng_state → Option (vec4f × rng_state))
    (htask : ∀ idx state, task idx state =
      match g state.width state.height idx (state.rngs.getD idx default) with
      | none => none
      | some (radiance, rng) => some (accumulate state idx radiance rng)) :
    ∀ a b s, (task a s).bind (task b) = (task b s).bind (task a) := by
  intro a b s
  by_cases hab : a = b
  · subst hab; rfl
  · have hba : b ≠ a := fun e => hab e.symm
    have hw : ∀ i r q, (accumulate s i r q).width = s.width := fun _ _ _ => rfl
    have hh : ∀ i r q, (accumulate s i r q).height = s.height := fun _ _ _ => rfl
    have hra : ∀ r q, (accumulate s a r q).rngs.getD b default = s.rngs.getD b default := by
      intro r q; simp [accumulate, getD_set, hab]
    have hrb : ∀ r q, (accumulate s b r q).rngs.getD a default = s.rngs.getD a default := by
      intro r q; simp [accumulate, getD_set, hba]
    rw [htask a s, htask b s]
    cases ha : g s.width s.height a (s.rngs.getD a default) with
    | none =>
      cases hb : g s.width s.height b (s.rngs.getD b default) with
      | none => rfl
      | some y =>
        obtain ⟨rb, qb⟩ := y
        show none = task a (accumulate s b rb qb)
        rw [htask a, hw, hh, hrb, ha]
    | some x =>
      obtain ⟨ra, qa⟩ := x
      cases hb : g s.width s.height b (s.rngs.getD b default) with
      | none =>
        show task b (accumulate s a ra qa) = none
        rw [htask b, hw, hh, hra, hb]
      | some y =>
        obtain ⟨rb, qb⟩ := y
        show task b (accumulate s a ra qa) = task a (accumulate s b rb qb)
        rw [htask b, htask a, hw, hh, hw, hh, hra, hrb, ha, hb]
        simp [accumulate, getD_set, hab, hba, List.set_comm _ _ _ hab]

theorem shade_raytrace_wet_noparallel (ext : externals) (self : shade_rec) (ray : ray3f)
    (bounce : Int) (params : raytrace_params) (b : Bool) (inst : instance_data)
    (intersection : bvh_intersection) (material : material_point) (position wet_normal : vec3f)
    (exponent : float) (radiance : vec4f) (rng : rng_state) :
    shade_raytrace_wet ext self ray bounce { params with noparallel := b } inst intersection
      material position wet_normal exponent radiance rng =
    shade_raytrace_wet ext self ray bounce params inst intersection material position wet_normal
      exponent radiance rng := rfl

/-- The full-transport shader does not read `params.noparallel`. -/
theorem shade_raytrace_noparallel (ext : externals) (params : raytrace_params) (b : Bool)
    (scene : scene_data) (bvh : bvh_scene) :
    ∀ (fuel : Nat) (ray : ray3f) (bounce : Int) (rng : rng_state),
      shade_raytrace ext fuel scene bvh ray bounce rng { params with noparallel := b } =
        shade_raytrace ext fuel scene bvh ray bounce rng params := by
  intro fuel
  induction fuel with
  | zero => intro ray bounce rng; rfl
  | succ fuel ih =>
    intro ray bounce rng
    have hself : (fun r d g => shade_raytrace ext fuel scene bvh r d g
        { params with noparallel := b }) =
        (fun r d g => shade_raytrace ext fuel scene bvh r d g params) := by
      funext r d g; exact ih r d g
    simp only [shade_raytrace, hself, ih, shade_raytrace_wet_noparallel]

/-- The matte shader does not read `params.noparallel`. -/
theorem shade_matte_noparallel (ext : externals) (params : raytrace_params) (b : Bool)
    (scene : scene_data) (bvh : bvh_scene) :
    ∀ (fuel : Nat) (ray : ray3f) (bounce : Int) (rng : rng_state),
      shade_matte ext fuel scene bvh ray bounce rng { params with noparallel := b } =
        shade_matte ext fuel scene bvh ray bounce rng params := by
  intro fuel
  induction fuel with
  | zero => intro ray bounce rng; rfl
  | succ fuel ih =>
    intro ray bounce rng
    simp only [shade_matte, ih]

/-- No shader that `get_shader` returns reads `params.noparallel`. -/
theorem shader_noparallel (ext : externals) (fuel : Nat) (params : raytrace_params) (b : Bool)
    (sh : raytrace_shader_func) (hsh : get_shader ext fuel params = .ok sh)
    (scene : scene_data) (bvh : bvh_scene) (ray : ray3f) (bounce : Int) (rng : rng_state) :
    sh scene bvh ray bounce rng { params with noparallel := b } =
      sh scene bvh ray bounce rng params := by
  unfold get_shader at hsh
  split at hsh <;> simp only [Except.ok.injEq, reduceCtorEq] at hsh <;> subst hsh
  · exact shade_raytrace_noparallel ext params b scene bvh fuel ray bounce rng
  · exact shade_matte_noparallel ext params b scene bvh fuel ray bounce rng
  · rfl
  · rfl
  · rfl
  · rfl

theorem sample_jitter_form (ext : externals) (sh : raytrace_shader_func) (scene : scene_data)
    (bvh : bvh_scene) (camera : camera_data) (params : raytrace_params) :
    ∀ idx state, sample_jitter ext sh scene bvh camera params idx state =
      match pixel_shade ext sh scene bvh camera params state.width state.height true idx
          (state.rngs.getD idx default) with
      | none => none
      | some (radiance, rng) => some (accumulate state idx radiance rng) :=
  fun _ _ => rfl

/-- One pass gives the same result and state under the sequential and the parallel policy. -/
theorem raytrace_samples_policy (ext : externals)
    (hpar : ∀ n, (ext.parallel_order n).Perm (List.range n)) (fuel : Nat)
    (scene : scene_data) (bvh : bvh_scene) (params : raytrace_params) (state : raytrace_state) :
    raytrace_samples ext fuel state scene bvh { params with noparallel := true } =
      raytrace_samples ext fuel state scene bvh { params with noparallel := false } := by
  have hcenter : ∀ (sh : raytrace_shader_func) (b : Bool), get_shader ext fuel params = .ok sh →
      sample_center ext sh scene bvh (at_index scene.cameras params.camera)
        { params with noparallel := b } =
      sample_center ext sh scene bvh (at_index scene.cameras params.camera) params := by
    intro sh b hsh
    funext idx st
    simp only [sample_center, shader_noparallel ext fuel params b sh hsh]
  have hjitter : ∀ (sh : raytrace_shader_func) (b : Bool), get_shader ext fuel params = .ok sh →
      sample_jitter ext sh scene bvh (at_index scene.cameras params.camera)
        { params with noparallel := b } =
      sample_jitter ext sh scene bvh (at_index scene.cameras params.camera) params := by
    intro sh b hsh
    funext idx st
    simp only [sample_jitter, shader_noparallel ext fuel params b sh hsh]
  have hgs : ∀ b : Bool, get_shader ext fuel { params with noparallel := b }
      = get_shader ext fuel params := fun _ => rfl
  unfold raytrace_samples
  simp only [hgs]
  cases hsh : get_shader ext fuel params with
  | error e => rfl
  | ok sh =>
    simp only [hcenter sh _ hsh, hjitter sh _ hsh, if_true, Bool.false_eq_true, if_false]
    rw [for_each_perm _ (pixel_task_comm _
      (fun w h idx rng => pixel_shade ext sh scene bvh (at_index scene.cameras params.camera)
        params w h true idx rng)
      (sample_jitter_form ext sh scene bvh _ params)) (hpar _)]

/-- C12: for a fixed scene, camera, params and starting state, one pass of `raytrace_samples`
under the sequential policy (`noparallel = true`, indices in increasing order) and under the
parallel policy (the same per-pixel task run for the indices in whatever order `parallel_for`
visits them, each once) end the same way and leave the same state, so the same `image[idx]`,
`hits[idx]` and `rngs[idx]` for every pixel; the same holds after `N` passes. The reason is
that the task for index `idx` computes from `rngs[idx]` alone and changes slot `idx` only. -/
theorem sequential_parallel_agree (ext : externals)
    (hpar : ∀ n, (ext.parallel_order n).Perm (List.range n)) (fuel : Nat)
    (scene : scene_data) (bvh : bvh_scene) (params : raytrace_params) :
    (∀ state, raytrace_samples ext fuel state scene bvh { params with noparallel := true } =
      raytrace_samples ext fuel state scene bvh { params with noparallel := false }) ∧
    (∀ state idx,
      (raytrace_samples ext fuel state scene bvh { params with noparallel := true }).2.image.getD
          idx default =
        (raytrace_samples ext fuel state scene bvh { params with noparallel := false }).2.image.getD
          idx default ∧
      (raytrace_samples ext fuel state scene bvh { params with noparallel := true }).2.hits.getD
          idx 0 =
        (raytrace_samples ext fuel state scene bvh { params with noparallel := false }).2.hits.getD
          idx 0 ∧
      (raytrace_samples ext fuel state scene bvh { params with noparallel := true }).2.rngs.getD
          idx default =
        (raytrace_samples ext fuel state scene bvh { params with noparallel := false }).2.rngs.getD
          idx default) ∧
    (∀ (N : Nat) state,
      raytrace_passes ext fuel scene bvh { params with noparallel := true } N state =
        raytrace_passes ext fuel scene bvh { params with noparallel := false } N state) ∧
    (∀ (sh : raytrace_shader_func) (camera : camera_data) (idx : Nat) (state : raytrace_state),
      sample_jitter ext sh scene bvh camera params idx state =
        match pixel_shade ext sh scene bvh camera params state.width state.height true idx
            (state.rngs.getD idx default) with
        | none => none
        | some (radiance, rng) => some (accumulate state idx radiance rng)) ∧
    (∀ (state : raytrace_state) (idx j : Nat) (radiance : vec4f) (rng : rng_state), j ≠ idx →
      (accumulate state idx radiance rng).image.getD j default = state.image.getD j default ∧
      (accumulate state idx radiance rng).hits.getD j 0 = state.hits.getD j 0 ∧
      (accumulate state idx radiance rng).rngs.getD j default = state.rngs.getD j default) := by
  have h1 := raytrace_samples_policy ext hpar fuel scene bvh params
  refine ⟨h1, fun state idx => by rw [h1 state]; exact ⟨rfl, rfl, rfl⟩, ?_,
    fun _ _ _ _ => rfl, ?_⟩
  · intro N
    induction N with
    | zero => intro state; rfl
    | succ N ih =>
      intro state
      simp only [raytrace_passes, ih state]
      split
      · exact h1 _
      · rfl
  · intro state idx j radiance rng hne
    have hne2 : idx ≠ j := fun e => hne e.symm
    simp [accumulate, getD_set, hne2]

/-- C12, at a concrete input: `parallel_for` visiting the pixels in decreasing order, two
passes of the jittered full-transport shader from the state `make_state` returns. -/
theorem sequential_parallel_agree_witness :
    (∀ n, ((toy_externals true (toy_material .matte) direction_env).parallel_order n).Perm
      (List.range n)) ∧
    raytrace_passes (toy_externals true (toy_material .matte) direction_env) 3 toy_scene ⟨0⟩
      { toy_params .raytrace 2 false with noparallel := true } 2
      (make_state (toy_externals true (toy_material .matte) direction_env) toy_scene
        (toy_params .raytrace 2 false)) =
    raytrace_passes (toy_externals true (toy_material .matte) direction_env) 3 toy_scene ⟨0⟩
      { toy_params .raytrace 2 false with noparallel := false } 2
      (make_state (toy_externals true (toy_material .matte) direction_env) toy_scene
        (toy_params .raytrace 2 false)) :=
  ⟨toy_parallel_order _ _ _,
    (sequential_parallel_agree (toy_externals true (toy_material .matte) direction_env)
      (toy_parallel_order _ _ _) 3 toy_scene ⟨0⟩ (toy_params .raytrace 2 false)).2.2.1 2 _⟩

/-! ## Seeding and size of the state -/

theorem make_rngs_getD (ext : externals) :
    ∀ (n : Nat) (rng_ : rng_state) (idx : Nat), idx < n →
      (make_rngs ext n rng_).getD idx default =
        ext.make_rng 961748941
          (((ext.rand1i (advance_generator ext idx rng_) (-2147483648)).1.tdiv 2 + 1) %
            2 ^ 64).toNat := by
  intro n
  induction n with
  | zero => intro rng_ idx h; omega
  | succ n ih =>
    intro rng_ idx h
    cases idx with
    | zero => simp [make_rngs, advance_generator]
    | succ i =>
      have := ih (ext.rand1i rng_ (-2147483648)).2 i (by omega)
      simpa [make_rngs, advance_generator] using this

theorem toy_make_state_size (ext : externals) (params : raytrace_params)
    (hc : params.camera = 0) (hr : params.resolution = 2) :
    (make_state ext toy_scene params).width = 2 ∧ (make_state ext toy_scene params).height = 2 := by
  have hfl : ⌊(2 : ℚ)⁻¹⌋ = 0 := by
    rw [Int.floor_eq_iff]; constructor <;> norm_num
  constructor <;>
    simp [make_state, hc, hr, toy_scene, at_index, toy_camera, float.ge, float.le, float.ofInt,
      float.div, float.round_to_int, hfl]

/-- C14, as stated, fails: two parameter sets that differ only in the seed (0 and 1) get the
same state from `make_state`, stream for stream, so the seed option selects nothing. With the
toy generator the first of the four streams is `make_rng(961748941, 1301081 / 2 + 1)` for both
seeds. -/
theorem make_state_seed_counterexample :
    ({ toy_params .raytrace 1 false with seed := 1 } : raytrace_params).seed ≠
      (toy_params .raytrace 1 false).seed ∧
    (make_state (toy_externals true (toy_material .matte) direction_env) toy_scene
        { toy_params .raytrace 1 false with seed := 1 }).rngs =
      (make_state (toy_externals true (toy_material .matte) direction_env) toy_scene
        (toy_params .raytrace 1 false)).rngs ∧
    (make_state (toy_externals true (toy_material .matte) direction_env) toy_scene
        { toy_params .raytrace 1 false with seed := 1 }).rngs.length = 4 ∧
    (make_state (toy_externals true (toy_material .matte) direction_env) toy_scene
        { toy_params .raytrace 1 false with seed := 1 }).rngs.getD 0 default = ⟨961748941, 650541⟩ ∧
    (make_state (toy_externals true (toy_material .matte) direction_env) toy_scene
        (toy_params .raytrace 1 false)).rngs.getD 0 default = ⟨961748941, 650541⟩ := by
  obtain ⟨hw, hh⟩ := toy_make_state_size (toy_externals true (toy_material .matte) direction_env)
    (toy_params .raytrace 1 false) rfl rfl
  have hr : (make_state (toy_externals true (toy_material .matte) direction_env) toy_scene
      (toy_params .raytrace 1 false)).rngs =
      make_rngs (toy_externals true (toy_material .matte) direction_env)
        ((make_state (toy_externals true (toy_material .matte) direction_env) toy_scene
          (toy_params .raytrace 1 false)).width *
        (make_state (toy_externals true (toy_material .matte) direction_env) toy_scene
          (toy_params .raytrace 1 false)).height).toNat
        ((toy_externals true (toy_material .matte) direction_env).make_rng 1301081 1) := rfl
  have hsame : (make_state (toy_externals true (toy_material .matte) direction_env) toy_scene
        { toy_params .raytrace 1 false with seed := 1 }).rngs =
      (make_state (toy_externals true (toy_material .matte) direction_env) toy_scene
        (toy_params .raytrace 1 false)).rngs := rfl
  have hlen : (make_state (toy_externals true (toy_material .matte) direction_env) toy_scene
      (toy_params .raytrace 1 false)).rngs.length = 4 := by
    rw [hr, hw, hh, make_rngs_length]; rfl
  have h0 : (make_state (toy_externals true (toy_material .matte) direction_env) toy_scene
      (toy_params .raytrace 1 false)).rngs.getD 0 default = ⟨961748941, 650541⟩ := by
    rw [hr, hw, hh, make_rngs_getD _ _ _ 0 (by decide)]
    simp [advance_generator, toy_externals, Int.tdiv]
  refine ⟨by decide, hsame, ?_, ?_, h0⟩
  · rw [hsame]; exact hlen
  · rw [hsame]; exact h0

/-- C14, amended: `make_state` does not read `params.seed`. The stream of pixel `idx` is
`make_rng(961748941, rand1i(rng_, 1 << 31) / 2 + 1)`, where `rng_` is the one generator
`make_rng(1301081)` after `idx` earlier draws: a deterministic function of the fixed constants
and of `idx` alone. So every run gets the same streams whatever the seed option is: the state
`make_state` returns is the same for every value of `params.seed`. -/
theorem make_state_seed_independent (ext : externals) (scene : scene_data)
    (params : raytrace_params) :
    (∀ seed : Nat, make_state ext scene { params with seed := seed } =
      make_state ext scene params) ∧
    (∀ idx : Nat,
      idx < ((make_state ext scene params).width * (make_state ext scene params).height).toNat →
      (make_state ext scene params).rngs.getD idx default =
        ext.make_rng 961748941
          (((ext.rand1i (advance_generator ext idx (ext.make_rng 1301081 1)) (-2147483648)).1.tdiv
            2 + 1) % 2 ^ 64).toNat) := by
  refine ⟨fun _ => rfl, ?_⟩
  intro idx hidx
  exact make_rngs_getD ext _ _ idx hidx

/-- C14 amended, at a concrete input: seed 7 against seed 0, and the second of the four
streams of the toy state. -/
theorem make_state_seed_independent_witness :
    make_state (toy_externals true (toy_material .matte) direction_env) toy_scene
        { toy_params .raytrace 1 false with seed := 7 } =
      make_state (toy_externals true (toy_material .matte) direction_env) toy_scene
        (toy_params .raytrace 1 false) ∧
    (make_state (toy_externals true (toy_material .matte) direction_env) toy_scene
        (toy_params .raytrace 1 false)).rngs.getD 1 default =
      (toy_externals true (toy_material .matte) direction_env).make_rng 961748941
        ((((toy_externals true (toy_material .matte) direction_env).rand1i
          (advance_generator (toy_externals true (toy_material .matte) direction_env) 1
            ((toy_externals true (toy_material .matte) direction_env).make_rng 1301081 1))
          (-2147483648)).1.tdiv 2 + 1) % 2 ^ 64).toNat :=
  ⟨(make_state_seed_independent (toy_externals true (toy_material .matte) direction_env)
      toy_scene (toy_params .raytrace 1 false)).1 7,
    (make_state_seed_independent (toy_externals true (toy_material .matte) direction_env)
      toy_scene (toy_params .raytrace 1 false)).2 1 (by
        obtain ⟨hw, hh⟩ := toy_make_state_size
          (toy_externals true (toy_material .matte) direction_env)
          (toy_params .raytrace 1 false) rfl rfl
        rw [hw, hh]; decide)⟩

theorem round_to_int_bounds (x : ℚ) (n : Int) (h0 : 0 ≤ x) (hx : x ≤ n) :
    0 ≤ (float.fin x).round_to_int ∧ (float.fin x).round_to_int ≤ n := by
  simp only [float.round_to_int, h0, if_true]
  constructor
  · exact Int.floor_nonneg.mpr (by linarith)
  · have h1 : ⌊x + 1 / 2⌋ ≤ ⌊(n : ℚ) + 1 / 2⌋ := Int.floor_le_floor (by linarith)
    have h2 : ⌊(n : ℚ) + 1 / 2⌋ = n := by
      rw [Int.floor_eq_iff]; constructor <;> linarith
    omega

/-- C15: for a camera with `aspect > 0` and `params.resolution >= 0`, the state `make_state`
returns has `max(width, height) = params.resolution`; with `aspect >= 1` the width is the
resolution and the height is `round(resolution / aspect)`, otherwise the height is the
resolution and the width is `round(resolution * aspect)`; and `image`, `hits` and `rngs` all
have exactly `width * height` entries. -/
theorem make_state_resolution (ext : externals) (scene : scene_data) (params : raytrace_params)
    (hpos : (float.fin 0).lt (at_index scene.cameras params.camera).aspect = true)
    (hres : 0 ≤ params.resolution) :
    max (make_state ext scene params).width (make_state ext scene params).height
      = params.resolution ∧
    ((at_index scene.cameras params.camera).aspect.ge (.fin 1) = true →
      (make_state ext scene params).width = params.resolution ∧
      (make_state ext scene params).height =
        ((float.ofInt params.resolution).div
          (at_index scene.cameras params.camera).aspect).round_to_int) ∧
    ((at_index scene.cameras params.camera).aspect.ge (.fin 1) = false →
      (make_state ext scene params).height = params.resolution ∧
      (make_state ext scene params).width =
        ((float.ofInt params.resolution).mul
          (at_index scene.cameras params.camera).aspect).round_to_int) ∧
    ((make_state ext scene params).image.length : Int) =
      (make_state ext scene params).width * (make_state ext scene params).height ∧
    ((make_state ext scene params).hits.length : Int) =
      (make_state ext scene params).width * (make_state ext scene params).height ∧
    ((make_state ext scene params).rngs.length : Int) =
      (make_state ext scene params).width * (make_state ext scene params).height := by
  cases ha : (at_index scene.cameras params.camera).aspect with
  | nonfinite => rw [ha] at hpos; simp [float.lt] at hpos
  | fin a =>
    rw [ha] at hpos
    have ha0 : 0 < a := by simpa [float.lt] using hpos
    have hr0 : (0 : ℚ) ≤ params.resolution := by exact_mod_cast hres
    have hsize : 0 ≤ (make_state ext scene params).width ∧
        0 ≤ (make_state ext scene params).height ∧
        max (make_state ext scene params).width (make_state ext scene params).height
          = params.resolution := by
      by_cases h1 : 1 ≤ a
      · have hb := round_to_int_bounds ((params.resolution : ℚ) / a) params.resolution
          (div_nonneg hr0 ha0.le) (div_le_self hr0 h1)
        have hw : (make_state ext scene params).width = params.resolution := by
          simp [make_state, ha, float.ge, float.le, h1]
        have hh : (make_state ext scene params).height
            = (float.fin ((params.resolution : ℚ) / a)).round_to_int := by
          simp [make_state, ha, float.ge, float.le, h1, float.ofInt, float.div, ha0.ne']
        rw [hw, hh]
        exact ⟨hres, hb.1, max_eq_left hb.2⟩
      · have hlt : a < 1 := not_le.mp h1
        have hb := round_to_int_bounds ((params.resolution : ℚ) * a) params.resolution
          (mul_nonneg hr0 ha0.le) (mul_le_of_le_one_right hr0 hlt.le)
        have hh : (make_state ext scene params).height = params.resolution := by
          simp [make_state, ha, float.ge, float.le, h1]
        have hw : (make_state ext scene params).width
            = (float.fin ((params.resolution : ℚ) * a)).round_to_int := by
          simp [make_state, ha, float.ge, float.le, h1, float.ofInt, float.mul]
        rw [hw, hh]
        exact ⟨hb.1, hres, max_eq_right hb.2⟩
    obtain ⟨hw0, hh0, hmax⟩ := hsize
    have hn : (((make_state ext scene params).width *
        (make_state ext scene params).height).toNat : Int) =
        (make_state ext scene params).width * (make_state ext scene params).height :=
      Int.toNat_of_nonneg (mul_nonneg hw0 hh0)
    refine ⟨hmax, ?_, ?_, ?_, ?_, ?_⟩
    · intro hge
      simp only [make_state, ha, hge, if_true, and_self]
    · intro hge
      simp only [make_state, ha, hge, Bool.false_eq_true, if_false, and_self]
    · rw [← hn]; simp [make_state]
    · rw [← hn]; simp [make_state]
    · rw [← hn]; simp [make_state, make_rngs_length]

/-- C15, at a concrete input: the toy camera (aspect 1) at resolution 2. -/
theorem make_state_resolution_witness :
    (float.fin 0).lt (at_index toy_scene.cameras (toy_params .raytrace 1 false).camera).aspect
      = true ∧
    0 ≤ (toy_params .raytrace 1 false).resolution ∧
    max (make_state (toy_externals true (toy_material .matte) direction_env) toy_scene
          (toy_params .raytrace 1 false)).width
        (make_state (toy_externals true (toy_material .matte) direction_env) toy_scene
          (toy_params .raytrace 1 false)).height
      = (toy_params .raytrace 1 false).resolution ∧
    ((make_state (toy_externals true (toy_material .matte) direction_env) toy_scene
        (toy_params .raytrace 1 false)).rngs.length : Int) =
      (make_state (toy_externals true (toy_material .matte) direction_env) toy_scene
          (toy_params .raytrace 1 false)).width *
        (make_state (toy_externals true (toy_material .matte) direction_env) toy_scene
          (toy_params .raytrace 1 false)).height :=
  have hpos : (float.fin 0).lt
      (at_index toy_scene.cameras (toy_params .raytrace 1 false).camera).aspect = true := by
    simp [toy_params, toy_scene, at_index, toy_camera, float.lt]
  ⟨hpos, by decide,
    (make_state_resolution (toy_externals true (toy_material .matte) direction_env) toy_scene
      (toy_params .raytrace 1 false) hpos (by decide)).1,
    (make_state_resolution (toy_externals true (toy_material .matte) direction_env) toy_scene
      (toy_params .raytrace 1 false) hpos (by decide)).2.2.2.2.2⟩

/-! ## Diagnostic shaders and material branches -/

theorem float_mul_one (x : float) : x.mul (.fin 1) = x := by
  cases x <;> simp [float.mul]

theorem vec3f_dot_neg_neg (d : vec3f) : d.neg.dot d.neg = d.dot d := by
  obtain ⟨x, y, z⟩ := d
  cases x <;> cases y <;> cases z <;> simp [vec3f.dot, vec3f.neg, float.neg, float.mul, float.add]

/-- C16: on a hit `shade_eyelight` returns `rgb_to_rgba(color) * dot(n, -ray.d)`, with `color`
the colour of the instance's material and `n` the world-space normal, and hands the random
stream back untouched; when `n = -ray.d` for a unit `ray.d`, the result is exactly
`(color.x, color.y, color.z, 1)`. -/
theorem eyelight_exact (ext : externals) (scene : scene_data) (bvh : bvh_scene) (ray : ray3f)
    (bounce : Int) (rng : rng_state) (params : raytrace_params)
    (hhit : (ext.intersect_bvh bvh scene ray).hit = true) :
    shade_eyelight ext scene bvh ray bounce rng params =
      some ((rgb_to_rgba (at_index scene.materials
          (at_index scene.instances (ext.intersect_bvh bvh scene ray).instance_id).material).color).scale
        ((ext.transform_direction
          (at_index scene.instances (ext.intersect_bvh bvh scene ray).instance_id).frame
          (ext.eval_normal
            (at_index scene.shapes
              (at_index scene.instances (ext.intersect_bvh bvh scene ray).instance_id).shape)
            (ext.intersect_bvh bvh scene ray).element
            (ext.intersect_bvh bvh scene ray).uv)).dot ray.d.neg), rng) ∧
    (ext.transform_direction
        (at_index scene.instances (ext.intersect_bvh bvh scene ray).instance_id).frame
        (ext.eval_normal
          (at_index scene.shapes
            (at_index scene.instances (ext.intersect_bvh bvh scene ray).instance_id).shape)
          (ext.intersect_bvh bvh scene ray).element
          (ext.intersect_bvh bvh scene ray).uv) = ray.d.neg →
      ray.d.dot ray.d = .fin 1 →
      shade_eyelight ext scene bvh ray bounce rng params =
        some (⟨(at_index scene.materials
            (at_index scene.instances (ext.intersect_bvh bvh scene ray).instance_id).material).color.x,
          (at_index scene.materials
            (at_index scene.instances (ext.intersect_bvh bvh scene ray).instance_id).material).color.y,
          (at_index scene.materials
            (at_index scene.instances (ext.intersect_bvh bvh scene ray).instance_id).material).color.z,
          .fin 1⟩, rng)) := by
  have h : shade_eyelight ext scene bvh ray bounce rng params =
      some ((rgb_to_rgba (at_index scene.materials
          (at_index scene.instances (ext.intersect_bvh bvh scene ray).instance_id).material).color).scale
        ((ext.transform_direction
          (at_index scene.instances (ext.intersect_bvh bvh scene ray).instance_id).frame
          (ext.eval_normal
            (at_index scene.shapes
              (at_index scene.instances (ext.intersect_bvh bvh scene ray).instance_id).shape)
            (ext.intersect_bvh bvh scene ray).element
            (ext.intersect_bvh bvh scene ray).uv)).dot ray.d.neg), rng) := by
    simp [shade_eyelight, hhit]
  refine ⟨h, ?_⟩
  intro hn hunit
  rw [h, hn, vec3f_dot_neg_neg, hunit]
  simp [vec4f.scale, rgb_to_rgba, float_mul_one]

/-- C16, at a concrete input: the toy normal `(0, 0, 1)` against the ray along `-z`, white
material. -/
theorem eyelight_exact_witness :
    ((toy_externals true (toy_material .matte) direction_env).intersect_bvh ⟨0⟩ toy_scene
      toy_ray).hit = true ∧
    toy_ray.d.dot toy_ray.d = .fin 1 ∧
    shade_eyelight (toy_externals true (toy_material .matte) direction_env) toy_scene ⟨0⟩
      toy_ray 0 ⟨5, 0⟩ (toy_params .eyelight 1 false) =
      some (⟨.fin 1, .fin 1, .fin 1, .fin 1⟩, ⟨5, 0⟩) :=
  have hunit : toy_ray.d.dot toy_ray.d = .fin 1 := by
    simp [toy_ray, vec3f.dot, float.mul, float.add]
  ⟨rfl, hunit,
    (eyelight_exact (toy_externals true (toy_material .matte) direction_env) toy_scene ⟨0⟩
      toy_ray 0 ⟨5, 0⟩ (toy_params .eyelight 1 false) rfl).2
      (by simp [toy_externals, toy_ray, vec3f.neg, float.neg]) hunit⟩

theorem mirror_reflect_neg (d n : vec3f) :
    mirror_reflect d.neg n = d.sub (n.scale ((float.fin 2).mul (n.dot d))) := by
  obtain ⟨dx, dy, dz⟩ := d
  obtain ⟨nx, ny, nz⟩ := n
  cases dx <;> cases dy <;> cases dz <;> cases nx <;> cases ny <;> cases nz <;>
    simp [mirror_reflect, vec3f.neg, vec3f.add, vec3f.sub, vec3f.scale, vec3f.dot, float.neg,
      float.add, float.sub, float.mul]
  refine ⟨?_, ?_, ?_⟩ <;> ring

theorem zero_roughness_exponent :
    (float.fin 2).div ((float.fin 0).pow 2) = .nonfinite := by
  simp [float.pow, float.mul, float.div]

/-- C17: for a reflective material with roughness `0` (a library whose `reflect` is the
geometric mirror reflection and whose cosine-power lobe collapses onto its axis at a non-finite
exponent), the sampled microfacet normal is the oriented normal `n` whatever random pair is
drawn, and the single recursive ray of the material switch starts at the hit point with
direction `ray.d - 2 * dot(n, ray.d) * n`, for every random stream. In `shade_raytrace`, for
such a hit below the bounce limit with the wet overlay off and the pass-through not taken, this
is the only recursive call, at depth `bounce + 1`. -/
theorem mirror_exact (ext : externals)
    (hreflect : ∀ w n, ext.reflect w n = mirror_reflect w n) (hlobe : mirror_lobe ext) :
    (∀ (roughness : float) (n : vec3f) (ruv : vec2f), roughness = .fin 0 →
      ext.sample_hemisphere_cospower ((float.fin 2).div (roughness.pow 2)) n ruv = n) ∧
    (∀ (self : shade_rec) (scene : scene_data) (ray : ray3f) (bounce : Int)
        (material : material_point) (position n : vec3f) (radiance : vec4f) (rng : rng_state),
      material.type = .reflective → material.roughness = .fin 0 →
      shade_raytrace_material ext self scene ray bounce material position n radiance rng =
        match self ⟨position, ray.d.sub (n.scale ((float.fin 2).mul (n.dot ray.d)))⟩ (bounce + 1)
            (ext.rand2f rng).2 with
        | none => none
        | some (l, rng) => some (radiance.add ((rgb_to_rgba material.color).mul l), rng)) ∧
    (∀ (fuel : Nat) (scene : scene_data) (bvh : bvh_scene) (ray : ray3f) (bounce : Int)
        (rng : rng_state) (params : raytrace_params),
      (ext.intersect_bvh bvh scene ray).hit = true →
      (ext.eval_material scene
        (at_index scene.instances (ext.intersect_bvh bvh scene ray).instance_id)
        (ext.intersect_bvh bvh scene ray).element
        (ext.intersect_bvh bvh scene ray).uv).type = .reflective →
      (ext.eval_material scene
        (at_index scene.instances (ext.intersect_bvh bvh scene ray).instance_id)
        (ext.intersect_bvh bvh scene ray).element
        (ext.intersect_bvh bvh scene ray).uv).roughness = .fin 0 →
      (ext.rand1f rng).1.lt ((float.fin 1).sub
        (ext.eval_material scene
          (at_index scene.instances (ext.intersect_bvh bvh scene ray).instance_id)
          (ext.intersect_bvh bvh scene ray).element
          (ext.intersect_bvh bvh scene ray).uv).opacity) = false →
      bounce < params.bounces → params.wet = false →
      shade_raytrace ext (fuel + 1) scene bvh ray bounce rng params =
        match shade_raytrace ext fuel scene bvh
            ⟨ext.transform_point
                (at_index scene.instances (ext.intersect_bvh bvh scene ray).instance_id).frame
                (ext.eval_position
                  (at_index scene.shapes
                    (at_index scene.instances (ext.intersect_bvh bvh scene ray).instance_id).shape)
                  (ext.intersect_bvh bvh scene ray).element (ext.intersect_bvh bvh scene ray).uv),
              ray.d.sub
                ((hard_facing_normal ext
                  (at_index scene.shapes
                    (at_index scene.instances (ext.intersect_bvh bvh scene ray).instance_id).shape)
                  ray
                  (ext.transform_direction
                    (at_index scene.instances (ext.intersect_bvh bvh scene ray).instance_id).frame
                    (ext.eval_normal
                      (at_index scene.shapes
                        (at_index scene.instances
                          (ext.intersect_bvh bvh scene ray).instance_id).shape)
                      (ext.intersect_bvh bvh scene ray).element
                      (ext.intersect_bvh bvh scene ray).uv))).scale
                  ((float.fin 2).mul
                    ((hard_facing_normal ext
                      (at_index scene.shapes
                        (at_index scene.instances
                          (ext.intersect_bvh bvh scene ray).instance_id).shape)
                      ray
                      (ext.transform_direction
                        (at_index scene.instances
                          (ext.intersect_bvh bvh scene ray).instance_id).frame
                        (ext.eval_normal
                          (at_index scene.shapes
                            (at_index scene.instances
                              (ext.intersect_bvh bvh scene ray).instance_id).shape)
                          (ext.intersect_bvh bvh scene ray).element
                          (ext.intersect_bvh bvh scene ray).uv))).dot ray.d)))⟩
            (bounce + 1) (ext.rand2f (ext.rand1f rng).2).2 params with
        | none => none
        | some (l, rng) =>
          some ((rgb_to_rgba (ext.eval_material scene
              (at_index scene.instances (ext.intersect_bvh bvh scene ray).instance_id)
              (ext.intersect_bvh bvh scene ray).element
              (ext.intersect_bvh bvh scene ray).uv).emission).add
            ((rgb_to_rgba (ext.eval_material scene
              (at_index scene.instances (ext.intersect_bvh bvh scene ray).instance_id)
              (ext.intersect_bvh bvh scene ray).element
              (ext.intersect_bvh bvh scene ray).uv).color).mul l), rng)) := by
  have hlobe0 : ∀ (roughness : float) (n : vec3f) (ruv : vec2f), roughness = .fin 0 →
      ext.sample_hemisphere_cospower ((float.fin 2).div (roughness.pow 2)) n ruv = n := by
    intro roughness n ruv hr
    rw [hr, zero_roughness_exponent]
    exact hlobe n ruv
  have hswitch : ∀ (self : shade_rec) (scene : scene_data) (ray : ray3f) (bounce : Int)
        (material : material_point) (position n : vec3f) (radiance : vec4f) (rng : rng_state),
      material.type = .reflective → material.roughness = .fin 0 →
      shade_raytrace_material ext self scene ray bounce material position n radiance rng =
        match self ⟨position, ray.d.sub (n.scale ((float.fin 2).mul (n.dot ray.d)))⟩ (bounce + 1)
            (ext.rand2f rng).2 with
        | none => none
        | some (l, rng) => some (radiance.add ((rgb_to_rgba material.color).mul l), rng) := by
    intro self scene ray bounce material position n radiance rng hty hr
    have heq : (float.fin 0).eq (.fin 0) = true := by simp [float.eq]
    simp only [shade_raytrace_material, hty, hr, heq, if_true, zero_roughness_exponent,
      hlobe n, hreflect, mirror_reflect_neg]
    try rfl
  refine ⟨hlobe0, hswitch, ?_⟩
  intro fuel scene bvh ray bounce rng params hhit hty hr hpass hb hwet
  have hnb : ¬ bounce ≥ params.bounces := not_le.mpr hb
  simp only [shade_raytrace, hhit, if_true, hpass, Bool.false_eq_true, if_false, hnb, hwet]
  rw [hswitch _ _ _ _ _ _ _ _ _ hty hr]

/-- C17, at a concrete input: a smooth reflective material hit by the ray along `-z` with
normal `(0, 0, 1)`; the recursive ray goes back along `+z`. -/
theorem mirror_exact_witness :
    (∀ w n, (model_externals (toy_material .reflective)).reflect w n = mirror_reflect w n) ∧
    mirror_lobe (model_externals (toy_material .reflective)) ∧
    (model_externals (toy_material .reflective)).sample_hemisphere_cospower
      ((float.fin 2).div ((float.fin 0).pow 2)) ⟨.fin 0, .fin 0, .fin 1⟩ ⟨.fin (1 / 4), .fin (3 / 4)⟩
      = ⟨.fin 0, .fin 0, .fin 1⟩ ∧
    shade_raytrace_material (model_externals (toy_material .reflective)) echo_direction toy_scene
      toy_ray 0 (toy_material .reflective) ⟨.fin 0, .fin 0, .fin 0⟩ ⟨.fin 0, .fin 0, .fin 1⟩
      vec4f.zero ⟨0, 0⟩ =
      match echo_direction
          ⟨⟨.fin 0, .fin 0, .fin 0⟩,
            toy_ray.d.sub ((⟨.fin 0, .fin 0, .fin 1⟩ : vec3f).scale
              ((float.fin 2).mul ((⟨.fin 0, .fin 0, .fin 1⟩ : vec3f).dot toy_ray.d)))⟩
          (0 + 1) ((model_externals (toy_material .reflective)).rand2f ⟨0, 0⟩).2 with
      | none => none
      | some (l, rng) =>
        some (vec4f.zero.add ((rgb_to_rgba (toy_material .reflective).color).mul l), rng) :=
  ⟨fun _ _ => rfl, fun _ _ => rfl,
    (mirror_exact (model_externals (toy_material .reflective)) (fun _ _ => rfl)
      (fun _ _ => rfl)).1 (.fin 0) _ _ rfl,
    (mirror_exact (model_externals (toy_material .reflective)) (fun _ _ => rfl)
      (fun _ _ => rfl)).2.1 echo_direction toy_scene toy_ray 0 (toy_material .reflective) _ _ _ _
      rfl rfl⟩

theorem schlick_normal_incidence (normal outgoing : vec3f)
    (hdot : normal.dot outgoing = .fin 1) :
    (fresnel_schlick_model ⟨.fin (4 / 100), .fin 0, .fin 0⟩ normal outgoing).x
      = .fin (4 / 100) := by
  have hne : (⟨.fin (4 / 100), .fin 0, .fin 0⟩ : vec3f) ≠ vec3f.zero := by
    simp [vec3f.zero]
  simp [fresnel_schlick_model, hne, hdot, float.abs, float.sub, float.lt, float.pow, float.mul,
    float.add]
  norm_num [float.mul, float.add]

/-- C18: for a transparent material hit with `dot(normal, -ray.d) = 1` (a library whose
`fresnel_schlick` is the Schlick approximation), the Schlick term with base reflectance 0.04
is exactly 0.04; the material switch draws one `u` and takes the reflection branch (ray
`reflect(-ray.d, normal)`, unweighted) exactly when `u < 0.04`, and the pass-through branch
(ray along the unchanged `ray.d`, weighted by the colour) otherwise. -/
theorem transparent_fresnel (ext : externals)
    (hschlick : ∀ s n o, ext.fresnel_schlick s n o = fresnel_schlick_model s n o)
    (self : shade_rec) (scene : scene_data) (ray : ray3f) (bounce : Int)
    (material : material_point) (position normal : vec3f) (radiance : vec4f) (rng : rng_state)
    (hty : material.type = .transparent) (hdot : normal.dot ray.d.neg = .fin 1) :
    (ext.fresnel_schlick ⟨.fin (4 / 100), .fin 0, .fin 0⟩ normal ray.d.neg).x = .fin (4 / 100) ∧
    ((ext.rand1f rng).1.lt (.fin (4 / 100)) = true →
      shade_raytrace_material ext self scene ray bounce material position normal radiance rng =
        match self ⟨position, ext.reflect ray.d.neg normal⟩ (bounce + 1) (ext.rand1f rng).2 with
        | none => none
        | some (l, rng) => some (radiance.add l, rng)) ∧
    ((ext.rand1f rng).1.lt (.fin (4 / 100)) = false →
      shade_raytrace_material ext self scene ray bounce material position normal radiance rng =
        match self ⟨position, ray.d⟩ (bounce + 1) (ext.rand1f rng).2 with
        | none => none
        | some (l, rng) => some (radiance.add ((rgb_to_rgba material.color).mul l), rng)) := by
  have hx : (ext.fresnel_schlick ⟨.fin (4 / 100), .fin 0, .fin 0⟩ normal ray.d.neg).x
      = .fin (4 / 100) := by
    rw [hschlick]; exact schlick_normal_incidence normal ray.d.neg hdot
  refine ⟨hx, ?_, ?_⟩
  · intro hu
    simp only [shade_raytrace_material, hty, hx, hu, if_true]
    try rfl
  · intro hu
    simp only [shade_raytrace_material, hty, hx, hu, Bool.false_eq_true, if_false]
    try rfl

/-- C18, at a concrete input: the toy draw `1/4` is not below `0.04`, so the ray passes
through along `-z`. -/
theorem transparent_fresnel_witness :
    (∀ s n o, (model_externals (toy_material .transparent)).fresnel_schlick s n o
      = fresnel_schlick_model s n o) ∧
    (⟨.fin 0, .fin 0, .fin 1⟩ : vec3f).dot toy_ray.d.neg = .fin 1 ∧
    ((model_externals (toy_material .transparent)).rand1f ⟨0, 0⟩).1.lt (.fin (4 / 100)) = false ∧
    ((model_externals (toy_material .transparent)).fresnel_schlick
      ⟨.fin (4 / 100), .fin 0, .fin 0⟩ ⟨.fin 0, .fin 0, .fin 1⟩ toy_ray.d.neg).x
      = .fin (4 / 100) ∧
    shade_raytrace_material (model_externals (toy_material .transparent)) echo_direction
      toy_scene toy_ray 0 (toy_material .transparent) ⟨.fin 0, .fin 0, .fin 0⟩
      ⟨.fin 0, .fin 0, .fin 1⟩ vec4f.zero ⟨0, 0⟩ =
      match echo_direction ⟨⟨.fin 0, .fin 0, .fin 0⟩, toy_ray.d⟩ (0 + 1)
          ((model_externals (toy_material .transparent)).rand1f ⟨0, 0⟩).2 with
      | none => none
      | some (l, rng) =>
        some (vec4f.zero.add ((rgb_to_rgba (toy_material .transparent).color).mul l), rng) :=
  have hdot : (⟨.fin 0, .fin 0, .fin 1⟩ : vec3f).dot toy_ray.d.neg = .fin 1 := by
    simp [toy_ray, vec3f.dot, vec3f.neg, float.neg, float.mul, float.add]
  have hu : ((model_externals (toy_material .transparent)).rand1f ⟨0, 0⟩).1.lt
      (.fin (4 / 100)) = false := by
    simp [model_externals, toy_externals, float.lt]; norm_num
  ⟨fun _ _ _ => rfl, hdot, hu,
    (transparent_fresnel (model_externals (toy_material .transparent)) (fun _ _ _ => rfl)
      echo_direction toy_scene toy_ray 0 (toy_material .transparent) ⟨.fin 0, .fin 0, .fin 0⟩
      ⟨.fin 0, .fin 0, .fin 1⟩ vec4f.zero ⟨0, 0⟩ rfl hdot).1,
    (transparent_fresnel (model_externals (toy_material .transparent)) (fun _ _ _ => rfl)
      echo_direction toy_scene toy_ray 0 (toy_material .transparent) ⟨.fin 0, .fin 0, .fin 0⟩
      ⟨.fin 0, .fin 0, .fin 1⟩ vec4f.zero ⟨0, 0⟩ rfl hdot).2.2 hu⟩

/-- C19, on the code: a hit on an instance turned by a half turn about `z`, local normal
`(0, 0, 1)`. The world-space normal is `(0, 0, 1)`, so the pseudo-colour of the claim is
`(1/2, 1/2, 1, 1)`; `shade_normal` remaps the local normal first and transforms the remapped
vector `(1/2, 1/2, 1)` by the frame, and returns `(-1/2, -1/2, 1, 1)`, with two channels
outside `[0, 1]`. -/
theorem shade_normal_remaps_before_transform :
    (frame_externals.intersect_bvh ⟨0⟩ turned_scene toy_ray).hit = true ∧
    frame_externals.transform_direction half_turn_frame
      (frame_externals.eval_normal (at_index turned_scene.shapes 0) 0 ⟨.fin 0, .fin 0⟩)
      = ⟨.fin 0, .fin 0, .fin 1⟩ ∧
    shade_normal frame_externals turned_scene ⟨0⟩ toy_ray 0 ⟨0, 0⟩ (toy_params .normal 1 false)
      = some (⟨.fin (-1 / 2), .fin (-1 / 2), .fin 1, .fin 1⟩, ⟨0, 0⟩) ∧
    (⟨.fin (-1 / 2), .fin (-1 / 2), .fin 1, .fin 1⟩ : vec4f) ≠
      ⟨.fin (1 / 2), .fin (1 / 2), .fin 1, .fin 1⟩ := by
  refine ⟨rfl, ?_, ?_, ?_⟩
  · simp [frame_externals, toy_externals, half_turn_frame, vec3f.scale, vec3f.add, float.mul,
      float.add]
  · simp [shade_normal, frame_externals, toy_externals, turned_scene, toy_scene, at_index,
      half_turn_frame, vec3f.scale, vec3f.add, vec3f.adds, float.mul, float.add, rgb_to_rgba]
    norm_num
  · simp
    norm_num

/-- C20, on the code: a hit with texture coordinate `(-1/4, 5/4)`. `shade_texcoord` returns
`(-1/4, 1/4, 0, 1)`: `fmod` keeps the sign of a negative coordinate, so the red channel is
not in `[0, 1)`. -/
theorem shade_texcoord_negative :
    (texcoord_externals.intersect_bvh ⟨0⟩ toy_scene toy_ray).hit = true ∧
    texcoord_externals.eval_texcoord toy_scene (at_index toy_scene.instances 0) 0
      ⟨.fin 0, .fin 0⟩ = ⟨.fin (-1 / 4), .fin (5 / 4)⟩ ∧
    shade_texcoord texcoord_externals toy_scene ⟨0⟩ toy_ray 0 ⟨0, 0⟩
      (toy_params .texcoord 1 false)
      = some (⟨.fin (-1 / 4), .fin (1 / 4), .fin 0, .fin 1⟩, ⟨0, 0⟩) ∧
    (float.fin 0).le (.fin (-1 / 4)) = false := by
  have h1 : ⌈(-1 / 4 : ℚ)⌉ = 0 := by
    rw [Int.ceil_eq_iff]; constructor <;> norm_num
  have h2 : ⌊(5 / 4 : ℚ)⌋ = 1 := by
    rw [Int.floor_eq_iff]; constructor <;> norm_num
  have f1 : (float.fin (-1 / 4)).fmod (.fin 1) = .fin (-1 / 4) := by
    simp only [float.fmod]
    norm_num [h1]
  have f2 : (float.fin (5 / 4)).fmod (.fin 1) = .fin (1 / 4) := by
    simp only [float.fmod]
    norm_num [h2]
  refine ⟨rfl, rfl, ?_, ?_⟩
  · simp only [shade_texcoord, texcoord_externals, toy_externals, if_true, f1, f2, rgb_to_rgba]
  · simp [float.le]
    norm_num

/-! ## Camera rays -/

theorem vec3f_sub_neg (a b : vec3f) : a.sub b = (b.sub a).neg := by
  obtain ⟨ax, ay, az⟩ := a
  obtain ⟨bx, by_, bz⟩ := b
  cases ax <;> cases ay <;> cases az <;> cases bx <;> cases by_ <;> cases bz <;>
    simp [vec3f.sub, vec3f.neg, float.sub, float.neg]

/-- C21, as stated, fails: for the toy camera (eye at the origin, lens 1, unit film) and the
centre `uv = (1/2, 1/2)` the sensor point is `q = (0, 0, 1)`; `eval_camera` returns the
direction `e - q = (0, 0, -1)`, which points from `q` to the eye, not `q - e = (0, 0, 1)`.
Both vectors have length one, so normalising leaves them as they are. -/
theorem eval_camera_direction_counterexample :
    toy_camera.lens ≠ .fin 0 ∧
    (toy_externals true (toy_material .matte) direction_env).transform_point toy_camera.frame
      ⟨.fin 0, .fin 0, .fin 0⟩ = ⟨.fin 0, .fin 0, .fin 0⟩ ∧
    (toy_externals true (toy_material .matte) direction_env).transform_point toy_camera.frame
      ⟨(camera_film toy_camera).x.mul ((float.fin (1 / 2)).sub (.fin (1 / 2))),
        (camera_film toy_camera).y.mul ((float.fin (1 / 2)).sub (.fin (1 / 2))), toy_camera.lens⟩
      = ⟨.fin 0, .fin 0, .fin 1⟩ ∧
    eval_camera (toy_externals true (toy_material .matte) direction_env) toy_camera
      ⟨.fin (1 / 2), .fin (1 / 2)⟩
      = ⟨⟨.fin 0, .fin 0, .fin 0⟩, ⟨.fin 0, .fin 0, .fin (-1)⟩⟩ ∧
    (eval_camera (toy_externals true (toy_material .matte) direction_env) toy_camera
      ⟨.fin (1 / 2), .fin (1 / 2)⟩).d ≠
      (toy_externals true (toy_material .matte) direction_env).normalize
        ((⟨.fin 0, .fin 0, .fin 1⟩ : vec3f).sub ⟨.fin 0, .fin 0, .fin 0⟩) := by
  have hq : (toy_externals true (toy_material .matte) direction_env).transform_point
      toy_camera.frame
      ⟨(camera_film toy_camera).x.mul ((float.fin (1 / 2)).sub (.fin (1 / 2))),
        (camera_film toy_camera).y.mul ((float.fin (1 / 2)).sub (.fin (1 / 2))), toy_camera.lens⟩
      = ⟨.fin 0, .fin 0, .fin 1⟩ := by
    simp [toy_externals, toy_camera, camera_film, float.ge, float.le, float.div, float.mul,
      float.sub, vec3f.add, float.add]
  have he : eval_camera (toy_externals true (toy_material .matte) direction_env) toy_camera
      ⟨.fin (1 / 2), .fin (1 / 2)⟩
      = ⟨⟨.fin 0, .fin 0, .fin 0⟩, ⟨.fin 0, .fin 0, .fin (-1)⟩⟩ := by
    simp [eval_camera, toy_externals, toy_camera, float.ge, float.le, float.div, float.mul,
      float.sub, vec3f.add, vec3f.sub, float.add]
  refine ⟨by simp [toy_camera], ?_, hq, he, ?_⟩
  · simp [toy_externals, toy_camera, vec3f.add, float.add]
  · rw [he]
    simp [toy_externals, vec3f.sub, float.sub]
    try norm_num

/-- C21, amended: `eval_camera` returns a ray whose origin is the eye
`e = transform_point(frame, (0, 0, 0))` and whose direction is `normalize(e - q)`, with the
sensor point `q = transform_point(frame, (film.x*(0.5 - u), film.y*(v - 0.5), lens))`: the
direction points from the sensor point to the eye, and for a `normalize` that commutes with
negation it is the opposite of `normalize(q - e)`. The result is a function of the camera and
`uv` alone. -/
theorem eval_camera_ray (ext : externals) (camera : camera_data) (uv : vec2f) :
    (eval_camera ext camera uv).o = ext.transform_point camera.frame ⟨.fin 0, .fin 0, .fin 0⟩ ∧
    (eval_camera ext camera uv).d =
      ext.normalize ((ext.transform_point camera.frame ⟨.fin 0, .fin 0, .fin 0⟩).sub
        (ext.transform_point camera.frame
          ⟨(camera_film camera).x.mul ((float.fin (1 / 2)).sub uv.x),
            (camera_film camera).y.mul (uv.y.sub (.fin (1 / 2))), camera.lens⟩)) ∧
    ((∀ v, ext.normalize v.neg = (ext.normalize v).neg) →
      (eval_camera ext camera uv).d =
        (ext.normalize ((ext.transform_point camera.frame
          ⟨(camera_film camera).x.mul ((float.fin (1 / 2)).sub uv.x),
            (camera_film camera).y.mul (uv.y.sub (.fin (1 / 2))), camera.lens⟩).sub
          (ext.transform_point camera.frame ⟨.fin 0, .fin 0, .fin 0⟩))).neg) := by
  refine ⟨rfl, rfl, ?_⟩
  intro hodd
  rw [← hodd, ← vec3f_sub_neg]
  rfl

/-- C21 amended, at a concrete input: the toy camera at `uv = (1/4, 3/4)`. -/
theorem eval_camera_ray_witness :
    (∀ v, (toy_externals true (toy_material .matte) direction_env).normalize v.neg =
      ((toy_externals true (toy_material .matte) direction_env).normalize v).neg) ∧
    (eval_camera (toy_externals true (toy_material .matte) direction_env) toy_camera
      ⟨.fin (1 / 4), .fin (3 / 4)⟩).d =
      ((toy_externals true (toy_material .matte) direction_env).normalize
        (((toy_externals true (toy_material .matte) direction_env).transform_point
          toy_camera.frame
          ⟨(camera_film toy_camera).x.mul ((float.fin (1 / 2)).sub (.fin (1 / 4))),
            (camera_film toy_camera).y.mul ((float.fin (3 / 4)).sub (.fin (1 / 2))),
            toy_camera.lens⟩).sub
          ((toy_externals true (toy_material .matte) direction_env).transform_point
            toy_camera.frame ⟨.fin 0, .fin 0, .fin 0⟩))).neg :=
  ⟨fun _ => rfl,
    (eval_camera_ray (toy_externals true (toy_material .matte) direction_env) toy_camera
      ⟨.fin (1 / 4), .fin (3 / 4)⟩).2.2 (fun _ => rfl)⟩

/-- C22, as stated, fails: `flat_camera` has aspect `1 > 0` and film size `0`; its sensor
rectangle is `(0, 0)`, and `film.x / film.y = 0 / 0` is not a number, so it is not the
aspect. And a camera with aspect `2 > 0` and film size `-1` has the sensor rectangle
`(-1, -1/2)`, whose larger side `-1/2` is not the film size. -/
theorem camera_film_counterexample :
    (float.fin 0).lt flat_camera.aspect = true ∧
    camera_film flat_camera = ⟨.fin 0, .fin 0⟩ ∧
    (camera_film flat_camera).x.div (camera_film flat_camera).y = .nonfinite ∧
    (camera_film flat_camera).x.div (camera_film flat_camera).y ≠ flat_camera.aspect ∧
    (float.fin 0).lt ({ toy_camera with film := .fin (-1), aspect := .fin 2 } :
      camera_data).aspect = true ∧
    camera_film { toy_camera with film := .fin (-1), aspect := .fin 2 }
      = ⟨.fin (-1), .fin (-1 / 2)⟩ ∧
    (float.fin (-1)).max (.fin (-1 / 2)) = .fin (-1 / 2) ∧
    (camera_film { toy_camera with film := .fin (-1), aspect := .fin 2 }).x.max
      (camera_film { toy_camera with film := .fin (-1), aspect := .fin 2 }).y ≠
      ({ toy_camera with film := .fin (-1), aspect := .fin 2 } : camera_data).film := by
  have h : camera_film flat_camera = ⟨.fin 0, .fin 0⟩ := by
    simp [camera_film, flat_camera, toy_camera, float.ge, float.le, float.div]
  have h2 : camera_film { toy_camera with film := .fin (-1), aspect := .fin 2 }
      = ⟨.fin (-1), .fin (-1 / 2)⟩ := by
    simp [camera_film, float.ge, float.le, float.div]
    try norm_num
  have h3 : (float.fin (-1)).max (.fin (-1 / 2)) = .fin (-1 / 2) := by
    simp [float.max, float.lt]
    try norm_num
  refine ⟨by simp [flat_camera, toy_camera, float.lt], h, ?_, ?_, by simp [float.lt], h2, h3,
    ?_⟩
  · rw [h]; simp [float.div]
  · rw [h]; simp [float.div, flat_camera, toy_camera]
  · rw [h2, h3]
    simp
    try norm_num

/-- C22, amended: for every camera with `aspect > 0` and film size `film > 0`, the sensor
rectangle `(film.x, film.y)` that `eval_camera` uses has `film.x / film.y = camera.aspect` and
`max(film.x, film.y) = camera.film`: with `aspect >= 1` it is `(film, film / aspect)`,
otherwise `(film * aspect, film)`. -/
theorem camera_film_fit (camera : camera_data)
    (haspect : (float.fin 0).lt camera.aspect = true)
    (hfilm : (float.fin 0).lt camera.film = true) :
    (camera_film camera).x.div (camera_film camera).y = camera.aspect ∧
    (camera_film camera).x.max (camera_film camera).y = camera.film ∧
    (camera.aspect.ge (.fin 1) = true →
      camera_film camera = ⟨camera.film, camera.film.div camera.aspect⟩) ∧
    (camera.aspect.ge (.fin 1) = false →
      camera_film camera = ⟨camera.film.mul camera.aspect, camera.film⟩) ∧
    (∀ (ext : externals) (uv : vec2f),
      eval_camera ext camera uv =
        ⟨ext.transform_point camera.frame ⟨.fin 0, .fin 0, .fin 0⟩,
          ext.normalize ((ext.transform_point camera.frame ⟨.fin 0, .fin 0, .fin 0⟩).sub
            (ext.transform_point camera.frame
              ⟨(camera_film camera).x.mul ((float.fin (1 / 2)).sub uv.x),
                (camera_film camera).y.mul (uv.y.sub (.fin (1 / 2))), camera.lens⟩))⟩) := by
  cases ha : camera.aspect with
  | nonfinite => rw [ha] at haspect; simp [float.lt] at haspect
  | fin a =>
    cases hf : camera.film with
    | nonfinite => rw [hf] at hfilm; simp [float.lt] at hfilm
    | fin f =>
      rw [ha] at haspect
      rw [hf] at hfilm
      have ha0 : 0 < a := by simpa [float.lt] using haspect
      have hf0 : 0 < f := by simpa [float.lt] using hfilm
      refine ⟨?_, ?_, ?_, ?_, fun _ _ => rfl⟩
      · by_cases h1 : 1 ≤ a
        · have hne : f / a ≠ 0 := div_ne_zero hf0.ne' ha0.ne'
          simp [camera_film, ha, hf, float.ge, float.le, h1, float.div, ha0.ne', hne]
          try field_simp
        · simp [camera_film, ha, hf, float.ge, float.le, h1, float.div, float.mul, hf0.ne']
          try field_simp
      · by_cases h1 : 1 ≤ a
        · have hle : ¬ f < f / a := not_lt.mpr (div_le_self hf0.le h1)
          simp [camera_film, ha, hf, float.ge, float.le, h1, float.div, ha0.ne', float.max,
            float.lt, hle]
        · have hlt : f * a < f := by nlinarith [not_le.mp h1]
          simp [camera_film, ha, hf, float.ge, float.le, h1, float.mul, float.max, float.lt, hlt]
      · intro hge
        simp [camera_film, ha, hf] at hge ⊢
        simp [hge]
      · intro hge
        simp [camera_film, ha, hf] at hge ⊢
        simp [hge]

/-- C22 amended, at a concrete input: the toy camera, aspect 1 and film 1. -/
theorem camera_film_fit_witness :
    (float.fin 0).lt toy_camera.aspect = true ∧ (float.fin 0).lt toy_camera.film = true ∧
    (camera_film toy_camera).x.div (camera_film toy_camera).y = toy_camera.aspect ∧
    (camera_film toy_camera).x.max (camera_film toy_camera).y = toy_camera.film :=
  have h1 : (float.fin 0).lt toy_camera.aspect = true := by simp [toy_camera, float.lt]
  have h2 : (float.fin 0).lt toy_camera.film = true := by simp [toy_camera, float.lt]
  ⟨h1, h2, (camera_film_fit toy_camera h1 h2).1, (camera_film_fit toy_camera h1 h2).2.1⟩

/-! ## Matte transport and the wet overlay -/

/-- C23: a matte hit below the bounce limit, wet overlay off, pass-through not taken. Whatever
the two recursive calls along `w1` (uniform hemisphere sample about the oriented normal `n`)
and `w2` (cosine-weighted sample) return at depth `bounce + 1`, `shade_raytrace` returns
`emission + (2*pi*color/pi) * L1 * dot(n, w1) + (color/pi) * L2 * dot(n, w2)`: both indirect
terms are summed, the second call starts from the stream the first one left, and the stream
handed back is the one the second call left, so each is evaluated once. -/
theorem matte_indirect_sum (ext : externals) (fuel : Nat) (scene : scene_data) (bvh : bvh_scene)
    (ray : ray3f) (bounce : Int) (rng : rng_state) (params : raytrace_params)
    (inst : instance_data) (material : material_point) (position n w1 w2 : vec3f)
    (l1 l2 : vec4f) (rng1 rng2 : rng_state)
    (hhit : (ext.intersect_bvh bvh scene ray).hit = true)
    (hinst : inst = at_index scene.instances (ext.intersect_bvh bvh scene ray).instance_id)
    (hmaterial : material = ext.eval_material scene inst
      (ext.intersect_bvh bvh scene ray).element (ext.intersect_bvh bvh scene ray).uv)
    (hposition : position = ext.transform_point inst.frame
      (ext.eval_position (at_index scene.shapes inst.shape)
        (ext.intersect_bvh bvh scene ray).element (ext.intersect_bvh bvh scene ray).uv))
    (hn : n = hard_facing_normal ext (at_index scene.shapes inst.shape) ray
      (ext.transform_direction inst.frame
        (ext.eval_normal (at_index scene.shapes inst.shape)
          (ext.intersect_bvh bvh scene ray).element (ext.intersect_bvh bvh scene ray).uv)))
    (hmatte : material.type = .matte)
    (hpass : (ext.rand1f rng).1.lt ((float.fin 1).sub material.opacity) = false)
    (hdepth : bounce < params.bounces)
    (hwet : params.wet = false)
    (hw1 : w1 = ext.sample_hemisphere n (ext.rand2f (ext.rand1f rng).2).1)
    (hl1 : shade_raytrace ext fuel scene bvh ⟨position, w1⟩ (bounce + 1)
      (ext.rand2f (ext.rand1f rng).2).2 params = some (l1, rng1))
    (hw2 : w2 = ext.sample_hemisphere_cos n (ext.rand2f rng1).1)
    (hl2 : shade_raytrace ext fuel scene bvh ⟨position, w2⟩ (bounce + 1)
      (ext.rand2f rng1).2 params = some (l2, rng2)) :
    shade_raytrace ext (fuel + 1) scene bvh ray bounce rng params =
      some (((rgb_to_rgba material.emission).add
          (((((rgb_to_rgba material.color).lscale ((float.fin 2).mul ext.pi)).divs ext.pi).mul
            l1).scale (n.dot w1))).add
          ((((rgb_to_rgba material.color).divs ext.pi).mul l2).scale (n.dot w2)), rng2) ∧
    (∀ (self : shade_rec) (radiance : vec4f) (g : rng_state),
      shade_raytrace_material ext self scene ray bounce material position n radiance g =
        match self ⟨position, ext.sample_hemisphere n (ext.rand2f g).1⟩ (bounce + 1)
          (ext.rand2f g).2 with
        | none => none
        | some (x1, g1) =>
          match self ⟨position, ext.sample_hemisphere_cos n (ext.rand2f g1).1⟩ (bounce + 1)
            (ext.rand2f g1).2 with
          | none => none
          | some (x2, g2) =>
            some ((radiance.add
              (((((rgb_to_rgba material.color).lscale ((float.fin 2).mul ext.pi)).divs
                ext.pi).mul x1).scale (n.dot (ext.sample_hemisphere n (ext.rand2f g).1)))).add
              ((((rgb_to_rgba material.color).divs ext.pi).mul x2).scale
                (n.dot (ext.sample_hemisphere_cos n (ext.rand2f g1).1))), g2)) := by
  subst hinst hmaterial hposition hn hw1 hw2
  have hb : ¬ params.bounces ≤ bounce := not_le.mpr hdepth
  refine ⟨?_, ?_⟩
  · simp only [shade_raytrace, hhit, if_true, hpass, Bool.false_eq_true, if_false, ge_iff_le, hb,
      hwet, shade_raytrace_material, hmatte, hl1, hl2]
  · intro self radiance g
    simp only [shade_raytrace_material, hmatte]
    try rfl

/-- C23, at a concrete input: the ray `toy_ray` at depth 0 with bounce limit 1 in a scene where
every ray hits an opaque matte material of emission `(3, 2, 1)` and white colour. Both
recursive calls return `(3, 2, 1, 1)`, and the stream advances by the seven draws of the
three calls. With the stand-in `counting_echo` for the recursion, which counts its calls in
the `inc` field of the stream, the switch makes two calls and four draws. -/
theorem matte_indirect_sum_witness :
    ((toy_externals true (emissive_material .matte) direction_env).intersect_bvh ⟨0⟩ toy_scene
      toy_ray).hit = true ∧
    (emissive_material .matte).type = .matte ∧
    (0 : Int) < (toy_params .raytrace 1 false).bounces ∧
    (toy_params .raytrace 1 false).wet = false ∧
    shade_raytrace (toy_externals true (emissive_material .matte) direction_env) (1 + 1)
      toy_scene ⟨0⟩ toy_ray 0 ⟨0, 0⟩ (toy_params .raytrace 1 false) =
      some (((rgb_to_rgba (emissive_material .matte).emission).add
          (((((rgb_to_rgba (emissive_material .matte).color).lscale
            ((float.fin 2).mul (toy_externals true (emissive_material .matte)
              direction_env).pi)).divs
            (toy_externals true (emissive_material .matte) direction_env).pi).mul
            ⟨.fin 3, .fin 2, .fin 1, .fin 1⟩).scale
            ((⟨.fin 0, .fin 0, .fin 1⟩ : vec3f).dot ⟨.fin 0, .fin 0, .fin 1⟩))).add
          ((((rgb_to_rgba (emissive_material .matte).color).divs
            (toy_externals true (emissive_material .matte) direction_env).pi).mul
            ⟨.fin 3, .fin 2, .fin 1, .fin 1⟩).scale
            ((⟨.fin 0, .fin 0, .fin 1⟩ : vec3f).dot ⟨.fin 0, .fin 0, .fin 1⟩)), ⟨7, 0⟩) ∧
    (shade_raytrace_material (toy_externals true (emissive_material .matte) direction_env)
      counting_echo toy_scene toy_ray 0 (emissive_material .matte) ⟨.fin 0, .fin 0, .fin 0⟩
      ⟨.fin 0, .fin 0, .fin 1⟩ vec4f.zero ⟨0, 0⟩).map (fun r => r.2) = some ⟨4, 2⟩ :=
  ⟨rfl, rfl, by decide, rfl,
    (matte_indirect_sum (toy_externals true (emissive_material .matte) direction_env) 1 toy_scene
      ⟨0⟩ toy_ray 0 ⟨0, 0⟩ (toy_params .raytrace 1 false) ⟨default, 0, 0⟩
      (emissive_material .matte) ⟨.fin 0, .fin 0, .fin 0⟩ ⟨.fin 0, .fin 0, .fin 1⟩
      ⟨.fin 0, .fin 0, .fin 1⟩ ⟨.fin 0, .fin 0, .fin 1⟩ ⟨.fin 3, .fin 2, .fin 1, .fin 1⟩
      ⟨.fin 3, .fin 2, .fin 1, .fin 1⟩ ⟨4, 0⟩ ⟨7, 0⟩ rfl rfl rfl
      (by simp [toy_externals, default_frame_o, vec3f.add, vec3f.zero, float.add])
      (by simp [hard_facing_normal, toy_externals, toy_scene, at_index, toy_ray, vec3f.neg,
        vec3f.dot, float.neg, float.mul, float.add, float.lt]; norm_num)
      rfl
      (opaque_not_passed _ (toy_rand1f_in_unit_interval _ _ _) _ _ rfl) (by decide) rfl rfl
      (shade_raytrace_cutoff _ 0 toy_scene ⟨0⟩ _ 1 _ (toy_params .raytrace 1 false) rfl
        (opaque_not_passed _ (toy_rand1f_in_unit_interval _ _ _) _ _ rfl) (by decide))
      rfl
      (shade_raytrace_cutoff _ 0 toy_scene ⟨0⟩ _ 1 _ (toy_params .raytrace 1 false) rfl
        (opaque_not_passed _ (toy_rand1f_in_unit_interval _ _ _) _ _ rfl) (by decide))).1,
    by simp [shade_raytrace_material, emissive_material, counting_echo, toy_externals]⟩

/-- C27: with the wet overlay enabled, for a hit below the bounce limit on a material that is
not transparent (pass-through not taken, so the radiance so far is the emission),
`shade_raytrace` returns `radiance + rgb_to_rgba(color) * shade_wet(color, uv, params) * L * w`
where `L` is the radiance of the reflected ray at depth `bounce + 1` and `w` is `0.75` when
the material index of the hit instance is `0` and `0.30` otherwise. The roughness does not
enter the weight: it selects the reflected ray only, about the sampled wet normal when it is
`0`, about a second halfway sample (one more draw) otherwise. -/
theorem wet_overlay_weight (ext : externals) (fuel : Nat) (scene : scene_data) (bvh : bvh_scene)
    (ray : ray3f) (bounce : Int) (rng : rng_state) (params : raytrace_params)
    (inst : instance_data) (material : material_point) (position n wet_normal incoming : vec3f)
    (l : vec4f) (rng_in rng_out : rng_state)
    (hhit : (ext.intersect_bvh bvh scene ray).hit = true)
    (hinst : inst = at_index scene.instances (ext.intersect_bvh bvh scene ray).instance_id)
    (hmaterial : material = ext.eval_material scene inst
      (ext.intersect_bvh bvh scene ray).element (ext.intersect_bvh bvh scene ray).uv)
    (hposition : position = ext.transform_point inst.frame
      (ext.eval_position (at_index scene.shapes inst.shape)
        (ext.intersect_bvh bvh scene ray).element (ext.intersect_bvh bvh scene ray).uv))
    (hn : n = hard_facing_normal ext (at_index scene.shapes inst.shape) ray
      (ext.transform_direction inst.frame
        (ext.eval_normal (at_index scene.shapes inst.shape)
          (ext.intersect_bvh bvh scene ray).element (ext.intersect_bvh bvh scene ray).uv)))
    (htype : material.type ≠ .transparent)
    (hpass : (ext.rand1f rng).1.lt ((float.fin 1).sub material.opacity) = false)
    (hdepth : bounce < params.bounces)
    (hwet : params.wet = true)
    (hwn : wet_normal = ext.sample_hemisphere_cospower
      ((float.fin 2).div (material.roughness.pow 2)) n (ext.rand2f (ext.rand1f rng).2).1)
    (hincoming : incoming =
      if material.roughness.eq (.fin 0) then ext.reflect ray.d.neg wet_normal
      else ext.reflect ray.d.neg (ext.sample_hemisphere_cospower
        ((float.fin 2).div (material.roughness.pow 2)) wet_normal
        (ext.rand2f (ext.rand2f (ext.rand1f rng).2).2).1))
    (hrng : rng_in =
      if material.roughness.eq (.fin 0) then (ext.rand2f (ext.rand1f rng).2).2
      else (ext.rand2f (ext.rand2f (ext.rand1f rng).2).2).2)
    (hl : shade_raytrace ext fuel scene bvh ⟨position, incoming⟩ (bounce + 1) rng_in params
      = some (l, rng_out)) :
    shade_raytrace ext (fuel + 1) scene bvh ray bounce rng params =
      some ((rgb_to_rgba material.emission).add
        ((((rgb_to_rgba material.color).mul
          (shade_wet ext material.color (ext.intersect_bvh bvh scene ray).uv params)).mul
          l).scale (if inst.material = 0 then .fin (75 / 100) else .fin (30 / 100))), rng_out) ∧
    (∀ (self : shade_rec) (radiance l0 : vec4f) (exponent : float) (wn : vec3f)
      (g g_out : rng_state),
      self ⟨position,
          if material.roughness.eq (.fin 0) then ext.reflect ray.d.neg wn
          else ext.reflect ray.d.neg (ext.sample_hemisphere_cospower exponent wn (ext.rand2f g).1)⟩
        (bounce + 1) (if material.roughness.eq (.fin 0) then g else (ext.rand2f g).2)
        = some (l0, g_out) →
      shade_raytrace_wet ext self ray bounce params inst (ext.intersect_bvh bvh scene ray)
        material position wn exponent radiance g =
        some (radiance.add
          ((((rgb_to_rgba material.color).mul
            (shade_wet ext material.color (ext.intersect_bvh bvh scene ray).uv params)).mul
            l0).scale (if inst.material = 0 then .fin (75 / 100) else .fin (30 / 100))),
          g_out)) := by
  subst hinst hmaterial hposition hn hwn
  have hb : ¬ params.bounces ≤ bounce := not_le.mpr hdepth
  refine ⟨?_, ?_⟩
  swap
  · intro self radiance l0 exponent wn g g_out hself
    by_cases hr : (ext.eval_material scene
        (at_index scene.instances (ext.intersect_bvh bvh scene ray).instance_id)
        (ext.intersect_bvh bvh scene ray).element
        (ext.intersect_bvh bvh scene ray).uv).roughness.eq (.fin 0) = true
    · simp only [hr, if_true] at hself
      simp only [shade_raytrace_wet, hr, if_true, hself]
    · simp only [hr, Bool.false_eq_true, if_false] at hself
      simp only [shade_raytrace_wet, hr, Bool.false_eq_true, if_false, hself]
  by_cases hr : (ext.eval_material scene
      (at_index scene.instances (ext.intersect_bvh bvh scene ray).instance_id)
      (ext.intersect_bvh bvh scene ray).element
      (ext.intersect_bvh bvh scene ray).uv).roughness.eq (.fin 0) = true
  · rw [if_pos hr] at hincoming hrng
    subst hincoming hrng
    simp only [shade_raytrace, hhit, if_true, hpass, Bool.false_eq_true, if_false, ge_iff_le,
      hb, hwet, ne_eq, htype, not_false_eq_true, shade_raytrace_wet, hr, hl]
  · rw [if_neg hr] at hincoming hrng
    subst hincoming hrng
    simp only [shade_raytrace, hhit, if_true, hpass, Bool.false_eq_true, if_false, ge_iff_le,
      hb, hwet, ne_eq, htype, not_false_eq_true, shade_raytrace_wet, hr, hl]

/-- C27, at a concrete input: the toy scene with the wet overlay on, where every ray hits an
opaque smooth material of emission `(3, 2, 1)`; the hit instance has material index `0`, so
the weight is `0.75`. -/
theorem wet_overlay_weight_witness :
    (emissive_material .matte).type ≠ .transparent ∧
    ({ toy_params .raytrace 1 false with wet := true } : raytrace_params).wet = true ∧
    (⟨default, 0, 0⟩ : instance_data).material = 0 ∧
    shade_raytrace (toy_externals true (emissive_material .matte) direction_env) (1 + 1)
      toy_scene ⟨0⟩ toy_ray 0 ⟨0, 0⟩ { toy_params .raytrace 1 false with wet := true } =
      some ((rgb_to_rgba (emissive_material .matte).emission).add
        ((((rgb_to_rgba (emissive_material .matte).color).mul
          (shade_wet (toy_externals true (emissive_material .matte) direction_env)
            (emissive_material .matte).color
            ((toy_externals true (emissive_material .matte) direction_env).intersect_bvh ⟨0⟩
              toy_scene toy_ray).uv
            { toy_params .raytrace 1 false with wet := true })).mul
          ⟨.fin 3, .fin 2, .fin 1, .fin 1⟩).scale
          (if (⟨default, 0, 0⟩ : instance_data).material = 0 then .fin (75 / 100)
            else .fin (30 / 100))), ⟨4, 0⟩) :=
  ⟨by decide, rfl, rfl,
    (wet_overlay_weight (toy_externals true (emissive_material .matte) direction_env) 1 toy_scene
      ⟨0⟩ toy_ray 0 ⟨0, 0⟩ { toy_params .raytrace 1 false with wet := true } ⟨default, 0, 0⟩
      (emissive_material .matte) ⟨.fin 0, .fin 0, .fin 0⟩ ⟨.fin 0, .fin 0, .fin 1⟩
      ⟨.fin 0, .fin 0, .fin 1⟩ ⟨.fin 0, .fin 0, .fin 1⟩ ⟨.fin 3, .fin 2, .fin 1, .fin 1⟩
      ⟨3, 0⟩ ⟨4, 0⟩ rfl rfl rfl
      (by simp [toy_externals, default_frame_o, vec3f.add, vec3f.zero, float.add])
      (by simp [hard_facing_normal, toy_externals, toy_scene, at_index, toy_ray, vec3f.neg,
        vec3f.dot, float.neg, float.mul, float.add, float.lt]; norm_num)
      (by decide)
      (opaque_not_passed _ (toy_rand1f_in_unit_interval _ _ _) _ _ rfl) (by decide) rfl rfl
      (by simp [toy_externals, emissive_material, float.eq, toy_ray, vec3f.neg, vec3f.dot,
        vec3f.scale, vec3f.sub, float.neg, float.mul, float.add, float.sub]; norm_num)
      (by simp [toy_externals, emissive_material, float.eq])
      (shade_raytrace_cutoff _ 0 toy_scene ⟨0⟩ _ 1 _
        { toy_params .raytrace 1 false with wet := true } rfl
        (opaque_not_passed _ (toy_rand1f_in_unit_interval _ _ _) _ _ rfl) (by decide))).1⟩

/-! ## Refraction and the hard-facing rule -/

theorem vec3f_dot_comm (a b : vec3f) : a.dot b = b.dot a := by
  obtain ⟨ax, ay, az⟩ := a
  obtain ⟨bx, by_, bz⟩ := b
  cases ax <;> cases ay <;> cases az <;> cases bx <;> cases by_ <;> cases bz <;>
    simp [vec3f.dot, float.mul, float.add, mul_comm]

/-- A normal flipped because it faced away from the ray faces the ray afterwards. -/
theorem flipped_normal_faces (w n : vec3f) (h : (w.dot n).lt (.fin 0) = true) :
    (w.dot n.neg).lt (.fin 0) = false ∧ (w.dot n.neg).ge (.fin 0) = true := by
  obtain ⟨wx, wy, wz⟩ := w
  obtain ⟨nx, ny, nz⟩ := n
  cases wx <;> cases wy <;> cases wz <;> cases nx <;> cases ny <;> cases nz <;>
    simp [vec3f.dot, vec3f.neg, float.mul, float.add, float.neg, float.lt, float.ge,
      float.le] at h ⊢
  linarith

/-- C24, on the code: the refractive branch refracts under total internal reflection. The general part: when
the Schlick test fails, the normal already faces the ray, `ior * sin(theta) > 1` and the
reflectance is below the second draw, the switch casts the refracted ray and tints it, because
line 236 refracts when `ior * sin_theta <= 1 || reflectance < draw`. The concrete part: the
ray `slanted_ray` meets the sheet of `probe_externals` (index of refraction `3/2`) with cosine
`3/5`, so `ior * sin(theta) = 6/5 > 1`; the draws are `1/4`, the reflectance is below `1/4`,
and `shade_raytrace` returns the tinted radiance `(3/4, 0, 1/2, 2)` of the refracted ray
`(3/2, 0, 1)`, not the unweighted radiance `(-4/5, 0, 3/5, 2)` of the mirror ray
`(-4/5, 0, 3/5)`. -/
theorem refractive_total_internal_refracts :
    (∀ (ext : externals) (self : shade_rec) (scene : scene_data) (ray : ray3f) (bounce : Int)
      (material : material_point) (position normal : vec3f) (radiance : vec4f)
      (rng : rng_state),
      material.type = .refractive →
      (ext.rand1f rng).1.lt
        (ext.fresnel_schlick ⟨.fin (4 / 100), .fin 0, .fin 0⟩ normal ray.d.neg).x = false →
      (normal.dot ray.d.neg).lt (.fin 0) = false →
      (material.ior.mul (ext.sqrt ((float.fin 1).sub
        (((ray.d.neg.dot normal).fmin (.fin 1)).pow 2)))).le (.fin 1) = false →
      (reflectance ((ray.d.neg.dot normal).fmin (.fin 1)) material.ior).lt
        (ext.rand1f (ext.rand1f rng).2).1 = true →
      shade_raytrace_material ext self scene ray bounce material position normal radiance rng =
        match self ⟨position, ext.refract ray.d.neg normal material.ior⟩ (bounce + 1)
          (ext.rand1f (ext.rand1f rng).2).2 with
        | none => none
        | some (l, g) => some (radiance.add ((rgb_to_rgba material.color).mul l), g)) ∧
    (glass_material.ior.mul (probe_externals.sqrt ((float.fin 1).sub
      (((slanted_ray.d.neg.dot ⟨.fin 0, .fin 0, .fin 1⟩).fmin (.fin 1)).pow 2))) = .fin (6 / 5)) ∧
    (float.fin (6 / 5)).le (.fin 1) = false ∧
    (reflectance ((slanted_ray.d.neg.dot ⟨.fin 0, .fin 0, .fin 1⟩).fmin (.fin 1))
      glass_material.ior).lt (.fin (1 / 4)) = true ∧
    probe_externals.refract slanted_ray.d.neg ⟨.fin 0, .fin 0, .fin 1⟩ glass_material.ior
      = ⟨.fin (3 / 2), .fin 0, .fin 1⟩ ∧
    probe_externals.reflect slanted_ray.d.neg ⟨.fin 0, .fin 0, .fin 1⟩
      = ⟨.fin (-4 / 5), .fin 0, .fin (3 / 5)⟩ ∧
    shade_raytrace probe_externals 2 toy_scene ⟨0⟩ slanted_ray 0 ⟨0, 0⟩
      (toy_params .raytrace 1 false)
      = some (⟨.fin (3 / 4), .fin 0, .fin (1 / 2), .fin 2⟩, ⟨3, 0⟩) ∧
    shade_raytrace probe_externals 2 toy_scene ⟨0⟩ slanted_ray 0 ⟨0, 0⟩
      (toy_params .raytrace 1 false)
      ≠ some ((rgb_to_rgba glass_material.emission).add
          (rgb_to_rgba ⟨.fin (-4 / 5), .fin 0, .fin (3 / 5)⟩), ⟨3, 0⟩) := by
  have hcode : shade_raytrace probe_externals 2 toy_scene ⟨0⟩ slanted_ray 0 ⟨0, 0⟩
      (toy_params .raytrace 1 false)
      = some (⟨.fin (3 / 4), .fin 0, .fin (1 / 2), .fin 2⟩, ⟨3, 0⟩) := by
    simp [shade_raytrace, shade_raytrace_material, hard_facing_normal, probe_externals,
      toy_externals, toy_params, glass_material, slanted_ray, toy_scene, at_index,
      default_frame_o, reflectance, direction_env, rgb_to_rgba, vec3f.zero, vec3f.add,
      vec3f.neg, vec3f.dot, vec4f.add, vec4f.mul, float.lt, float.le, float.add, float.sub,
      float.mul, float.div, float.neg, float.fmin, float.pow]
    try norm_num
  refine ⟨?_, ?_, ?_, ?_, ?_, ?_, hcode, ?_⟩
  · intro ext self scene ray bounce material position normal radiance rng hty hschlick hface
      htir hrefl
    simp only [shade_raytrace_material, hty, hschlick, Bool.false_eq_true, if_false, hface,
      htir, hrefl, if_true]
    try rfl
  · simp [probe_externals, toy_externals, glass_material, slanted_ray, vec3f.neg, vec3f.dot,
      float.neg, float.mul, float.add, float.sub, float.fmin, float.lt, float.pow]
    try norm_num
  · simp [float.le]
    try norm_num
  · simp [reflectance, glass_material, slanted_ray, vec3f.neg, vec3f.dot,
      float.neg, float.mul, float.add, float.sub, float.div, float.fmin, float.lt, float.pow]
    try norm_num
  · simp [probe_externals, toy_externals, glass_material]
  · simp [probe_externals, toy_externals, slanted_ray, vec3f.neg, vec3f.dot, vec3f.scale,
      vec3f.sub, float.neg, float.mul, float.add, float.sub]
    try norm_num
  · rw [hcode]
    simp [rgb_to_rgba, glass_material, vec4f.add, float.add]
    try norm_num

/-- C25, on the code: on a triangle shape the refraction of an exiting ray keeps the index
of refraction.
The general part: for a shape of triangles and a ray that is exiting, `dot(N, -ray.d) < 0`,
the hard-facing rule of lines 132-135 has already replaced the normal by `-N`, and the test
`dot(normal, -ray.d) < 0` of line 232 on the replaced normal fails, so the index is never
inverted. The concrete part: `back_ray` meets the triangle of `toy_scene` from behind,
`dot(N, -ray.d) = -1`; the claim requires the refracted ray `refract(-ray.d, -N, 1/ior)`, in
`probe_externals` the direction `(2/3, 0, -1)`, but `shade_raytrace` refracts with `ior = 3/2`,
direction `(3/2, 0, -1)`, and returns its tinted radiance `(3/4, 0, -1/2, 2)`. On the same
scene with a quad instead of the triangle the index is inverted and the result is
`(1/3, 0, -1/2, 2)`. -/
theorem refractive_exit_keeps_ior :
    (∀ (ext : externals) (shape : shape_data) (ray : ray3f) (normal : vec3f),
      shape.points = [] → shape.lines = [] → shape.triangles ≠ [] →
      (normal.dot ray.d.neg).lt (.fin 0) = true →
      hard_facing_normal ext shape ray normal = normal.neg ∧
      ((hard_facing_normal ext shape ray normal).dot ray.d.neg).lt (.fin 0) = false) ∧
    ((⟨.fin 0, .fin 0, .fin 1⟩ : vec3f).dot back_ray.d.neg).lt (.fin 0) = true ∧
    probe_externals.refract back_ray.d.neg (⟨.fin 0, .fin 0, .fin 1⟩ : vec3f).neg
      ((float.fin 1).div glass_material.ior) = ⟨.fin (2 / 3), .fin 0, .fin (-1)⟩ ∧
    shade_raytrace probe_externals 2 toy_scene ⟨0⟩ back_ray 0 ⟨0, 0⟩
      (toy_params .raytrace 1 false)
      = some ((rgb_to_rgba glass_material.emission).add
          ((rgb_to_rgba glass_material.color).mul
            (rgb_to_rgba ⟨.fin (3 / 2), .fin 0, .fin (-1)⟩)), ⟨2, 0⟩) ∧
    shade_raytrace probe_externals 2 toy_scene ⟨0⟩ back_ray 0 ⟨0, 0⟩
      (toy_params .raytrace 1 false)
      = some (⟨.fin (3 / 4), .fin 0, .fin (-1 / 2), .fin 2⟩, ⟨2, 0⟩) ∧
    shade_raytrace probe_externals 2 toy_scene ⟨0⟩ back_ray 0 ⟨0, 0⟩
      (toy_params .raytrace 1 false)
      ≠ some ((rgb_to_rgba glass_material.emission).add
          ((rgb_to_rgba glass_material.color).mul
            (rgb_to_rgba ⟨.fin (2 / 3), .fin 0, .fin (-1)⟩)), ⟨2, 0⟩) ∧
    shade_raytrace probe_externals 2 quad_scene ⟨0⟩ back_ray 0 ⟨0, 0⟩
      (toy_params .raytrace 1 false)
      = some (⟨.fin (1 / 3), .fin 0, .fin (-1 / 2), .fin 2⟩, ⟨2, 0⟩) := by
  have hcode : shade_raytrace probe_externals 2 toy_scene ⟨0⟩ back_ray 0 ⟨0, 0⟩
      (toy_params .raytrace 1 false)
      = some (⟨.fin (3 / 4), .fin 0, .fin (-1 / 2), .fin 2⟩, ⟨2, 0⟩) := by
    simp [shade_raytrace, shade_raytrace_material, hard_facing_normal, probe_externals,
      toy_externals, toy_params, glass_material, back_ray, toy_scene, at_index,
      default_frame_o, reflectance, direction_env, rgb_to_rgba, vec3f.zero, vec3f.add,
      vec3f.neg, vec3f.dot, vec4f.add, vec4f.mul, float.lt, float.le, float.add, float.sub,
      float.mul, float.div, float.neg, float.fmin, float.pow]
    try norm_num
  refine ⟨?_, ?_, ?_, ?_, hcode, ?_, ?_⟩
  · intro ext shape ray normal hp hl ht hexit
    rw [vec3f_dot_comm] at hexit
    have hflip : hard_facing_normal ext shape ray normal = normal.neg := by
      simp [hard_facing_normal, hp, hl, ht, hexit]
    rw [hflip, vec3f_dot_comm]
    exact ⟨rfl, (flipped_normal_faces _ _ hexit).1⟩
  · simp [back_ray, vec3f.neg, vec3f.dot, float.neg, float.mul, float.add, float.lt]
  · simp [probe_externals, toy_externals, glass_material, vec3f.neg, float.neg, float.div]
    try norm_num
  · rw [hcode]
    simp [rgb_to_rgba, glass_material, vec4f.add, vec4f.mul, float.add, float.mul]
    try norm_num
  · rw [hcode]
    simp [rgb_to_rgba, glass_material, vec4f.add, vec4f.mul, float.add, float.mul]
    try norm_num
  · simp [shade_raytrace, shade_raytrace_material, hard_facing_normal, probe_externals,
      toy_externals, toy_params, glass_material, back_ray, quad_scene, quad_shape, toy_scene,
      at_index, default_frame_o, reflectance, direction_env, rgb_to_rgba, vec3f.zero,
      vec3f.add, vec3f.neg, vec3f.dot, vec4f.add, vec4f.mul, float.lt, float.le, float.add,
      float.sub, float.mul, float.div, float.neg, float.fmin, float.pow]
    try norm_num

/-- C26, as stated, fails for quads: `back_ray` meets a shape made of one quad from behind,
`dot(-ray.d, N) = -1`; the rule has no case for quads and leaves the normal `N` as it is, so
the shading normal has `dot(-ray.d, n') = -1 < 0`. -/
theorem hard_facing_quad_counterexample :
    quad_shape.points = [] ∧ quad_shape.lines = [] ∧ quad_shape.triangles = [] ∧
    quad_shape.quads ≠ [] ∧
    hard_facing_normal probe_externals quad_shape back_ray ⟨.fin 0, .fin 0, .fin 1⟩
      = ⟨.fin 0, .fin 0, .fin 1⟩ ∧
    back_ray.d.neg.dot
      (hard_facing_normal probe_externals quad_shape back_ray ⟨.fin 0, .fin 0, .fin 1⟩)
      = .fin (-1) ∧
    (back_ray.d.neg.dot
      (hard_facing_normal probe_externals quad_shape back_ray ⟨.fin 0, .fin 0, .fin 1⟩)).ge
      (.fin 0) = false := by
  have h : hard_facing_normal probe_externals quad_shape back_ray ⟨.fin 0, .fin 0, .fin 1⟩
      = ⟨.fin 0, .fin 0, .fin 1⟩ := by
    simp [hard_facing_normal, quad_shape]
  refine ⟨rfl, rfl, rfl, by simp [quad_shape], h, ?_, ?_⟩
  · rw [h]
    simp [back_ray, vec3f.neg, vec3f.dot, float.neg, float.mul, float.add]
  · rw [h]
    simp [back_ray, vec3f.neg, vec3f.dot, float.neg, float.mul, float.add, float.ge, float.le]

/-- C26, amended: the hard-facing rule of `shade_raytrace`, with `N` the interpolated
world-space normal. For a shape with points the shading normal is exactly `-ray.d`; otherwise,
for a shape with lines it is `orthonormalize(-ray.d, N)`; otherwise, for a shape with
triangles it is `N` or `-N`, namely `-N` exactly when `dot(-ray.d, N) < 0`, so that
`dot(-ray.d, n') < 0` never holds and `dot(-ray.d, n') >= 0` whenever `dot(-ray.d, N)` is a
number; and for a shape with none of the three (quads only) the normal is `N` unchanged,
whichever way it faces. -/
theorem hard_facing_rule (ext : externals) (shape : shape_data) (ray : ray3f)
    (normal : vec3f) :
    (shape.points ≠ [] → hard_facing_normal ext shape ray normal = ray.d.neg) ∧
    (shape.points = [] → shape.lines ≠ [] →
      hard_facing_normal ext shape ray normal = ext.orthonormalize ray.d.neg normal) ∧
    (shape.points = [] → shape.lines = [] → shape.triangles ≠ [] →
      (hard_facing_normal ext shape ray normal =
        if (ray.d.neg.dot normal).lt (.fin 0) then normal.neg else normal) ∧
      (hard_facing_normal ext shape ray normal = normal ∨
        hard_facing_normal ext shape ray normal = normal.neg) ∧
      (ray.d.neg.dot (hard_facing_normal ext shape ray normal)).lt (.fin 0) = false ∧
      ((ray.d.neg.dot normal).isfinite = true →
        (ray.d.neg.dot (hard_facing_normal ext shape ray normal)).ge (.fin 0) = true)) ∧
    (shape.points = [] → shape.lines = [] → shape.triangles = [] →
      hard_facing_normal ext shape ray normal = normal) := by
  refine ⟨?_, ?_, ?_, ?_⟩
  · intro hp
    simp [hard_facing_normal, hp]
  · intro hp hl
    simp [hard_facing_normal, hp, hl]
  · intro hp hl ht
    have hdef : hard_facing_normal ext shape ray normal =
        if (ray.d.neg.dot normal).lt (.fin 0) then normal.neg else normal := by
      simp [hard_facing_normal, hp, hl, ht]
    cases hlt : (ray.d.neg.dot normal).lt (.fin 0) with
    | true =>
      have hn : hard_facing_normal ext shape ray normal = normal.neg := by
        rw [hdef, hlt]; rfl
      refine ⟨by rw [hn]; rfl, Or.inr hn, ?_, fun _ => ?_⟩
      · rw [hn]; exact (flipped_normal_faces _ _ hlt).1
      · rw [hn]; exact (flipped_normal_faces _ _ hlt).2
    | false =>
      have hn : hard_facing_normal ext shape ray normal = normal := by
        rw [hdef, hlt]; rfl
      refine ⟨by rw [hn]; rfl, Or.inl hn, ?_, fun hfin => ?_⟩
      · rw [hn]; exact hlt
      · rw [hn]
        cases hd : ray.d.neg.dot normal with
        | nonfinite => rw [hd] at hfin; simp [float.isfinite] at hfin
        | fin q =>
          rw [hd] at hlt
          simp [float.lt] at hlt
          simp [float.ge, float.le, hlt]
  · intro hp hl ht
    simp [hard_facing_normal, hp, hl, ht]

/-- C26 amended, at concrete inputs: the triangle of `triangle_shape` met from behind by
`back_ray` gets the flipped normal `(0, 0, -1)`, which faces the ray. -/
theorem hard_facing_rule_witness :
    triangle_shape.points = [] ∧ triangle_shape.lines = [] ∧ triangle_shape.triangles ≠ [] ∧
    hard_facing_normal probe_externals triangle_shape back_ray ⟨.fin 0, .fin 0, .fin 1⟩
      = (if (back_ray.d.neg.dot ⟨.fin 0, .fin 0, .fin 1⟩).lt (.fin 0)
          then (⟨.fin 0, .fin 0, .fin 1⟩ : vec3f).neg else ⟨.fin 0, .fin 0, .fin 1⟩) ∧
    (back_ray.d.neg.dot
      (hard_facing_normal probe_externals triangle_shape back_ray
        ⟨.fin 0, .fin 0, .fin 1⟩)).lt (.fin 0) = false :=
  ⟨rfl, rfl, by simp [triangle_shape],
    ((hard_facing_rule probe_externals triangle_shape back_ray ⟨.fin 0, .fin 0, .fin 1⟩).2.2.1
      rfl rfl (by simp [triangle_shape])).1,
    ((hard_facing_rule probe_externals triangle_shape back_ray ⟨.fin 0, .fin 0, .fin 1⟩).2.2.1
      rfl rfl (by simp [triangle_shape])).2.2.1⟩

/-! ## The unknown-shader error and the depth of the recursion -/

/-- C28: `raytrace_samples` throws exactly when `params.shader` is none of the six recognised
modes and `state.samples < params.samples`, and what it throws then is the runtime error
"sampler unknown"; whenever it throws, the state it leaves is the state it was given; and when
the target sample count is already reached it returns with the state unchanged, whatever the
shader is. -/
theorem raytrace_samples_unknown_shader (ext : externals) (fuel : Nat) (state : raytrace_state)
    (scene : scene_data) (bvh : bvh_scene) (params : raytrace_params) :
    ((raytrace_samples ext fuel state scene bvh params).1
        = .threw (.runtime_error "sampler unknown") ↔
      ((params.shader ≠ .raytrace ∧ params.shader ≠ .matte ∧ params.shader ≠ .eyelight ∧
        params.shader ≠ .normal ∧ params.shader ≠ .texcoord ∧ params.shader ≠ .color) ∧
        state.samples < params.samples)) ∧
    (∀ e, (raytrace_samples ext fuel state scene bvh params).1 = .threw e →
      e = .runtime_error "sampler unknown" ∧
      (raytrace_samples ext fuel state scene bvh params).2 = state) ∧
    (params.samples ≤ state.samples →
      raytrace_samples ext fuel state scene bvh params = (.returned, state)) := by
  have hdone : params.samples ≤ state.samples →
      raytrace_samples ext fuel state scene bvh params = (.returned, state) := by
    intro h
    simp [raytrace_samples, h]
  have hrun : ∀ shader, get_shader ext fuel params = .ok shader →
      ∀ e, (raytrace_samples ext fuel state scene bvh params).1 ≠ .threw e := by
    intro shader hs e
    unfold raytrace_samples
    by_cases h : state.samples ≥ params.samples
    · simp [h]
    · simp only [h, if_false, hs]
      split <;> simp
  have hbad : ∀ tag, params.shader = .other tag → state.samples < params.samples →
      raytrace_samples ext fuel state scene bvh params
        = (.threw (.runtime_error "sampler unknown"), state) := by
    intro tag hs h
    have h2 : ¬ state.samples ≥ params.samples := not_le.mpr h
    simp [raytrace_samples, h2, get_shader, hs]
  by_cases h : params.samples ≤ state.samples
  · have h3 : ¬ state.samples < params.samples := not_lt.mpr h
    refine ⟨?_, ?_, hdone⟩
    · rw [hdone h]
      simp [h3]
    · intro e he
      rw [hdone h] at he
      simp at he
  · have h3 : state.samples < params.samples := not_le.mp h
    cases hs : params.shader with
    | other tag =>
      refine ⟨?_, ?_, hdone⟩
      · rw [hbad tag hs h3]
        simp [h3]
      · intro e he
        rw [hbad tag hs h3] at he ⊢
        simp at he
        exact ⟨he.symm, rfl⟩
    | raytrace =>
      have hok := hrun (shade_raytrace ext fuel) (by simp [get_shader, hs])
      exact ⟨⟨fun he => absurd he (hok _), fun hh => absurd rfl hh.1.1⟩,
        fun e he => absurd he (hok e), hdone⟩
    | matte =>
      have hok := hrun (shade_matte ext fuel) (by simp [get_shader, hs])
      exact ⟨⟨fun he => absurd he (hok _), fun hh => absurd rfl hh.1.2.1⟩,
        fun e he => absurd he (hok e), hdone⟩
    | eyelight =>
      have hok := hrun (shade_eyelight ext) (by simp [get_shader, hs])
      exact ⟨⟨fun he => absurd he (hok _), fun hh => absurd rfl hh.1.2.2.1⟩,
        fun e he => absurd he (hok e), hdone⟩
    | normal =>
      have hok := hrun (shade_normal ext) (by simp [get_shader, hs])
      exact ⟨⟨fun he => absurd he (hok _), fun hh => absurd rfl hh.1.2.2.2.1⟩,
        fun e he => absurd he (hok e), hdone⟩
    | texcoord =>
      have hok := hrun (shade_texcoord ext) (by simp [get_shader, hs])
      exact ⟨⟨fun he => absurd he (hok _), fun hh => absurd rfl hh.1.2.2.2.2.1⟩,
        fun e he => absurd he (hok e), hdone⟩
    | color =>
      have hok := hrun (shade_color ext) (by simp [get_shader, hs])
      exact ⟨⟨fun he => absurd he (hok _), fun hh => absurd rfl hh.1.2.2.2.2.2⟩,
        fun e he => absurd he (hok e), hdone⟩

/-- C28, at concrete inputs: a fresh one-pixel state with an unrecognised shader and target 1
throws and is left as it was; the state `two_pass_state`, which has reached the target 1, is
returned as it is with the same shader. -/
theorem raytrace_samples_unknown_shader_witness :
    raytrace_samples (toy_externals true (toy_material .matte) direction_env) 1 fresh_state
      toy_scene ⟨0⟩ (toy_params (.other 7) 1 false)
      = (.threw (.runtime_error "sampler unknown"), fresh_state) ∧
    raytrace_samples (toy_externals true (toy_material .matte) direction_env) 1 two_pass_state
      toy_scene ⟨0⟩ (toy_params (.other 7) 1 false) = (.returned, two_pass_state) :=
  ⟨Prod.ext
    ((raytrace_samples_unknown_shader (toy_externals true (toy_material .matte) direction_env)
      1 fresh_state toy_scene ⟨0⟩ (toy_params (.other 7) 1 false)).1.mpr
      ⟨⟨by decide, by decide, by decide, by decide, by decide, by decide⟩, by decide⟩)
    (by decide),
    (raytrace_samples_unknown_shader (toy_externals true (toy_material .matte) direction_env)
      1 two_pass_state toy_scene ⟨0⟩ (toy_params (.other 7) 1 false)).2.2 (by decide)⟩

/-- A hit of `shade_matte` at or beyond the bounce limit: the emission, with any fuel but
none and no draw. -/
theorem shade_matte_cutoff (ext : externals) (fuel : Nat) (scene : scene_data)
    (bvh : bvh_scene) (ray : ray3f) (bounce : Int) (rng : rng_state) (params : raytrace_params)
    (hhit : (ext.intersect_bvh bvh scene ray).hit = true)
    (hb : params.bounces ≤ bounce) :
    shade_matte ext (fuel + 1) scene bvh ray bounce rng params =
      some (rgb_to_rgba (ext.eval_material scene
        (at_index scene.instances (ext.intersect_bvh bvh scene ray).instance_id)
        (ext.intersect_bvh bvh scene ray).element (ext.intersect_bvh bvh scene ray).uv).emission,
        rng) := by
  simp [shade_matte, hhit, hb]

/-- For `shade_matte`, fuel beyond the number of bounces left is enough, in every scene. -/
theorem shade_matte_total (ext : externals) (scene : scene_data) (bvh : bvh_scene)
    (params : raytrace_params) :
    ∀ (fuel : Nat) (ray : ray3f) (bounce : Int) (rng : rng_state),
      (params.bounces - bounce).toNat < fuel →
      ∃ x, shade_matte ext fuel scene bvh ray bounce rng params = some x := by
  intro fuel
  induction fuel with
  | zero => intro ray bounce rng h; omega
  | succ fuel ih =>
    intro ray bounce rng h
    cases hhit : (ext.intersect_bvh bvh scene ray).hit with
    | false => exact ⟨_, shade_matte_miss ext fuel scene bvh ray bounce rng params hhit⟩
    | true =>
      by_cases hb : params.bounces ≤ bounce
      · exact ⟨_, shade_matte_cutoff ext fuel scene bvh ray bounce rng params hhit hb⟩
      · simp only [shade_matte, hhit, if_true, ge_iff_le, hb, if_false]
        split
        · rename_i hnone
          obtain ⟨x, hx⟩ := ih _ (bounce + 1) _ (by omega)
          rw [hx] at hnone
          exact absurd hnone (Option.some_ne_none _)
        · exact ⟨_, rfl⟩

/-- The material switch and the wet overlay call the recursion at depth `bounce + 1` only:
two stand-ins for the recursive call that agree at that depth give the same result. -/
theorem shade_raytrace_calls_next_depth (ext : externals) (self other : shade_rec)
    (bounce : Int) (hagree : ∀ r g, self r (bounce + 1) g = other r (bounce + 1) g) :
    (∀ (scene : scene_data) (ray : ray3f) (material : material_point)
      (position normal : vec3f) (radiance : vec4f) (rng : rng_state),
      shade_raytrace_material ext self scene ray bounce material position normal radiance rng =
        shade_raytrace_material ext other scene ray bounce material position normal radiance
          rng) ∧
    (∀ (ray : ray3f) (params : raytrace_params) (inst : instance_data)
      (intersection : bvh_intersection) (material : material_point)
      (position wet_normal : vec3f) (exponent : float) (radiance : vec4f) (rng : rng_state),
      shade_raytrace_wet ext self ray bounce params inst intersection material position
        wet_normal exponent radiance rng =
        shade_raytrace_wet ext other ray bounce params inst intersection material position
          wet_normal exponent radiance rng) := by
  constructor
  · intro scene ray material position normal radiance rng
    simp only [shade_raytrace_material, hagree]
  · intro ray params inst intersection material position wet_normal exponent radiance rng
    simp only [shade_raytrace_wet, hagree]

/-- C29: the depth of the recursion. If the draws of `rand1f` are in `[0, 1)` and every
material the oracle can return has opacity `1`, the pass-through draw `u < 1 - opacity` never
succeeds; from every ray, random stream and start depth `b`, `shade_raytrace` returns with
fuel `max(0, params.bounces - b) + 1`, that is with nesting depth at most that, and with any
larger fuel; and at a depth `b >= params.bounces` it returns with fuel 1, making no recursive
call, so the calls are made at depths `b + 1, ..., params.bounces` only. `shade_matte`
satisfies the same bounds in every scene, with no assumption on the opacity or the draws.
In both, a level at depth `b` calls the recursion at depth `b + 1` only. -/
theorem recursion_depth_bound (ext : externals) (scene : scene_data) (bvh : bvh_scene)
    (params : raytrace_params) :
    (rand1f_in_unit_interval ext →
      (∀ inst element uv, (ext.eval_material scene inst element uv).opacity = .fin 1) →
      (∀ rng inst element uv, (ext.rand1f rng).1.lt
        ((float.fin 1).sub (ext.eval_material scene inst element uv).opacity) = false) ∧
      (∀ (ray : ray3f) (b : Int) (rng : rng_state),
        ∃ x, shade_raytrace ext ((params.bounces - b).toNat + 1) scene bvh ray b rng params
          = some x) ∧
      (∀ (fuel : Nat) (ray : ray3f) (b : Int) (rng : rng_state),
        (params.bounces - b).toNat < fuel →
        ∃ x, shade_raytrace ext fuel scene bvh ray b rng params = some x) ∧
      (∀ (ray : ray3f) (b : Int) (rng : rng_state), params.bounces ≤ b →
        ∃ x, shade_raytrace ext 1 scene bvh ray b rng params = some x)) ∧
    (∀ (ray : ray3f) (b : Int) (rng : rng_state),
      ∃ x, shade_matte ext ((params.bounces - b).toNat + 1) scene bvh ray b rng params
        = some x) ∧
    (∀ (fuel : Nat) (ray : ray3f) (b : Int) (rng : rng_state),
      (params.bounces - b).toNat < fuel →
      ∃ x, shade_matte ext fuel scene bvh ray b rng params = some x) ∧
    (∀ (ray : ray3f) (b : Int) (rng : rng_state), params.bounces ≤ b →
      ∃ x, shade_matte ext 1 scene bvh ray b rng params = some x) ∧
    (∀ (self other : shade_rec) (b : Int),
      (∀ r g, self r (b + 1) g = other r (b + 1) g) →
      (∀ (ray : ray3f) (material : material_point) (position normal : vec3f)
        (radiance : vec4f) (rng : rng_state),
        shade_raytrace_material ext self scene ray b material position normal radiance rng =
          shade_raytrace_material ext other scene ray b material position normal radiance
            rng) ∧
      (∀ (ray : ray3f) (inst : instance_data) (intersection : bvh_intersection)
        (material : material_point) (position wet_normal : vec3f) (exponent : float)
        (radiance : vec4f) (rng : rng_state),
        shade_raytrace_wet ext self ray b params inst intersection material position
          wet_normal exponent radiance rng =
          shade_raytrace_wet ext other ray b params inst intersection material position
            wet_normal exponent radiance rng)) := by
  refine ⟨?_, ?_, shade_matte_total ext scene bvh params, ?_, ?_⟩
  · intro hrand hop
    refine ⟨fun rng inst element uv => opaque_not_passed ext hrand rng _ (hop inst element uv),
      fun ray b rng => shade_raytrace_opaque_total ext scene bvh params hrand hop _ ray b rng
        (Nat.lt_succ_self _),
      shade_raytrace_opaque_total ext scene bvh params hrand hop, ?_⟩
    intro ray b rng hb
    exact shade_raytrace_opaque_total ext scene bvh params hrand hop 1 ray b rng (by omega)
  · intro ray b rng
    exact shade_matte_total ext scene bvh params _ ray b rng (Nat.lt_succ_self _)
  · intro ray b rng hb
    exact shade_matte_total ext scene bvh params 1 ray b rng (by omega)
  · intro self other b hagree
    exact ⟨fun ray material position normal radiance rng =>
        (shade_raytrace_calls_next_depth ext self other b hagree).1 scene ray material position
          normal radiance rng,
      fun ray inst intersection material position wet_normal exponent radiance rng =>
        (shade_raytrace_calls_next_depth ext self other b hagree).2 ray params inst
          intersection material position wet_normal exponent radiance rng⟩

/-- C29, at a concrete input: the toy scene with an opaque matte material and bounce limit 1;
from depth 0 both shaders return with fuel 2, and from depth 1 with fuel 1; from depth 0
fuel 1 is not enough for `shade_raytrace`, so the bound is reached. -/
theorem recursion_depth_bound_witness :
    rand1f_in_unit_interval (toy_externals true (toy_material .matte) direction_env) ∧
    (∀ inst element uv,
      ((toy_externals true (toy_material .matte) direction_env).eval_material toy_scene inst
        element uv).opacity = .fin 1) ∧
    (∃ x, shade_raytrace (toy_externals true (toy_material .matte) direction_env)
      (((toy_params .raytrace 1 false).bounces - 0).toNat + 1) toy_scene ⟨0⟩ toy_ray 0 ⟨0, 0⟩
      (toy_params .raytrace 1 false) = some x) ∧
    (∃ x, shade_raytrace (toy_externals true (toy_material .matte) direction_env) 1 toy_scene
      ⟨0⟩ toy_ray 1 ⟨0, 0⟩ (toy_params .raytrace 1 false) = some x) ∧
    (∃ x, shade_matte (toy_externals true (toy_material .matte) direction_env)
      (((toy_params .raytrace 1 false).bounces - 0).toNat + 1) toy_scene ⟨0⟩ toy_ray 0 ⟨0, 0⟩
      (toy_params .raytrace 1 false) = some x) ∧
    shade_raytrace (toy_externals true (toy_material .matte) direction_env) 1 toy_scene ⟨0⟩
      toy_ray 0 ⟨0, 0⟩ (toy_params .raytrace 1 false) = none :=
  ⟨toy_rand1f_in_unit_interval _ _ _, fun _ _ _ => rfl,
    ((recursion_depth_bound (toy_externals true (toy_material .matte) direction_env) toy_scene
      ⟨0⟩ (toy_params .raytrace 1 false)).1 (toy_rand1f_in_unit_interval _ _ _)
      (fun _ _ _ => rfl)).2.1 toy_ray 0 ⟨0, 0⟩,
    ((recursion_depth_bound (toy_externals true (toy_material .matte) direction_env) toy_scene
      ⟨0⟩ (toy_params .raytrace 1 false)).1 (toy_rand1f_in_unit_interval _ _ _)
      (fun _ _ _ => rfl)).2.2.2 toy_ray 1 ⟨0, 0⟩ (by decide),
    (recursion_depth_bound (toy_externals true (toy_material .matte) direction_env) toy_scene
      ⟨0⟩ (toy_params .raytrace 1 false)).2.1 toy_ray 0 ⟨0, 0⟩,
    by simp [shade_raytrace, shade_raytrace_material, toy_externals, toy_material, toy_params,
      float.lt, float.sub]; norm_num⟩

/-! ## The mosaic effect -/

theorem pixel_index_bounds (w h i j : Int) (hi0 : 0 ≤ i) (hi : i < w) (hj0 : 0 ≤ j)
    (hj : j < h) : 0 ≤ j * w + i ∧ j * w + i < w * h := by
  constructor
  · have : 0 ≤ j * w := mul_nonneg hj0 (by omega)
    omega
  · have h1 : (j + 1) * w ≤ h * w := mul_le_mul_of_nonneg_right (by omega) (by omega)
    nlinarith

theorem pixel_index_inj (w i j i2 j2 : Int) (hi0 : 0 ≤ i) (hi : i < w) (hi20 : 0 ≤ i2)
    (hi2 : i2 < w) (h : j * w + i = j2 * w + i2) : i = i2 ∧ j = j2 := by
  have hj : j = j2 := by
    rcases lt_trichotomy j j2 with hlt | heq | hgt
    · exfalso
      have : (j + 1) * w ≤ j2 * w := mul_le_mul_of_nonneg_right (by omega) (by omega)
      nlinarith
    · exact heq
    · exfalso
      have : (j2 + 1) * w ≤ j * w := mul_le_mul_of_nonneg_right (by omega) (by omega)
      nlinarith
  subst hj
  exact ⟨by omega, rfl⟩

/-- Reading pixel `(i2, j2)` after writing pixel `(i, j)`, both inside the image. -/
theorem color_image_get_put (image : color_image) (v : vec4f) (i j i2 j2 : Int)
    (hsize : image.pixels.length = (image.width * image.height).toNat)
    (hi0 : 0 ≤ i) (hi : i < image.width) (hj0 : 0 ≤ j) (hj : j < image.height)
    (hi20 : 0 ≤ i2) (hi2 : i2 < image.width) (hj20 : 0 ≤ j2) (_hj2 : j2 < image.height) :
    (image.put i j v).get i2 j2 = if i2 = i ∧ j2 = j then v else image.get i2 j2 := by
  obtain ⟨h0, hlt⟩ := pixel_index_bounds image.width image.height i j hi0 hi hj0 hj
  have h20 : 0 ≤ j2 * image.width + i2 := by
    have : 0 ≤ j2 * image.width := mul_nonneg hj20 (by omega)
    omega
  have hlen : (j * image.width + i).toNat < image.pixels.length := by
    rw [hsize]; omega
  simp only [color_image.put, h0, if_true, color_image.get, at_index, h20, getD_set, hlen,
    and_true]
  by_cases hsame : i2 = i ∧ j2 = j
  · obtain ⟨h1, h2⟩ := hsame
    subst h1 h2
    simp
  · have hne : ¬ (j * image.width + i).toNat = (j2 * image.width + i2).toNat := by
      intro heq
      have heq2 : j * image.width + i = j2 * image.width + i2 := by omega
      obtain ⟨h1, h2⟩ := pixel_index_inj image.width i j i2 j2 hi0 hi hi20 hi2 heq2
      exact hsame ⟨h1.symm, h2.symm⟩
    simp [hne, hsame]

/-- The top-left corner of the block of `i`: inside the image, not after `i`, and its own
corner. -/
theorem block_corner (i m : Int) (hi : 0 ≤ i) (hm : 0 < m) :
    0 ≤ i - i.tmod m ∧ i - i.tmod m ≤ i ∧
    (i - i.tmod m) - (i - i.tmod m).tmod m = i - i.tmod m := by
  have h1 : i.tmod m = i % m := Int.tmod_eq_emod hi hm.le
  have h2 : 0 ≤ i % m := Int.emod_nonneg i hm.ne'
  have h3 : m * (i / m) + i % m = i := Int.ediv_add_emod i m
  have h4 : 0 ≤ m * (i / m) := mul_nonneg hm.le (Int.ediv_nonneg hi hm.le)
  have h5 : i - i % m = m * (i / m) := by omega
  have h6 : (m * (i / m)).tmod m = 0 := by
    rw [Int.tmod_eq_emod h4 hm.le, Int.mul_emod_right]
  rw [h1, h5, h6]
  omega

theorem mosaic_invariant_congr (params : grade_params) (orig cur : color_image)
    (p q : Int → Int → Prop) (hpq : ∀ i j, p i j ↔ q i j)
    (h : mosaic_invariant params orig cur p) : mosaic_invariant params orig cur q := by
  obtain ⟨hw, hh, hl, hpix⟩ := h
  refine ⟨hw, hh, hl, fun i j hi0 hi hj0 hj => ?_⟩
  obtain ⟨h1, h2⟩ := hpix i j hi0 hi hj0 hj
  exact ⟨fun hq => h1 ((hpq i j).mpr hq), fun hq => h2 (fun hp => hq ((hpq i j).mp hp))⟩

/-- One step of the loops keeps the invariant and marks its pixel as visited. -/
theorem mosaic_pixel_invariant (params : grade_params) (orig cur : color_image)
    (done : Int → Int → Prop) (i j : Int) (hm : 0 < params.mosaic)
    (hsize : orig.pixels.length = (orig.width * orig.height).toNat)
    (hi0 : 0 ≤ i) (hi : i < orig.width) (hj0 : 0 ≤ j) (hj : j < orig.height)
    (h : mosaic_invariant params orig cur done) :
    mosaic_invariant params orig (mosaic_pixel params cur i j)
      (fun i2 j2 => done i2 j2 ∨ (i2 = i ∧ j2 = j)) := by
  obtain ⟨hw, hh, hl, hpix⟩ := h
  have hcsize : cur.pixels.length = (cur.width * cur.height).toNat := by
    rw [hl, hw, hh, hsize]
  obtain ⟨hbi0, hbi, hbii⟩ := block_corner i params.mosaic hi0 hm
  obtain ⟨hbj0, hbj, hbjj⟩ := block_corner j params.mosaic hj0 hm
  have hread : xyz (cur.get (i - i.tmod params.mosaic) (j - j.tmod params.mosaic)) =
      xyz (orig.get (i - i.tmod params.mosaic) (j - j.tmod params.mosaic)) := by
    obtain ⟨h1, h2⟩ := hpix (i - i.tmod params.mosaic) (j - j.tmod params.mosaic) hbi0
      (by omega) hbj0 (by omega)
    by_cases hd : done (i - i.tmod params.mosaic) (j - j.tmod params.mosaic)
    · rw [h1 hd, hbii, hbjj]
    · rw [h2 hd]
  have h0 : 0 ≤ j * cur.width + i :=
    (pixel_index_bounds cur.width cur.height i j hi0 (by omega) hj0 (by omega)).1
  refine ⟨?_, ?_, ?_, ?_⟩
  · simp only [mosaic_pixel, color_image.put, h0, if_true]
    exact hw
  · simp only [mosaic_pixel, color_image.put, h0, if_true]
    exact hh
  · simp only [mosaic_pixel, color_image.put, h0, if_true, List.length_set]
    exact hl
  · intro i2 j2 hi20 hi2 hj20 hj2
    have hget := color_image_get_put cur
      ⟨(xyz (cur.get (i - i.tmod params.mosaic) (j - j.tmod params.mosaic))).x,
        (xyz (cur.get (i - i.tmod params.mosaic) (j - j.tmod params.mosaic))).y,
        (xyz (cur.get (i - i.tmod params.mosaic) (j - j.tmod params.mosaic))).z, .fin 0⟩
      i j i2 j2 hcsize hi0 (by omega) hj0 (by omega) hi20 (by omega) hj20 (by omega)
    have hstep : (mosaic_pixel params cur i j).get i2 j2 =
        if i2 = i ∧ j2 = j then
          ⟨(xyz (cur.get (i - i.tmod params.mosaic) (j - j.tmod params.mosaic))).x,
            (xyz (cur.get (i - i.tmod params.mosaic) (j - j.tmod params.mosaic))).y,
            (xyz (cur.get (i - i.tmod params.mosaic) (j - j.tmod params.mosaic))).z, .fin 0⟩
        else cur.get i2 j2 := hget
    obtain ⟨h1, h2⟩ := hpix i2 j2 hi20 hi2 hj20 hj2
    by_cases hsame : i2 = i ∧ j2 = j
    · rw [hstep, if_pos hsame]
      obtain ⟨e1, e2⟩ := hsame
      subst e1 e2
      refine ⟨fun _ => ?_, fun hnot => absurd (Or.inr ⟨rfl, rfl⟩) hnot⟩
      rw [← hread]
      rfl
    · rw [hstep, if_neg hsame]
      refine ⟨fun hd => ?_, fun hnot => h2 (fun hd => hnot (Or.inl hd))⟩
      rcases hd with hd | hd
      · exact h1 hd
      · exact absurd hd hsame

/-- The inner loop, over the rows `js` of column `i`. -/
theorem mosaic_column_invariant (params : grade_params) (orig : color_image) (i : Int)
    (hm : 0 < params.mosaic)
    (hsize : orig.pixels.length = (orig.width * orig.height).toNat)
    (hi0 : 0 ≤ i) (hi : i < orig.width) :
    ∀ (js : List Nat) (cur : color_image) (done : Int → Int → Prop),
      (∀ j ∈ js, (j : Int) < orig.height) →
      mosaic_invariant params orig cur done →
      mosaic_invariant params orig
        (js.foldl (fun (image : color_image) (j : Nat) => mosaic_pixel params image i (j : Int))
          cur)
        (fun i2 j2 => done i2 j2 ∨ (i2 = i ∧ ∃ j ∈ js, j2 = (j : Int))) := by
  intro js
  induction js with
  | nil =>
    intro cur done _ h
    exact mosaic_invariant_congr params orig cur done _ (fun i2 j2 => by simp) h
  | cons j rest ih =>
    intro cur done hjs h
    have hstep := mosaic_pixel_invariant params orig cur done i (j : Int) hm hsize hi0 hi
      (by omega) (hjs j (List.mem_cons_self _ _)) h
    have hrest := ih (mosaic_pixel params cur i (j : Int)) _
      (fun k hk => hjs k (List.mem_cons_of_mem _ hk)) hstep
    rw [List.foldl_cons]
    refine mosaic_invariant_congr params orig _ _ _ (fun i2 j2 => ?_) hrest
    simp only [List.mem_cons, exists_eq_or_imp]
    constructor
    · rintro ((hd | ⟨h1, h2⟩) | ⟨h1, he⟩)
      · exact Or.inl hd
      · exact Or.inr ⟨h1, Or.inl h2⟩
      · exact Or.inr ⟨h1, Or.inr he⟩
    · rintro (hd | ⟨h1, h2 | he⟩)
      · exact Or.inl (Or.inl hd)
      · exact Or.inl (Or.inr ⟨h1, h2⟩)
      · exact Or.inr ⟨h1, he⟩

/-- The outer loop, over the columns `cols`, each with all the rows `0 .. rows - 1`. -/
theorem mosaic_loops_invariant (params : grade_params) (orig : color_image) (rows : Nat)
    (hm : 0 < params.mosaic)
    (hsize : orig.pixels.length = (orig.width * orig.height).toNat)
    (hrows : ∀ j ∈ List.range rows, (j : Int) < orig.height) :
    ∀ (cols : List Nat) (cur : color_image) (done : Int → Int → Prop),
      (∀ i ∈ cols, (i : Int) < orig.width) →
      mosaic_invariant params orig cur done →
      mosaic_invariant params orig
        (cols.foldl (fun (image : color_image) (i : Nat) =>
          (List.range rows).foldl
            (fun (image : color_image) (j : Nat) => mosaic_pixel params image (i : Int) (j : Int))
            image) cur)
        (fun i2 j2 => done i2 j2 ∨
          ((∃ i ∈ cols, i2 = (i : Int)) ∧ ∃ j ∈ List.range rows, j2 = (j : Int))) := by
  intro cols
  induction cols with
  | nil =>
    intro cur done _ h
    exact mosaic_invariant_congr params orig cur done _ (fun i2 j2 => by simp) h
  | cons i rest ih =>
    intro cur done hcols h
    have hcol := mosaic_column_invariant params orig (i : Int) hm hsize (by omega)
      (hcols i (List.mem_cons_self _ _)) (List.range rows) cur done hrows h
    have hrest := ih _ _ (fun k hk => hcols k (List.mem_cons_of_mem _ hk)) hcol
    rw [List.foldl_cons]
    refine mosaic_invariant_congr params orig _ _ _ (fun i2 j2 => ?_) hrest
    simp only [List.mem_cons, exists_eq_or_imp]
    constructor
    · rintro ((hd | ⟨h1, hr⟩) | ⟨he, hr⟩)
      · exact Or.inl hd
      · exact Or.inr ⟨Or.inl h1, hr⟩
      · exact Or.inr ⟨Or.inr he, hr⟩
    · rintro (hd | ⟨h1 | he, hr⟩)
      · exact Or.inl (Or.inl hd)
      · exact Or.inl (Or.inr ⟨h1, hr⟩)
      · exact Or.inr ⟨he, hr⟩

/-- After `applyMosaicEffect` every pixel of the image has been visited. -/
theorem applyMosaicEffect_invariant (params : grade_params) (to_grade : color_image)
    (hm : 0 < params.mosaic)
    (hsize : to_grade.pixels.length = (to_grade.width * to_grade.height).toNat) :
    mosaic_invariant params to_grade (applyMosaicEffect params to_grade)
      (fun i j => 0 ≤ i ∧ i < to_grade.width ∧ 0 ≤ j ∧ j < to_grade.height) := by
  have hstart : mosaic_invariant params to_grade to_grade (fun _ _ => False) :=
    ⟨rfl, rfl, rfl, fun i j _ _ _ _ => ⟨fun hf => absurd hf id, fun _ => rfl⟩⟩
  have hloops := mosaic_loops_invariant params to_grade to_grade.height.toNat hm hsize
    (fun j hj => by have := List.mem_range.mp hj; omega)
    (List.range to_grade.width.toNat) to_grade _
    (fun i hi => by have := List.mem_range.mp hi; omega) hstart
  refine mosaic_invariant_congr params to_grade _ _ _ (fun i j => ?_) hloops
  constructor
  · rintro (hf | ⟨⟨a, ha, rfl⟩, ⟨b, hb, rfl⟩⟩)
    · exact absurd hf id
    · have h1 := List.mem_range.mp ha
      have h2 := List.mem_range.mp hb
      omega
  · rintro ⟨hi0, hi, hj0, hj⟩
    refine Or.inr ⟨⟨i.toNat, List.mem_range.mpr (by omega), by omega⟩,
      ⟨j.toNat, List.mem_range.mpr (by omega), by omega⟩⟩

/-- C30: for every image whose buffer holds `width * height` pixels and every block size
`m = params.mosaic > 0`, after `applyMosaicEffect` the rgb of every pixel `(i, j)` of the image
is the rgb that pixel `(i - i mod m, j - j mod m)` had before the call, although the image is
updated in place: that pixel is inside the image, is not after `(i, j)` in either coordinate,
so the loops visit it no later, and it maps to itself. The size of the image is kept, and the
effect is idempotent on the rgb channels: applied twice it gives the same rgb as applied
once. With `m > 0` the call in `grade_image` is made. -/
theorem mosaic_block_colors (params : grade_params) (to_grade : color_image)
    (hm : 0 < params.mosaic)
    (hsize : to_grade.pixels.length = (to_grade.width * to_grade.height).toNat) :
    (∀ i j : Int, 0 ≤ i → i < to_grade.width → 0 ≤ j → j < to_grade.height →
      xyz ((applyMosaicEffect params to_grade).get i j) =
        xyz (to_grade.get (i - i.tmod params.mosaic) (j - j.tmod params.mosaic)) ∧
      (0 ≤ i - i.tmod params.mosaic ∧ i - i.tmod params.mosaic ≤ i ∧
        0 ≤ j - j.tmod params.mosaic ∧ j - j.tmod params.mosaic ≤ j) ∧
      ((i - i.tmod params.mosaic) - (i - i.tmod params.mosaic).tmod params.mosaic
          = i - i.tmod params.mosaic ∧
        (j - j.tmod params.mosaic) - (j - j.tmod params.mosaic).tmod params.mosaic
          = j - j.tmod params.mosaic) ∧
      xyz ((applyMosaicEffect params (applyMosaicEffect params to_grade)).get i j) =
        xyz ((applyMosaicEffect params to_grade).get i j)) ∧
    ((applyMosaicEffect params to_grade).width = to_grade.width ∧
      (applyMosaicEffect params to_grade).height = to_grade.height ∧
      (applyMosaicEffect params to_grade).pixels.length = to_grade.pixels.length) ∧
    grade_image_mosaic params to_grade = applyMosaicEffect params to_grade := by
  obtain ⟨hw, hh, hl, hpix⟩ := applyMosaicEffect_invariant params to_grade hm hsize
  have hsize2 : (applyMosaicEffect params to_grade).pixels.length =
      ((applyMosaicEffect params to_grade).width *
        (applyMosaicEffect params to_grade).height).toNat := by
    rw [hl, hw, hh, hsize]
  obtain ⟨_, _, _, hpix2⟩ :=
    applyMosaicEffect_invariant params (applyMosaicEffect params to_grade) hm hsize2
  refine ⟨fun i j hi0 hi hj0 hj => ?_, ⟨hw, hh, hl⟩, ?_⟩
  · obtain ⟨hbi0, hbi, hbii⟩ := block_corner i params.mosaic hi0 hm
    obtain ⟨hbj0, hbj, hbjj⟩ := block_corner j params.mosaic hj0 hm
    have h1 := (hpix i j hi0 hi hj0 hj).1 ⟨hi0, hi, hj0, hj⟩
    have h2 := (hpix2 i j hi0 (by omega) hj0 (by omega)).1 ⟨hi0, by omega, hj0, by omega⟩
    have h3 := (hpix (i - i.tmod params.mosaic) (j - j.tmod params.mosaic) hbi0 (by omega)
      hbj0 (by omega)).1 ⟨hbi0, by omega, hbj0, by omega⟩
    refine ⟨h1, ⟨hbi0, hbi, hbj0, hbj⟩, ⟨hbii, hbjj⟩, ?_⟩
    rw [h2, h3, hbii, hbjj, h1]
  · have hne : params.mosaic ≠ 0 := hm.ne'
    simp [grade_image_mosaic, hne]

/-- C30, at a concrete input: the `2 x 2` image `checker_image` with block size 2. Every pixel
gets the rgb `(1, 0, 0)` of pixel `(0, 0)`, and a second application changes nothing. -/
theorem mosaic_block_colors_witness :
    (0 : Int) < (mosaic_params 2).mosaic ∧
    checker_image.pixels.length = (checker_image.width * checker_image.height).toNat ∧
    xyz ((applyMosaicEffect (mosaic_params 2) checker_image).get 1 1) =
      xyz (checker_image.get (1 - (1 : Int).tmod (mosaic_params 2).mosaic)
        (1 - (1 : Int).tmod (mosaic_params 2).mosaic)) ∧
    xyz (checker_image.get (1 - (1 : Int).tmod (mosaic_params 2).mosaic)
      (1 - (1 : Int).tmod (mosaic_params 2).mosaic)) = ⟨.fin 1, .fin 0, .fin 0⟩ ∧
    xyz (checker_image.get 1 1) = ⟨.fin 1, .fin 1, .fin 1⟩ ∧
    xyz ((applyMosaicEffect (mosaic_params 2)
      (applyMosaicEffect (mosaic_params 2) checker_image)).get 1 1) =
      xyz ((applyMosaicEffect (mosaic_params 2) checker_image).get 1 1) :=
  ⟨by decide, by decide,
    ((mosaic_block_colors (mosaic_params 2) checker_image (by decide) (by decide)).1 1 1
      (by decide) (by decide) (by decide) (by decide)).1,
    rfl, rfl,
    ((mosaic_block_colors (mosaic_params 2) checker_image (by decide) (by decide)).1 1 1
      (by decide) (by decide) (by decide) (by decide)).2.2.2⟩

end yocto
